import Mathlib

/-! WiFiPower real-time-clock drivers: a shallow embedding

The development embeds `src/RtcDS1302.cpp` (the bit-banged three-wire DS1302
driver).  Pin input and output are made explicit: every driver function takes
the trace of pin events produced so far and returns the extended trace, and the
level returned by a pin read is supplied by an environment that sees the whole
history.  Machine integers are natural numbers or integers with explicit
truncation wherever a bit-field or a byte is stored.
-/

namespace WiFiPower

/-! ## BCD macros (`src/RtcDS1302.cpp`, lines 100-102) -/

/-- Macro `bcd2dec(h,l)`: `((h)*10) + (l)`, evaluated in `int`. -/
def bcd2dec (h l : Int) : Int := (h * 10) + l

/-- Macro `dec2bcd_h(x)`: `(x)/10`, the truncating division of C. -/
def dec2bcd_h (x : Int) : Int := Int.tdiv x 10

/-- Macro `dec2bcd_l(x)`: `(x)%10`, the remainder of the truncating division of C. -/
def dec2bcd_l (x : Int) : Int := Int.tmod x 10

/-! ## Register names (`src/RtcDS1302.cpp`, lines 108-142) -/

def DS1302_SECONDS : Nat := 0x80
def DS1302_MINUTES : Nat := 0x82
def DS1302_HOURS : Nat := 0x84
def DS1302_DATE : Nat := 0x86
def DS1302_MONTH : Nat := 0x88
def DS1302_DAY : Nat := 0x8A
def DS1302_YEAR : Nat := 0x8C
def DS1302_ENABLE : Nat := 0x8E
def DS1302_TRICKLE : Nat := 0x90
def DS1302_CLOCK_BURST_WRITE : Nat := 0xBE
def DS1302_CLOCK_BURST_READ : Nat := 0xBF
def DS1302_READBIT : Nat := 0

/-! ## The pin-level platform

The Arduino core is outside the repository.  Its four primitives are modelled
as the events they cause on the pins; nothing else about them is assumed. -/

def LOW : Nat := 0
def HIGH : Nat := 1
def INPUT : Nat := 0
def OUTPUT : Nat := 1

/-- One call of a pin primitive, with the level a read returned. -/
inductive PinEvent where
  | digitalWrite (pin : Nat) (level : Bool)
  | pinMode (pin : Nat) (output : Bool)
  | delayMicroseconds (us : Nat)
  | digitalRead (pin : Nat) (level : Bool)
  deriving DecidableEq

/-- The pin events of a run, oldest first. -/
abbrev Trace := List PinEvent

/-- The outside world: the level a read of a pin returns, given everything the
controller did before. -/
abbrev Env := Nat → Trace → Bool

/-- Arduino `digitalWrite(pin, val)`: the pin is written low when `val` is zero
and high otherwise. -/
def digitalWrite (pin val : Nat) (tr : Trace) : Trace :=
  tr ++ [PinEvent.digitalWrite pin (val != 0)]

/-- Arduino `pinMode(pin, mode)` for the two modes the driver uses. -/
def pinMode (pin mode : Nat) (tr : Trace) : Trace :=
  tr ++ [PinEvent.pinMode pin (mode != 0)]

/-- Arduino `delayMicroseconds(us)`. -/
def delayMicroseconds (us : Nat) (tr : Trace) : Trace :=
  tr ++ [PinEvent.delayMicroseconds us]

/-- Arduino `digitalRead(pin)`: returns `HIGH` or `LOW` as the environment
dictates and records the read. -/
def digitalRead (env : Env) (pin : Nat) (tr : Trace) : Nat × Trace :=
  (if env pin tr then HIGH else LOW, tr ++ [PinEvent.digitalRead pin (env pin tr)])

/-- Arduino `bitRead(value, bit)`: `((value) >> (bit)) & 0x01`. -/
def bitRead (value bit : Nat) : Nat := (value >>> bit) &&& 0x01

/-- Arduino `bitSet(value, bit)`: `value |= (1UL << (bit))`. -/
def bitSet (value bit : Nat) : Nat := value ||| (1 <<< bit)

/-- Arduino `bitClear(value, bit)`: `value &= ~(1UL << (bit))`, the complement
taken in the 32 bits of `unsigned long`. -/
def bitClear (value bit : Nat) : Nat := value &&& (0xFFFFFFFF ^^^ (1 <<< bit))

/-- Arduino `bitWrite(value, bit, bitvalue)`: set the bit when `bitvalue` is
non-zero, clear it otherwise. -/
def bitWrite (value bit bitvalue : Nat) : Nat :=
  if bitvalue ≠ 0 then bitSet value bit else bitClear value bit

/-! ## The packed register block (`struct ds1302_struct`, lines 173-207) -/

/-- The bit-fields of `ds1302_struct` in declaration order.  Of the anonymous
union only the `h24` view is used by the driver; its members carry the prefix
`h24_`.  The comment on each field gives its width in bits. -/
structure ds1302_struct where
  Seconds : Nat        -- 4
  Seconds10 : Nat      -- 3
  CH : Nat             -- 1
  Minutes : Nat        -- 4
  Minutes10 : Nat      -- 3
  reserved1 : Nat      -- 1
  h24_Hour : Nat       -- 4
  h24_Hour10 : Nat     -- 2
  h24_reserved2 : Nat  -- 1
  h24_hour_12_24 : Nat -- 1
  Date : Nat           -- 4
  Date10 : Nat         -- 2
  reserved3 : Nat      -- 2
  Month : Nat          -- 4
  Month10 : Nat        -- 1
  reserved4 : Nat      -- 3
  Day : Nat            -- 3
  reserved5 : Nat      -- 5
  Year : Nat           -- 4
  Year10 : Nat         -- 4
  reserved6 : Nat      -- 7
  WP : Nat             -- 1
  deriving DecidableEq

/-- Storing an `int` into an unsigned bit-field of `w` bits keeps the value
modulo `2^w`. -/
def bitfield (w : Nat) (x : Int) : Nat := (x % 2 ^ w).toNat

/-- The cast `(uint8_t *)&rtc` read as bytes: each byte packs its bit-fields,
the first declared field in the least significant bits. -/
def ds1302_struct.toBytes (r : ds1302_struct) : List Nat :=
  [ r.Seconds + 16 * r.Seconds10 + 128 * r.CH,
    r.Minutes + 16 * r.Minutes10 + 128 * r.reserved1,
    r.h24_Hour + 16 * r.h24_Hour10 + 64 * r.h24_reserved2 + 128 * r.h24_hour_12_24,
    r.Date + 16 * r.Date10 + 64 * r.reserved3,
    r.Month + 16 * r.Month10 + 32 * r.reserved4,
    r.Day + 8 * r.reserved5,
    r.Year + 16 * r.Year10,
    r.reserved6 + 128 * r.WP ]

/-- The cast `(uint8_t *)&rtc` written through: the eight bytes `p` seen as
bit-fields. -/
def ds1302_struct.ofBytes (p : List Nat) : ds1302_struct :=
  { Seconds := p.getD 0 0 % 16
    Seconds10 := p.getD 0 0 / 16 % 8
    CH := p.getD 0 0 / 128 % 2
    Minutes := p.getD 1 0 % 16
    Minutes10 := p.getD 1 0 / 16 % 8
    reserved1 := p.getD 1 0 / 128 % 2
    h24_Hour := p.getD 2 0 % 16
    h24_Hour10 := p.getD 2 0 / 16 % 4
    h24_reserved2 := p.getD 2 0 / 64 % 2
    h24_hour_12_24 := p.getD 2 0 / 128 % 2
    Date := p.getD 3 0 % 16
    Date10 := p.getD 3 0 / 16 % 4
    reserved3 := p.getD 3 0 / 64 % 4
    Month := p.getD 4 0 % 16
    Month10 := p.getD 4 0 / 16 % 2
    reserved4 := p.getD 4 0 / 32 % 8
    Day := p.getD 5 0 % 8
    reserved5 := p.getD 5 0 / 8 % 32
    Year := p.getD 6 0 % 16
    Year10 := p.getD 6 0 / 16 % 16
    reserved6 := p.getD 7 0 % 128
    WP := p.getD 7 0 / 128 % 2 }

/-- Every bit-field holds a value of its width. -/
def ds1302_struct.wf (r : ds1302_struct) : Prop :=
  r.Seconds < 16 ∧ r.Seconds10 < 8 ∧ r.CH < 2 ∧ r.Minutes < 16 ∧ r.Minutes10 < 8
  ∧ r.reserved1 < 2 ∧ r.h24_Hour < 16 ∧ r.h24_Hour10 < 4 ∧ r.h24_reserved2 < 2
  ∧ r.h24_hour_12_24 < 2 ∧ r.Date < 16 ∧ r.Date10 < 4 ∧ r.reserved3 < 4 ∧ r.Month < 16
  ∧ r.Month10 < 2 ∧ r.reserved4 < 8 ∧ r.Day < 8 ∧ r.reserved5 < 32 ∧ r.Year < 16
  ∧ r.Year10 < 16 ∧ r.reserved6 < 128 ∧ r.WP < 2

/-! ## The driver (`class RtcDS1302`) -/

/-- The three pin numbers given to the constructor. -/
structure RtcDS1302 where
  _pinRst : Nat
  _pinDat : Nat
  _pinClk : Nat
  deriving DecidableEq

/-- `RtcDS1302::_start` (lines 478-489). -/
def RtcDS1302._start (d : RtcDS1302) (tr : Trace) : Trace :=
  let tr := digitalWrite d._pinRst LOW tr
  let tr := pinMode d._pinRst OUTPUT tr
  let tr := digitalWrite d._pinClk LOW tr
  let tr := pinMode d._pinClk OUTPUT tr
  let tr := pinMode d._pinDat OUTPUT tr
  let tr := digitalWrite d._pinRst HIGH tr
  delayMicroseconds 4 tr

/-- `RtcDS1302::_stop` (lines 491-496). -/
def RtcDS1302._stop (d : RtcDS1302) (tr : Trace) : Trace :=
  let tr := digitalWrite d._pinRst LOW tr
  delayMicroseconds 4 tr

/-- One pass of the loop body of `_toggleread` for bit `i`. -/
def RtcDS1302._togglereadBit (d : RtcDS1302) (env : Env) (st : Nat × Trace) (i : Nat) :
    Nat × Trace :=
  let tr := digitalWrite d._pinClk HIGH st.2
  let tr := delayMicroseconds 1 tr
  let tr := digitalWrite d._pinClk LOW tr
  let tr := delayMicroseconds 1 tr
  let r := digitalRead env d._pinDat tr
  (bitWrite st.1 i r.1, r.2)

/-- `RtcDS1302::_toggleread` (lines 498-515): `data` starts at zero and the
loop runs for `i = 0, ..., 7`. -/
def RtcDS1302._toggleread (d : RtcDS1302) (env : Env) (tr : Trace) : Nat × Trace :=
  (List.range 8).foldl (d._togglereadBit env) (0, tr)

/-- One pass of the loop body of `_togglewrite` for bit `i`. -/
def RtcDS1302._togglewriteBit (d : RtcDS1302) (data release : Nat) (tr : Trace) (i : Nat) :
    Trace :=
  let tr := digitalWrite d._pinDat (bitRead data i) tr
  let tr := delayMicroseconds 1 tr
  let tr := digitalWrite d._pinClk HIGH tr
  let tr := delayMicroseconds 1 tr
  if release ≠ 0 ∧ i = 7 then
    pinMode d._pinDat INPUT tr
  else
    let tr := digitalWrite d._pinClk LOW tr
    delayMicroseconds 1 tr

/-- `RtcDS1302::_togglewrite` (lines 517-543): the loop runs for
`i = 0, ..., 7`; `release` is the `uint8_t` flag, true when non-zero. -/
def RtcDS1302._togglewrite (d : RtcDS1302) (data release : Nat) (tr : Trace) : Trace :=
  (List.range 8).foldl (d._togglewriteBit data release) tr

/-- `RtcDS1302::_burstread` (lines 428-438): the eight bytes stored through
`p` are returned as a list. -/
def RtcDS1302._burstread (d : RtcDS1302) (env : Env) (tr : Trace) : List Nat × Trace :=
  let tr := d._start tr
  let tr := d._togglewrite DS1302_CLOCK_BURST_READ 1 tr
  let st := (List.range 8).foldl
    (fun (st : List Nat × Trace) (_ : Nat) =>
      let r := d._toggleread env st.2
      (st.1 ++ [r.1], r.2))
    ([], tr)
  (st.1, d._stop st.2)

/-- `RtcDS1302::_burstwrite` (lines 440-451): `p` is the list of bytes read
through the pointer. -/
def RtcDS1302._burstwrite (d : RtcDS1302) (p : List Nat) (tr : Trace) : Trace :=
  let tr := d._start tr
  let tr := d._togglewrite DS1302_CLOCK_BURST_WRITE 0 tr
  let tr := (List.range 8).foldl (fun (tr : Trace) (i : Nat) => d._togglewrite (p.getD i 0) 0 tr) tr
  d._stop tr

/-- `RtcDS1302::_read` (lines 453-465).  The `int` address is narrowed to
`uint8_t` when it is passed to `_togglewrite`. -/
def RtcDS1302._read (d : RtcDS1302) (env : Env) (address : Nat) (tr : Trace) : Nat × Trace :=
  let address := bitSet address DS1302_READBIT
  let tr := d._start tr
  let tr := d._togglewrite (address % 256) 1 tr
  let r := d._toggleread env tr
  (r.1, d._stop r.2)

/-- `RtcDS1302::_write` (lines 467-476).  The `int` address is narrowed to
`uint8_t` when it is passed to `_togglewrite`. -/
def RtcDS1302._write (d : RtcDS1302) (address data : Nat) (tr : Trace) : Trace :=
  let address := bitClear address DS1302_READBIT
  let tr := d._start tr
  let tr := d._togglewrite (address % 256) 0 tr
  let tr := d._togglewrite data 0 tr
  d._stop tr

/-- Narrowing of an `int` value to `uint8_t`. -/
def toU8 (x : Int) : Nat := (x % 256).toNat

/-- Narrowing of an `int` value to `uint16_t`. -/
def toU16 (x : Int) : Nat := (x % 65536).toNat

/-- The seven values `get` stores through its reference parameters, in
parameter order. -/
structure DateTime where
  hour : Nat
  minute : Nat
  second : Nat
  year : Nat
  month : Nat
  day : Nat
  dow : Nat
  deriving DecidableEq

/-- `RtcDS1302::begin` (lines 219-224). -/
def RtcDS1302.begin (d : RtcDS1302) (tr : Trace) : Bool × Trace :=
  let tr := d._write DS1302_TRICKLE 0x00 tr
  (true, tr)

/-- `RtcDS1302::get` (lines 226-238). -/
def RtcDS1302.get (d : RtcDS1302) (env : Env) (tr : Trace) : DateTime × Trace :=
  let r := d._burstread env tr
  let rtc := ds1302_struct.ofBytes r.1
  ({ hour := toU8 (bcd2dec rtc.h24_Hour10 rtc.h24_Hour)
     minute := toU8 (bcd2dec rtc.Minutes10 rtc.Minutes)
     second := toU8 (bcd2dec rtc.Seconds10 rtc.Seconds)
     year := toU16 (bcd2dec rtc.Year10 rtc.Year + 2000)
     month := toU8 (bcd2dec rtc.Month10 rtc.Month)
     day := toU8 (bcd2dec rtc.Date10 rtc.Date)
     dow := rtc.Day }, r.2)

/-- `RtcDS1302::getDate` (lines 240-249): year, month, day, dow. -/
def RtcDS1302.getDate (d : RtcDS1302) (env : Env) (tr : Trace) :
    (Nat × Nat × Nat × Nat) × Trace :=
  let r := d._burstread env tr
  let rtc := ds1302_struct.ofBytes r.1
  ((toU16 (bcd2dec rtc.Year10 rtc.Year + 2000),
    toU8 (bcd2dec rtc.Month10 rtc.Month),
    toU8 (bcd2dec rtc.Date10 rtc.Date),
    rtc.Day), r.2)

/-- `RtcDS1302::getTime` (lines 251-259): hour, minute, second. -/
def RtcDS1302.getTime (d : RtcDS1302) (env : Env) (tr : Trace) : (Nat × Nat × Nat) × Trace :=
  let r := d._burstread env tr
  let rtc := ds1302_struct.ofBytes r.1
  ((toU8 (bcd2dec rtc.h24_Hour10 rtc.h24_Hour),
    toU8 (bcd2dec rtc.Minutes10 rtc.Minutes),
    toU8 (bcd2dec rtc.Seconds10 rtc.Seconds)), r.2)

/-- The field assignments of `RtcDS1302::set` (lines 294-309), applied to the
block `rtc`.  `year - 2000` is computed in `int` (at least 32 bits wide). -/
def RtcDS1302.set_rtc (rtc : ds1302_struct) (hour minute second year month day dow : Nat) :
    ds1302_struct :=
  { rtc with
    Seconds := bitfield 4 (dec2bcd_l second)
    Seconds10 := bitfield 3 (dec2bcd_h second)
    Minutes := bitfield 4 (dec2bcd_l minute)
    Minutes10 := bitfield 3 (dec2bcd_h minute)
    h24_Hour := bitfield 4 (dec2bcd_l hour)
    h24_Hour10 := bitfield 2 (dec2bcd_h hour)
    h24_hour_12_24 := 0
    Date := bitfield 4 (dec2bcd_l day)
    Date10 := bitfield 2 (dec2bcd_h day)
    Month := bitfield 4 (dec2bcd_l month)
    Month10 := bitfield 1 (dec2bcd_h month)
    Year := bitfield 4 (dec2bcd_l ((year : Int) - 2000))
    Year10 := bitfield 4 (dec2bcd_h ((year : Int) - 2000))
    Day := bitfield 3 dow
    CH := 0
    WP := 0 }

/-- `RtcDS1302::set` (lines 289-317).  The local `rtc` is not initialised:
`stack` is whatever its eight bytes of memory held. -/
def RtcDS1302.set (d : RtcDS1302) (stack : List Nat)
    (hour minute second year month day dow : Nat) (tr : Trace) : Trace :=
  let rtc := ds1302_struct.ofBytes stack
  let rtc := RtcDS1302.set_rtc rtc hour minute second year month day dow
  let tr := d._write DS1302_ENABLE 0x00 tr
  d._burstwrite rtc.toBytes tr

/-- The field assignments of `RtcDS1302::setDate` (lines 324-332), applied to
the block `rtc`. -/
def RtcDS1302.setDate_rtc (rtc : ds1302_struct) (year month day dow : Nat) : ds1302_struct :=
  { rtc with
    Date := bitfield 4 (dec2bcd_l day)
    Date10 := bitfield 2 (dec2bcd_h day)
    Month := bitfield 4 (dec2bcd_l month)
    Month10 := bitfield 1 (dec2bcd_h month)
    Year := bitfield 4 (dec2bcd_l ((year : Int) - 2000))
    Year10 := bitfield 4 (dec2bcd_h ((year : Int) - 2000))
    Day := bitfield 3 dow
    CH := 0
    WP := 0 }

/-- `RtcDS1302::setDate` (lines 319-340). -/
def RtcDS1302.setDate (d : RtcDS1302) (env : Env) (year month day dow : Nat) (tr : Trace) :
    Trace :=
  let r := d._burstread env tr
  let rtc := ds1302_struct.ofBytes r.1
  let rtc := RtcDS1302.setDate_rtc rtc year month day dow
  let tr := d._write DS1302_ENABLE 0x00 r.2
  d._burstwrite rtc.toBytes tr

/-- The field assignments of `RtcDS1302::setTime` (lines 347-355), applied to
the block `rtc`. -/
def RtcDS1302.setTime_rtc (rtc : ds1302_struct) (hour minute second : Nat) : ds1302_struct :=
  { rtc with
    Seconds := bitfield 4 (dec2bcd_l second)
    Seconds10 := bitfield 3 (dec2bcd_h second)
    Minutes := bitfield 4 (dec2bcd_l minute)
    Minutes10 := bitfield 3 (dec2bcd_h minute)
    h24_Hour := bitfield 4 (dec2bcd_l hour)
    h24_Hour10 := bitfield 2 (dec2bcd_h hour)
    h24_hour_12_24 := 0
    CH := 0
    WP := 0 }

/-- `RtcDS1302::setTime` (lines 342-363). -/
def RtcDS1302.setTime (d : RtcDS1302) (env : Env) (hour minute second : Nat) (tr : Trace) :
    Trace :=
  let r := d._burstread env tr
  let rtc := ds1302_struct.ofBytes r.1
  let rtc := RtcDS1302.setTime_rtc rtc hour minute second
  let tr := d._write DS1302_ENABLE 0x00 r.2
  d._burstwrite rtc.toBytes tr

/-! The single-field accessors call `bin2bcd` and `bcd2bin`, which are declared
in `Rtc.h`, outside the sources at hand.  They are taken as parameters: `bin2bcd`
maps the `int` value of its argument expression to the byte it returns. -/

/-- `RtcDS1302::getHour` (lines 261-263). -/
def RtcDS1302.getHour (bcd2bin : Nat → Nat) (d : RtcDS1302) (env : Env) (tr : Trace) :
    Nat × Trace :=
  let r := d._read env DS1302_HOURS tr
  (bcd2bin r.1, r.2)

/-- `RtcDS1302::getMinute` (lines 265-267). -/
def RtcDS1302.getMinute (bcd2bin : Nat → Nat) (d : RtcDS1302) (env : Env) (tr : Trace) :
    Nat × Trace :=
  let r := d._read env DS1302_MINUTES tr
  (bcd2bin r.1, r.2)

/-- `RtcDS1302::getSecond` (lines 269-271). -/
def RtcDS1302.getSecond (bcd2bin : Nat → Nat) (d : RtcDS1302) (env : Env) (tr : Trace) :
    Nat × Trace :=
  let r := d._read env DS1302_SECONDS tr
  (bcd2bin r.1, r.2)

/-- `RtcDS1302::getYear` (lines 273-275). -/
def RtcDS1302.getYear (bcd2bin : Nat → Nat) (d : RtcDS1302) (env : Env) (tr : Trace) :
    Nat × Trace :=
  let r := d._read env DS1302_YEAR tr
  (toU16 ((bcd2bin r.1 : Int) + 2000), r.2)

/-- `RtcDS1302::getMonth` (lines 277-279). -/
def RtcDS1302.getMonth (bcd2bin : Nat → Nat) (d : RtcDS1302) (env : Env) (tr : Trace) :
    Nat × Trace :=
  let r := d._read env DS1302_MONTH tr
  (bcd2bin r.1, r.2)

/-- `RtcDS1302::getDay` (lines 281-283). -/
def RtcDS1302.getDay (bcd2bin : Nat → Nat) (d : RtcDS1302) (env : Env) (tr : Trace) :
    Nat × Trace :=
  let r := d._read env DS1302_DATE tr
  (bcd2bin r.1, r.2)

/-- `RtcDS1302::getDow` (lines 285-287). -/
def RtcDS1302.getDow (d : RtcDS1302) (env : Env) (tr : Trace) : Nat × Trace :=
  d._read env DS1302_DAY tr

/-- `RtcDS1302::setHour` (lines 365-372). -/
def RtcDS1302.setHour (bin2bcd : Int → Nat) (d : RtcDS1302) (hour : Nat) (tr : Trace) : Trace :=
  let tr := d._write DS1302_ENABLE 0x00 tr
  d._write DS1302_HOURS (bin2bcd hour) tr

/-- `RtcDS1302::setMinute` (lines 374-381). -/
def RtcDS1302.setMinute (bin2bcd : Int → Nat) (d : RtcDS1302) (minute : Nat) (tr : Trace) :
    Trace :=
  let tr := d._write DS1302_ENABLE 0x00 tr
  d._write DS1302_MINUTES (bin2bcd minute) tr

/-- `RtcDS1302::setSecond` (lines 383-390). -/
def RtcDS1302.setSecond (bin2bcd : Int → Nat) (d : RtcDS1302) (second : Nat) (tr : Trace) :
    Trace :=
  let tr := d._write DS1302_ENABLE 0x00 tr
  d._write DS1302_SECONDS (bin2bcd second) tr

/-- `RtcDS1302::setYear` (lines 392-399). -/
def RtcDS1302.setYear (bin2bcd : Int → Nat) (d : RtcDS1302) (year : Nat) (tr : Trace) : Trace :=
  let tr := d._write DS1302_ENABLE 0x00 tr
  d._write DS1302_YEAR (bin2bcd ((year : Int) - 2000)) tr

/-- `RtcDS1302::setMonth` (lines 401-408). -/
def RtcDS1302.setMonth (bin2bcd : Int → Nat) (d : RtcDS1302) (month : Nat) (tr : Trace) :
    Trace :=
  let tr := d._write DS1302_ENABLE 0x00 tr
  d._write DS1302_MONTH (bin2bcd month) tr

/-- `RtcDS1302::setDay` (lines 410-417). -/
def RtcDS1302.setDay (bin2bcd : Int → Nat) (d : RtcDS1302) (day : Nat) (tr : Trace) : Trace :=
  let tr := d._write DS1302_ENABLE 0x00 tr
  d._write DS1302_DATE (bin2bcd day) tr

/-- `RtcDS1302::setDow` (lines 419-426). -/
def RtcDS1302.setDow (d : RtcDS1302) (dow : Nat) (tr : Trace) : Trace :=
  let tr := d._write DS1302_ENABLE 0x00 tr
  d._write DS1302_DAY dow tr

/-! ## Observing the wires

The claims about sessions, edges and shifted bytes are stated through a
monitor that watches the three pins of a driver the way a logic analyser
would: it follows the levels and the data-pin mode the controller sets and
cuts the trace into sessions at the edges of chip-select. -/

/-- What was seen during one session, that is while chip-select was high. -/
structure Session where
  /-- The data-line level at each rising clock edge taken while the controller
  drove the data line, in order. -/
  shifted : List Bool
  /-- The levels returned by the reads of the data pin, in order. -/
  sampled : List Bool
  deriving DecidableEq

/-- State of the monitor. -/
structure Wire where
  /-- Level last written to chip-select. -/
  ce : Bool
  /-- Level last written to the clock line. -/
  sclk : Bool
  /-- Level last written to the data line by the controller. -/
  dat : Bool
  /-- The data pin is in output mode. -/
  datOut : Bool
  /-- Bits clocked out so far in the running session. -/
  shifted : List Bool
  /-- Levels read so far in the running session. -/
  sampled : List Bool
  /-- Falling clock edges so far in the running session. -/
  falls : Nat
  /-- The sessions that have ended, oldest first. -/
  sessions : List Session
  /-- Number of times chip-select went from low to high. -/
  ceRises : Nat
  /-- Number of rising clock edges. -/
  clkRises : Nat
  /-- Number of falling clock edges. -/
  clkFalls : Nat
  /-- Number of rising clock edges taken while chip-select was low. -/
  idleRises : Nat
  /-- Number of level writes to the data pin made while it was in input mode. -/
  blindWrites : Nat
  deriving DecidableEq

/-- All lines low, data pin not driven, nothing seen yet. -/
def Wire.init : Wire :=
  { ce := false, sclk := false, dat := false, datOut := false, shifted := [], sampled := [],
    falls := 0, sessions := [], ceRises := 0, clkRises := 0, clkFalls := 0, idleRises := 0,
    blindWrites := 0 }

/-- A level write to chip-select: a rising edge opens a session, a falling
edge closes it and files what was seen. -/
def Wire.writeCE (w : Wire) (level : Bool) : Wire :=
  if level then
    if w.ce then w
    else { w with ce := true, shifted := [], sampled := [], falls := 0, ceRises := w.ceRises + 1 }
  else
    if w.ce then
      { w with ce := false, shifted := [], sampled := [], falls := 0,
               sessions := w.sessions ++ [{ shifted := w.shifted, sampled := w.sampled }] }
    else w

/-- A level write to the clock line: a rising edge inside a session clocks
out the level on the data line when the controller drives it. -/
def Wire.writeClk (w : Wire) (level : Bool) : Wire :=
  if level then
    if w.sclk then w
    else if w.ce then
      { w with sclk := true, clkRises := w.clkRises + 1,
               shifted := if w.datOut then w.shifted ++ [w.dat] else w.shifted }
    else
      { w with sclk := true, clkRises := w.clkRises + 1, idleRises := w.idleRises + 1 }
  else
    if w.sclk then
      { w with sclk := false, clkFalls := w.clkFalls + 1,
               falls := if w.ce then w.falls + 1 else w.falls }
    else w

/-- A level write to the data line. -/
def Wire.writeDat (w : Wire) (level : Bool) : Wire :=
  { w with dat := level, blindWrites := if w.datOut then w.blindWrites else w.blindWrites + 1 }

/-- A read of the data line. -/
def Wire.readDat (w : Wire) (level : Bool) : Wire :=
  if w.ce then { w with sampled := w.sampled ++ [level] } else w

/-- The monitor follows one pin event of the driver `d`. -/
def Wire.step (d : RtcDS1302) (w : Wire) : PinEvent → Wire
  | PinEvent.digitalWrite pin level =>
    if pin = d._pinRst then w.writeCE level
    else if pin = d._pinClk then w.writeClk level
    else if pin = d._pinDat then w.writeDat level
    else w
  | PinEvent.pinMode pin output =>
    if pin = d._pinDat then { w with datOut := output } else w
  | PinEvent.delayMicroseconds _ => w
  | PinEvent.digitalRead pin level =>
    if pin = d._pinDat then w.readDat level else w

/-- The monitor after a whole trace, started from `w`. -/
def Wire.run (d : RtcDS1302) (w : Wire) (tr : Trace) : Wire :=
  tr.foldl (Wire.step d) w

/-- The monitor after a trace that starts with all lines low. -/
def observe (d : RtcDS1302) (tr : Trace) : Wire := Wire.run d Wire.init tr

/-- The three pins are different pins. -/
def RtcDS1302.wired (d : RtcDS1302) : Prop :=
  d._pinRst ≠ d._pinDat ∧ d._pinRst ≠ d._pinClk ∧ d._pinDat ≠ d._pinClk

instance (d : RtcDS1302) : Decidable d.wired :=
  inferInstanceAs
    (Decidable (d._pinRst ≠ d._pinDat ∧ d._pinRst ≠ d._pinClk ∧ d._pinDat ≠ d._pinClk))

/-- The byte with the given bits, least significant first. -/
def byteOfBits : List Bool → Nat
  | [] => 0
  | b :: bs => (if b then 1 else 0) + 2 * byteOfBits bs

/-- The eight levels that shift the byte `v` out, least significant bit
first. -/
def bitsOfByte (v : Nat) : List Bool :=
  (List.range 8).map (fun i => bitRead v i != 0)

/-- Bits grouped into bytes, eight at a time, least significant bit first; an
incomplete group at the end is dropped. -/
def bytesOfBits : List Bool → List Nat
  | b0 :: b1 :: b2 :: b3 :: b4 :: b5 :: b6 :: b7 :: rest =>
    byteOfBits [b0, b1, b2, b3, b4, b5, b6, b7] :: bytesOfBits rest
  | _ => []

/-- The levels that shift the bytes `vs` out one after the other. -/
def bitsOfBytes : List Nat → List Bool
  | [] => []
  | v :: vs => bitsOfByte v ++ bitsOfBytes vs

/-- The bytes the controller shifted out in a session. -/
def Session.bytesOut (s : Session) : List Nat := bytesOfBits s.shifted

/-- The bytes the controller shifted in during a session. -/
def Session.bytesIn (s : Session) : List Nat := bytesOfBits s.sampled

/-- The sessions that ended between the trace `tr` and its extension `tr2`,
each given by the bytes shifted out in it, the command byte first. -/
def produced (d : RtcDS1302) (tr tr2 : Trace) : List (List Nat) :=
  ((observe d tr2).sessions.drop (observe d tr).sessions.length).map Session.bytesOut

/-- A session that writes clock data: the burst write command or the write
address of one of the seven clock registers, followed by data. -/
def writesClockData (s : List Nat) : Prop :=
  ∃ cmd rest, s = cmd :: rest ∧ rest ≠ [] ∧
    (cmd = DS1302_CLOCK_BURST_WRITE ∨
      cmd ∈ [DS1302_SECONDS, DS1302_MINUTES, DS1302_HOURS, DS1302_DATE, DS1302_MONTH,
        DS1302_DAY, DS1302_YEAR])

/-- In a sequence of sessions there is a single-register write of `0x00` to
the enable register, no session before it writes clock data, and a session
after it does. -/
def clearedBeforeData (ss : List (List Nat)) : Prop :=
  ∃ pre post, ss = pre ++ [DS1302_ENABLE, 0x00] :: post
    ∧ (∀ s ∈ pre, ¬ writesClockData s) ∧ (∃ s ∈ post, writesClockData s)

/-! ## The shift loops, event by event

The pin events of the two shift loops as the specification words them, to be
compared with what the loops of the driver produce. -/

/-- One bit put on the data line and clocked with a rising edge. -/
def RtcDS1302.bitOutEvents (d : RtcDS1302) (b : Bool) : List PinEvent :=
  [PinEvent.digitalWrite d._pinDat b, PinEvent.delayMicroseconds 1,
   PinEvent.digitalWrite d._pinClk true, PinEvent.delayMicroseconds 1]

/-- The clock lowered again. -/
def RtcDS1302.clockLowEvents (d : RtcDS1302) : List PinEvent :=
  [PinEvent.digitalWrite d._pinClk false, PinEvent.delayMicroseconds 1]

/-- Shift-out of the given bits in order: after every bit but the last the
clock is lowered; after the last bit the clock is lowered, or, with `release`,
left high while the data pin is switched to input. -/
def RtcDS1302.shiftOutEvents (d : RtcDS1302) (release : Bool) : List Bool → List PinEvent
  | [] => []
  | [b] =>
    d.bitOutEvents b ++ (if release then [PinEvent.pinMode d._pinDat false] else d.clockLowEvents)
  | b :: bs => d.bitOutEvents b ++ d.clockLowEvents ++ d.shiftOutEvents release bs

/-- The clock raised and lowered again. -/
def RtcDS1302.clockPulse (d : RtcDS1302) : List PinEvent :=
  [PinEvent.digitalWrite d._pinClk true, PinEvent.delayMicroseconds 1,
   PinEvent.digitalWrite d._pinClk false, PinEvent.delayMicroseconds 1]

/-- Shift-in that reads the given levels: for each one the clock is raised,
lowered and the data pin is read. -/
def RtcDS1302.shiftInEvents (d : RtcDS1302) : List Bool → List PinEvent
  | [] => []
  | b :: bs => d.clockPulse ++ [PinEvent.digitalRead d._pinDat b] ++ d.shiftInEvents bs

/-- The levels the environment returns at `n` successive reads of the data
pin, each taken after a clock pulse, when the first pulse follows the trace
`tr`. -/
def RtcDS1302.levelsRead (d : RtcDS1302) (env : Env) : Nat → Trace → List Bool
  | 0, _ => []
  | n + 1, tr =>
    env d._pinDat (tr ++ d.clockPulse)
      :: d.levelsRead env n
          (tr ++ d.clockPulse ++ [PinEvent.digitalRead d._pinDat (env d._pinDat (tr ++ d.clockPulse))])

/-- The mode changes of the data pin in a trace, in order. -/
def RtcDS1302.datModes (d : RtcDS1302) (tr : Trace) : List Bool :=
  tr.filterMap (fun e =>
    match e with
    | PinEvent.pinMode pin output => if pin = d._pinDat then some output else none
    | _ => none)

/-- The levels written to the data pin in a trace, in order. -/
def RtcDS1302.datLevels (d : RtcDS1302) (tr : Trace) : List Bool :=
  tr.filterMap (fun e =>
    match e with
    | PinEvent.digitalWrite pin level => if pin = d._pinDat then some level else none
    | _ => none)

/-- The number of pin reads in a trace. -/
def readCount (tr : Trace) : Nat :=
  (tr.filter (fun e =>
    match e with
    | PinEvent.digitalRead _ _ => true
    | _ => false)).length

/-- The environment that answers the successive pin reads with the given
levels in order, and with low once they are used up. -/
def replay (levels : List Bool) : Env :=
  fun _ tr => levels.getD (readCount tr) false

/-! ## A simulated register store

The store answers the driver over the pins.  It keeps one byte per register
address; a completed single-register write session stores its data byte, a
completed burst write session stores its eight bytes in the registers `0x80`,
`0x82`, ..., `0x8E`, and during a read session the store puts the addressed
byte on the data line bit by bit after each falling clock edge. -/

/-- Register contents by write address (the even command byte). -/
abbrev Store := Nat → Nat

/-- The registers after the eight bytes `p` were stored in `0x80`, `0x82`,
..., `0x8E`. -/
def Store.burst (st : Store) (p : List Nat) : Store :=
  fun a =>
    if a = DS1302_SECONDS then p.getD 0 0 else if a = DS1302_MINUTES then p.getD 1 0
    else if a = DS1302_HOURS then p.getD 2 0 else if a = DS1302_DATE then p.getD 3 0
    else if a = DS1302_MONTH then p.getD 4 0 else if a = DS1302_DAY then p.getD 5 0
    else if a = DS1302_YEAR then p.getD 6 0 else if a = DS1302_ENABLE then p.getD 7 0
    else st a

/-- Effect of a completed session on the registers: a session of an even
command byte and one data byte stores the data byte under that address, a
session of the burst write command and eight data bytes stores the eight
bytes, any other session stores nothing. -/
def Store.commit (st : Store) (s : Session) : Store :=
  match s.bytesOut with
  | [cmd, v] =>
    if cmd % 2 = 0 ∧ cmd ≠ DS1302_CLOCK_BURST_WRITE then Function.update st cmd v else st
  | [cmd, v0, v1, v2, v3, v4, v5, v6, v7] =>
    if cmd = DS1302_CLOCK_BURST_WRITE then st.burst [v0, v1, v2, v3, v4, v5, v6, v7] else st
  | _ => st

/-- The registers after the given completed sessions. -/
def Store.after (st : Store) (ss : List Session) : Store := ss.foldl Store.commit st

/-- The byte number `j` of the answer to the read command `cmd`: the burst
read command is answered with the registers `0x80`, `0x82`, ... in turn, a
single-register read command with the addressed register. -/
def Store.answer (st : Store) (cmd j : Nat) : Nat :=
  if cmd = DS1302_CLOCK_BURST_READ then st (DS1302_SECONDS + 2 * j)
  else if cmd % 2 = 1 then st (cmd - 1)
  else 0

/-- The level the store puts on the data line of a running session in which
`shifted` was clocked out and `falls` falling clock edges were seen: once the
command byte is in, after the falling edge number `8 + k` the bit `k % 8` of the
byte number `k / 8` of the answer. -/
def Store.level (st : Store) (shifted : List Bool) (falls : Nat) : Bool :=
  if 8 ≤ shifted.length ∧ 8 ≤ falls then
    (st.answer (byteOfBits (shifted.take 8)) ((falls - 8) / 8)).testBit ((falls - 8) % 8)
  else false

/-- The level the store puts on the data line, given what the monitor has
seen; outside a session the store does not drive the line. -/
def Store.out (st : Store) (w : Wire) : Bool :=
  if w.ce then st.level w.shifted w.falls else false

/-- The environment in which the pins of `d` are wired to a register store
that held `st0` at the start. -/
def simulated (d : RtcDS1302) (st0 : Store) : Env :=
  fun pin tr =>
    if pin = d._pinDat then
      Store.out (Store.after st0 (observe d tr).sessions) (observe d tr)
    else false

/-- The registers of the simulated store after the trace `tr`. -/
def registers (d : RtcDS1302) (st0 : Store) (tr : Trace) : Store :=
  Store.after st0 (observe d tr).sessions

/-! ## The public operations

A call of a public member function of the driver with its arguments.  The
values the getters return do not influence the pin trace and are dropped by
`Op.run`. -/

/-- One call of a public operation of `RtcDS1302`.  `set` carries, besides its
seven arguments, the bytes its uninitialised local happens to hold. -/
inductive Op where
  | begin
  | get
  | getDate
  | getTime
  | getHour
  | getMinute
  | getSecond
  | getYear
  | getMonth
  | getDay
  | getDow
  | set (stack : List Nat) (hour minute second year month day dow : Nat)
  | setDate (year month day dow : Nat)
  | setTime (hour minute second : Nat)
  | setHour (hour : Nat)
  | setMinute (minute : Nat)
  | setSecond (second : Nat)
  | setYear (year : Nat)
  | setMonth (month : Nat)
  | setDay (day : Nat)
  | setDow (dow : Nat)

/-- The trace after the call `op`, started after the trace `tr`. -/
def Op.run (d : RtcDS1302) (env : Env) (bin2bcd : Int → Nat) (bcd2bin : Nat → Nat) :
    Op → Trace → Trace
  | Op.begin, tr => (d.begin tr).2
  | Op.get, tr => (d.get env tr).2
  | Op.getDate, tr => (d.getDate env tr).2
  | Op.getTime, tr => (d.getTime env tr).2
  | Op.getHour, tr => (d.getHour bcd2bin env tr).2
  | Op.getMinute, tr => (d.getMinute bcd2bin env tr).2
  | Op.getSecond, tr => (d.getSecond bcd2bin env tr).2
  | Op.getYear, tr => (d.getYear bcd2bin env tr).2
  | Op.getMonth, tr => (d.getMonth bcd2bin env tr).2
  | Op.getDay, tr => (d.getDay bcd2bin env tr).2
  | Op.getDow, tr => (d.getDow env tr).2
  | Op.set stack hour minute second year month day dow, tr =>
    d.set stack hour minute second year month day dow tr
  | Op.setDate year month day dow, tr => d.setDate env year month day dow tr
  | Op.setTime hour minute second, tr => d.setTime env hour minute second tr
  | Op.setHour hour, tr => d.setHour bin2bcd hour tr
  | Op.setMinute minute, tr => d.setMinute bin2bcd minute tr
  | Op.setSecond second, tr => d.setSecond bin2bcd second tr
  | Op.setYear year, tr => d.setYear bin2bcd year tr
  | Op.setMonth month, tr => d.setMonth bin2bcd month tr
  | Op.setDay day, tr => d.setDay bin2bcd day tr
  | Op.setDow dow, tr => d.setDow dow tr

/-- The trace after a finite sequence of calls, started after the trace `tr`. -/
def runAll (d : RtcDS1302) (env : Env) (bin2bcd : Int → Nat) (bcd2bin : Nat → Nat)
    (ops : List Op) (tr : Trace) : Trace :=
  ops.foldl (fun t op => Op.run d env bin2bcd bcd2bin op t) tr

/-- A session that does not set write-protect: if it is a single-register
write to the enable register its data byte is zero, and if it is a burst write
of eight bytes the eighth has bit 7 clear. -/
def keepsUnprotected (s : List Nat) : Prop :=
  (∀ v, s = [DS1302_ENABLE, v] → v = 0)
  ∧ (∀ b0 b1 b2 b3 b4 b5 b6 b7,
      s = [DS1302_CLOCK_BURST_WRITE, b0, b1, b2, b3, b4, b5, b6, b7] → b7.testBit 7 = false)

/-- A write-class session to a register other than the enable register: an
even command byte other than `0x8E`, followed by data. -/
def writesRegister (s : List Nat) : Prop :=
  ∃ cmd rest, s = cmd :: rest ∧ rest ≠ [] ∧ cmd % 2 = 0 ∧ cmd ≠ DS1302_ENABLE

/-- Every write-class session to a register other than the enable register
has a single-register write of `0x00` to the enable register before it in the
sequence. -/
def clearedBeforeWrites (ss : List (List Nat)) : Prop :=
  ∀ pre s post, ss = pre ++ s :: post → writesRegister s → [DS1302_ENABLE, 0x00] ∈ pre

/-! ## Session framing and settle times -/

/-- The pin events of `_start`, in the order of the source. -/
def RtcDS1302.startEvents (d : RtcDS1302) : List PinEvent :=
  [PinEvent.digitalWrite d._pinRst false, PinEvent.pinMode d._pinRst true,
   PinEvent.digitalWrite d._pinClk false, PinEvent.pinMode d._pinClk true,
   PinEvent.pinMode d._pinDat true,
   PinEvent.digitalWrite d._pinRst true, PinEvent.delayMicroseconds 4]

/-- The pin events of `_stop`. -/
def RtcDS1302.stopEvents (d : RtcDS1302) : List PinEvent :=
  [PinEvent.digitalWrite d._pinRst false, PinEvent.delayMicroseconds 4]

/-- State of a stopwatch on the pins: it adds up the microseconds of delay since
chip-select last changed level and counts the violations of the two settle
times. -/
structure Settle where
  /-- Level last written to chip-select. -/
  ce : Bool
  /-- Level last written to the clock line. -/
  sclk : Bool
  /-- Microseconds of delay since chip-select last changed level. -/
  since : Nat
  /-- No data or clock write was made yet in the running session. -/
  fresh : Bool
  /-- A session has ended before. -/
  closed : Bool
  /-- Number of sessions whose first data or clock write came less than 4
  microseconds after chip-select went high, or with the clock high. -/
  early : Nat
  /-- Number of sessions that began less than 4 microseconds after the session
  before ended. -/
  shortGaps : Nat
  deriving DecidableEq

/-- The stopwatch before anything happened: all lines low. -/
def Settle.init : Settle :=
  { ce := false, sclk := false, since := 0, fresh := false, closed := false, early := 0,
    shortGaps := 0 }

/-- A level write to chip-select seen by the stopwatch. -/
def Settle.writeCE (s : Settle) (level : Bool) : Settle :=
  if level = s.ce then s
  else if level then
    { s with ce := true, since := 0, fresh := true,
             shortGaps := if s.closed ∧ s.since < 4 then s.shortGaps + 1 else s.shortGaps }
  else { s with ce := false, since := 0, fresh := false, closed := true }

/-- A data or clock write seen by the stopwatch: the first one of a session
is checked against the settle time and the clock level. -/
def Settle.firstWrite (s : Settle) : Settle :=
  if s.ce ∧ s.fresh then
    { s with fresh := false,
             early := if s.since < 4 ∨ s.sclk then s.early + 1 else s.early }
  else s

/-- The stopwatch follows one pin event of the driver `d`. -/
def Settle.step (d : RtcDS1302) (s : Settle) : PinEvent → Settle
  | PinEvent.digitalWrite pin level =>
    if pin = d._pinRst then s.writeCE level
    else if pin = d._pinClk then { s.firstWrite with sclk := level }
    else if pin = d._pinDat then s.firstWrite
    else s
  | PinEvent.delayMicroseconds us => { s with since := s.since + us }
  | _ => s

/-- The stopwatch after a trace that starts with all lines low. -/
def settle (d : RtcDS1302) (tr : Trace) : Settle := tr.foldl (Settle.step d) Settle.init

/-- Between two calls: chip-select is low, any earlier session ended at least 4
microseconds ago, and so far the data line was written `b` times while
released, `e` sessions had an early first write and `g` sessions began too
soon after the one before. -/
def Calm (d : RtcDS1302) (tr : Trace) (b e g : Nat) : Prop :=
  (observe d tr).ce = false ∧ (observe d tr).blindWrites = b
  ∧ (settle d tr).ce = false ∧ ((settle d tr).closed = true → 4 ≤ (settle d tr).since)
  ∧ (settle d tr).early = e ∧ (settle d tr).shortGaps = g

/-! ## The two-wire driver

`RtcDS1307` talks to its chip through the `Wire` object of the Arduino core, an
instance of the class `TwoWire`.  The calls made on it are recorded as bus
events; what the bus returns comes from the outside world. -/

def DS1307_ADDRESS : Nat := 0x68
def DS1307_SEC_REG : Nat := 0x00
def DS1307_MIN_REG : Nat := 0x01
def DS1307_HOUR_REG : Nat := 0x02
def DS1307_WDAY_REG : Nat := 0x03
def DS1307_MDAY_REG : Nat := 0x04
def DS1307_MONTH_REG : Nat := 0x05
def DS1307_YEAR_REG : Nat := 0x06
def DS1307_CONTROL_REG : Nat := 0x07

/-- One call on the `Wire` object, with the value it returned where the driver
can see one. -/
inductive BusEvent where
  | beginTransmission (address : Nat)
  | write (value : Nat)
  | endTransmission (status : Nat)
  | requestFrom (address quantity : Nat)
  | read (value : Int)
  deriving DecidableEq

/-- The calls on the `Wire` object in a run, oldest first. -/
abbrev BusTrace := List BusEvent

/-- The outside world of the two-wire driver: the status `endTransmission`
returns and the value `read` returns, given everything done before. -/
structure BusEnv where
  status : BusTrace → Nat
  next : BusTrace → Int

/-- Call `Wire.beginTransmission(address)`. -/
def TwoWire.beginTransmission (address : Nat) (tr : BusTrace) : BusTrace :=
  tr ++ [BusEvent.beginTransmission address]

/-- Call `Wire.write(value)` with a byte. -/
def TwoWire.write (value : Nat) (tr : BusTrace) : BusTrace :=
  tr ++ [BusEvent.write value]

/-- Call `Wire.endTransmission()`: it returns a status byte. -/
def TwoWire.endTransmission (env : BusEnv) (tr : BusTrace) : Nat × BusTrace :=
  (env.status tr % 256, tr ++ [BusEvent.endTransmission (env.status tr % 256)])

/-- Call `Wire.requestFrom(address, quantity)`; the driver drops what it
returns. -/
def TwoWire.requestFrom (address quantity : Nat) (tr : BusTrace) : BusTrace :=
  tr ++ [BusEvent.requestFrom address quantity]

/-- Call `Wire.read()`: it returns an `int`. -/
def TwoWire.read (env : BusEnv) (tr : BusTrace) : Int × BusTrace :=
  (env.next tr, tr ++ [BusEvent.read (env.next tr)])

/-! The helpers `bin2bcd` and `bcd2bin` of `Rtc.h` are parameters of the driver
functions: each maps the `int` value of its argument expression to the value it
returns.  The cast `(byte)` and the stores into `uint8_t` and `uint16_t`
references keep the low bits. -/

/-- `RtcDS1307::begin` (lines 20-27). -/
def RtcDS1307.begin (env : BusEnv) (tr : BusTrace) : Bool × BusTrace :=
  let tr := TwoWire.beginTransmission DS1307_ADDRESS tr
  let tr := TwoWire.write (DS1307_CONTROL_REG % 256) tr
  let tr := TwoWire.write (0x00 % 256) tr
  let r := TwoWire.endTransmission env tr
  let status := r.1
  (status == 0, r.2)

/-- `RtcDS1307::get` (lines 29-42). -/
def RtcDS1307.get (bcd2bin : Int → Nat) (env : BusEnv) (tr : BusTrace) :
    DateTime × BusTrace :=
  let tr := TwoWire.beginTransmission DS1307_ADDRESS tr
  let tr := TwoWire.write (DS1307_SEC_REG % 256) tr
  let tr := (TwoWire.endTransmission env tr).2
  let tr := TwoWire.requestFrom DS1307_ADDRESS 7 tr
  let r0 := TwoWire.read env tr
  let second := bcd2bin r0.1 % 256
  let r1 := TwoWire.read env r0.2
  let minute := bcd2bin r1.1 % 256
  let r2 := TwoWire.read env r1.2
  let hour := bcd2bin (Int.land r2.1 (Int.not 0b11000000)) % 256
  let r3 := TwoWire.read env r2.2
  let dow := toU8 r3.1
  let r4 := TwoWire.read env r3.2
  let day := bcd2bin r4.1 % 256
  let r5 := TwoWire.read env r4.2
  let month := bcd2bin r5.1 % 256
  let r6 := TwoWire.read env r5.2
  let year := toU16 ((bcd2bin r6.1 : Int) + 2000)
  ({ hour := hour, minute := minute, second := second, year := year, month := month,
     day := day, dow := dow }, r6.2)

/-- `RtcDS1307::set` (lines 95-107). -/
def RtcDS1307.set (bin2bcd : Int → Nat) (env : BusEnv)
    (hour minute second year month day dow : Nat) (tr : BusTrace) : BusTrace :=
  let tr := TwoWire.beginTransmission DS1307_ADDRESS tr
  let tr := TwoWire.write (DS1307_SEC_REG % 256) tr
  let tr := TwoWire.write (bin2bcd second % 256) tr
  let tr := TwoWire.write (bin2bcd minute % 256) tr
  let tr := TwoWire.write (bin2bcd hour % 256) tr
  let tr := TwoWire.write (dow % 256) tr
  let tr := TwoWire.write (bin2bcd day % 256) tr
  let tr := TwoWire.write (bin2bcd month % 256) tr
  let tr := TwoWire.write (bin2bcd ((year : Int) - 2000) % 256) tr
  (TwoWire.endTransmission env tr).2

/-- Modelled from the spec: the helper `bin2bcd` as `(v/10)*16 + v%10`, on the
`int` value of its argument, returned as a byte. -/
def bin2bcd (v : Int) : Nat := toU8 (Int.tdiv v 10 * 16 + Int.tmod v 10)

/-- Modelled from the spec: the helper `bcd2bin` as `(b>>4)*10 + (b&15)`, on
the `int` value of its argument, returned as a byte. -/
def bcd2bin (b : Int) : Nat := toU8 ((b >>> 4) * 10 + Int.land b 15)

/-! ### A simulated DS1307

The chip keeps 64 registers and a register pointer.  A write transaction to
its address sets the pointer from the first byte and stores the following bytes
in consecutive registers; a request delivers consecutive registers from the
pointer on.  The pointer wraps from `0x3F` to `0x00`. -/

/-- State of the simulated chip and of the buffers between it and the
driver. -/
structure Chip where
  /-- Register contents by index. -/
  regs : Nat → Nat
  /-- The register pointer. -/
  ptr : Nat
  /-- Address and bytes of the transmission being assembled. -/
  pending : Option (Nat × List Nat)
  /-- Bytes delivered by the last request and not read yet. -/
  rx : List Nat

/-- The registers after the bytes `vs` were stored from the pointer `p` on. -/
def Chip.store (regs : Nat → Nat) (p : Nat) : List Nat → Nat → Nat
  | [] => regs
  | v :: vs => Chip.store (Function.update regs (p % 64) v) (p + 1) vs

/-- The simulated chip follows one bus event. -/
def Chip.step (c : Chip) : BusEvent → Chip
  | BusEvent.beginTransmission a => { c with pending := some (a, []) }
  | BusEvent.write v =>
    match c.pending with
    | some (a, bs) => { c with pending := some (a, bs ++ [v]) }
    | none => c
  | BusEvent.endTransmission _ =>
    match c.pending with
    | some (a, p :: vs) =>
      if a = DS1307_ADDRESS then
        { c with regs := Chip.store c.regs p vs, ptr := (p + vs.length) % 64, pending := none }
      else { c with pending := none }
    | _ => { c with pending := none }
  | BusEvent.requestFrom a n =>
    if a = DS1307_ADDRESS then
      { c with rx := (List.range n).map (fun i => c.regs ((c.ptr + i) % 64)),
               ptr := (c.ptr + n) % 64 }
    else { c with rx := [] }
  | BusEvent.read _ => { c with rx := c.rx.tail }

/-- The simulated chip after a whole trace, started from `c`. -/
def Chip.after (c : Chip) (tr : BusTrace) : Chip := tr.foldl Chip.step c

/-- The outside world in which the bus leads to a simulated chip that started
as `c`: every transmission is acknowledged, and `read` returns the next
delivered byte, or `-1` when there is none. -/
def simulatedBus (c : Chip) : BusEnv where
  status := fun _ => 0
  next := fun tr =>
    match (c.after tr).rx with
    | v :: _ => (v : Int)
    | [] => -1

/-! ## Theorems -/

/-! ### Bits and bytes -/

theorem range_eight : List.range 8 = [0, 1, 2, 3, 4, 5, 6, 7] := by decide

@[simp] theorem HIGH_bne : (HIGH != 0) = true := by decide

@[simp] theorem LOW_bne : (LOW != 0) = false := by decide

@[simp] theorem OUTPUT_bne : (OUTPUT != 0) = true := by decide

@[simp] theorem INPUT_bne : (INPUT != 0) = false := by decide

theorem ite_mod_two (x : Nat) : (if x % 2 = 0 then 0 else 1) = x % 2 := by
  split <;> omega

/-- Shifting a byte out and collecting the levels again gives its low eight
bits. -/
theorem byteOfBits_bitsOfByte (v : Nat) : byteOfBits (bitsOfByte v) = v % 256 := by
  simp only [bitsOfByte, range_eight, List.map, byteOfBits, bitRead, Nat.shiftRight_eq_div_pow,
    Nat.and_one_is_mod]
  simp only [bne_iff_ne, ne_eq, ite_not, ite_mod_two]
  norm_num
  omega

theorem bitRead_bne (v i : Nat) : (bitRead v i != 0) = v.testBit i := by
  simp [bitRead, Nat.testBit, Nat.and_comm]

theorem bitsOfByte_eq (v : Nat) :
    bitsOfByte v = [v.testBit 0, v.testBit 1, v.testBit 2, v.testBit 3, v.testBit 4, v.testBit 5,
      v.testBit 6, v.testBit 7] := by
  simp [bitsOfByte, range_eight, bitRead_bne]

theorem byteOfBits_testBit (v : Nat) :
    byteOfBits [v.testBit 0, v.testBit 1, v.testBit 2, v.testBit 3, v.testBit 4, v.testBit 5,
      v.testBit 6, v.testBit 7] = v % 256 := by
  rw [← bitsOfByte_eq, byteOfBits_bitsOfByte]

theorem bitsOfByte_mod (v : Nat) : bitsOfByte (v % 256) = bitsOfByte v := by
  simp only [bitsOfByte_eq, Nat.testBit_to_div_mod]
  norm_num
  omega

theorem bitsOfByte_length (v : Nat) : (bitsOfByte v).length = 8 := by
  simp [bitsOfByte]

/-- The eight passes of the shift-in loop assemble the sampled levels least
significant bit first. -/
theorem assemble_bits : ∀ b0 b1 b2 b3 b4 b5 b6 b7 : Bool,
    bitWrite (bitWrite (bitWrite (bitWrite (bitWrite (bitWrite (bitWrite (bitWrite 0
      0 (if b0 then HIGH else LOW)) 1 (if b1 then HIGH else LOW)) 2 (if b2 then HIGH else LOW))
      3 (if b3 then HIGH else LOW)) 4 (if b4 then HIGH else LOW)) 5 (if b5 then HIGH else LOW))
      6 (if b6 then HIGH else LOW)) 7 (if b7 then HIGH else LOW)
    = byteOfBits [b0, b1, b2, b3, b4, b5, b6, b7] := by
  decide

theorem bitsOfByte_byteOfBits : ∀ b0 b1 b2 b3 b4 b5 b6 b7 : Bool,
    bitsOfByte (byteOfBits [b0, b1, b2, b3, b4, b5, b6, b7]) = [b0, b1, b2, b3, b4, b5, b6, b7] := by
  decide

set_option maxRecDepth 100000 in
theorem bitClear_readbit : ∀ a : Fin 256, bitClear a.val DS1302_READBIT % 256 = a.val &&& 0xFE := by
  decide

set_option maxRecDepth 100000 in
theorem bitSet_readbit : ∀ a : Fin 256, bitSet a.val DS1302_READBIT % 256 = a.val ||| 0x01 := by
  decide

set_option maxRecDepth 100000 in
theorem land_even : ∀ a : Fin 256, a.val % 2 = 0 → a.val &&& 0xFE = a.val := by
  decide

set_option maxRecDepth 100000 in
theorem lor_even : ∀ a : Fin 256, a.val % 2 = 0 → a.val ||| 0x01 = a.val + 1 := by
  decide

/-! ### The monitor follows the primitives -/

theorem Wire.run_append (d : RtcDS1302) (w : Wire) (t1 t2 : Trace) :
    Wire.run d w (t1 ++ t2) = Wire.run d (Wire.run d w t1) t2 := by
  simp [Wire.run, List.foldl_append]

@[simp] theorem observe_digitalWrite (d : RtcDS1302) (pin v : Nat) (tr : Trace) :
    observe d (digitalWrite pin v tr)
      = Wire.step d (observe d tr) (PinEvent.digitalWrite pin (v != 0)) := by
  simp [observe, digitalWrite, Wire.run, List.foldl_append]

@[simp] theorem observe_pinMode (d : RtcDS1302) (pin v : Nat) (tr : Trace) :
    observe d (pinMode pin v tr)
      = Wire.step d (observe d tr) (PinEvent.pinMode pin (v != 0)) := by
  simp [observe, pinMode, Wire.run, List.foldl_append]

@[simp] theorem observe_delayMicroseconds (d : RtcDS1302) (us : Nat) (tr : Trace) :
    observe d (delayMicroseconds us tr) = observe d tr := by
  simp [observe, delayMicroseconds, Wire.run, List.foldl_append, Wire.step]

@[simp] theorem observe_digitalRead (d : RtcDS1302) (env : Env) (pin : Nat) (tr : Trace) :
    observe d (digitalRead env pin tr).2
      = Wire.step d (observe d tr) (PinEvent.digitalRead pin (env pin tr)) := by
  simp [observe, digitalRead, Wire.run, List.foldl_append]

@[simp] theorem digitalRead_fst (env : Env) (pin : Nat) (tr : Trace) :
    (digitalRead env pin tr).1 = if env pin tr then HIGH else LOW := rfl

theorem step_writeRst (d : RtcDS1302) (w : Wire) (lv : Bool) :
    Wire.step d w (PinEvent.digitalWrite d._pinRst lv) = w.writeCE lv := by
  simp [Wire.step]

theorem step_writeClk (d : RtcDS1302) (hd : d.wired) (w : Wire) (lv : Bool) :
    Wire.step d w (PinEvent.digitalWrite d._pinClk lv) = w.writeClk lv := by
  obtain ⟨_, h2, _⟩ := hd
  simp [Wire.step, Ne.symm h2]

theorem step_writeDat (d : RtcDS1302) (hd : d.wired) (w : Wire) (lv : Bool) :
    Wire.step d w (PinEvent.digitalWrite d._pinDat lv) = w.writeDat lv := by
  obtain ⟨h1, _, h3⟩ := hd
  simp [Wire.step, Ne.symm h1, h3]

theorem step_modeDat (d : RtcDS1302) (w : Wire) (o : Bool) :
    Wire.step d w (PinEvent.pinMode d._pinDat o) = { w with datOut := o } := by
  simp [Wire.step]

theorem step_modeRst (d : RtcDS1302) (hd : d.wired) (w : Wire) (o : Bool) :
    Wire.step d w (PinEvent.pinMode d._pinRst o) = w := by
  obtain ⟨h1, _, _⟩ := hd
  simp [Wire.step, h1]

theorem step_modeClk (d : RtcDS1302) (hd : d.wired) (w : Wire) (o : Bool) :
    Wire.step d w (PinEvent.pinMode d._pinClk o) = w := by
  obtain ⟨_, _, h3⟩ := hd
  simp [Wire.step, Ne.symm h3]

theorem step_readDat (d : RtcDS1302) (w : Wire) (lv : Bool) :
    Wire.step d w (PinEvent.digitalRead d._pinDat lv) = w.readDat lv := by
  simp [Wire.step]

/-! ### The monitor follows the transport functions -/

/-- Shifting a byte out without release, inside a session with the clock low:
eight bits are clocked out and the clock ends low. -/
theorem observe_togglewrite_keep (d : RtcDS1302) (hd : d.wired) (data : Nat) (tr : Trace)
    (hce : (observe d tr).ce = true) (hclk : (observe d tr).sclk = false)
    (hout : (observe d tr).datOut = true) :
    observe d (d._togglewrite data 0 tr)
      = { observe d tr with
          dat := bitRead data 7 != 0
          shifted := (observe d tr).shifted ++ bitsOfByte data
          falls := (observe d tr).falls + 8
          clkRises := (observe d tr).clkRises + 8
          clkFalls := (observe d tr).clkFalls + 8 } := by
  simp [RtcDS1302._togglewrite, range_eight, bitsOfByte, RtcDS1302._togglewriteBit,
    step_writeClk d hd, step_writeDat d hd,
    Wire.writeClk, Wire.writeDat, hce, hclk, hout]

/-- Shifting a byte out with release: eight bits are clocked out, the clock
stays high and the data pin ends in input mode. -/
theorem observe_togglewrite_release (d : RtcDS1302) (hd : d.wired) (data release : Nat)
    (tr : Trace) (hrel : release ≠ 0)
    (hce : (observe d tr).ce = true) (hclk : (observe d tr).sclk = false)
    (hout : (observe d tr).datOut = true) :
    observe d (d._togglewrite data release tr)
      = { observe d tr with
          sclk := true
          datOut := false
          dat := bitRead data 7 != 0
          shifted := (observe d tr).shifted ++ bitsOfByte data
          falls := (observe d tr).falls + 7
          clkRises := (observe d tr).clkRises + 8
          clkFalls := (observe d tr).clkFalls + 7 } := by
  simp [RtcDS1302._togglewrite, range_eight, bitsOfByte, RtcDS1302._togglewriteBit,
    step_writeClk d hd, step_writeDat d hd, step_modeDat,
    Wire.writeClk, Wire.writeDat, hce, hclk, hout, hrel]

/-- Shifting a byte in, inside a session with the data pin released: the
sampled levels are the bits of the returned byte. -/
theorem observe_toggleread (d : RtcDS1302) (hd : d.wired) (env : Env) (tr : Trace)
    (hce : (observe d tr).ce = true) (hout : (observe d tr).datOut = false) :
    observe d (d._toggleread env tr).2
      = { observe d tr with
          sclk := false
          sampled := (observe d tr).sampled ++ bitsOfByte (d._toggleread env tr).1
          falls := (observe d tr).falls + 8
          clkRises := (observe d tr).clkRises + (if (observe d tr).sclk then 7 else 8)
          clkFalls := (observe d tr).clkFalls + 8 } := by
  cases hs : (observe d tr).sclk <;>
  simp [RtcDS1302._toggleread, range_eight, RtcDS1302._togglereadBit, step_writeClk d hd,
    step_readDat, Wire.writeClk, Wire.readDat, hce, hout, hs, assemble_bits,
    bitsOfByte_byteOfBits]

/-! ### The simulated store answers reads -/

theorem Store.level_eq (st : Store) (cmd f j i : Nat) (hf : f = 8 + (8 * j + i)) (hi : i < 8) :
    Store.level st (bitsOfByte cmd) f = (st.answer (cmd % 256) j).testBit i := by
  have hl : (bitsOfByte cmd).length = 8 := bitsOfByte_length cmd
  have ht : List.take 8 (bitsOfByte cmd) = bitsOfByte cmd := by
    rw [List.take_of_length_le]; omega
  have h1 : (f - 8) / 8 = j := by omega
  have h2 : (f - 8) % 8 = i := by omega
  have h3 : 8 ≤ f := by omega
  simp [Store.level, hl, ht, byteOfBits_bitsOfByte, h1, h2, h3]

/-- In a read session of the simulated store, the byte shifted in after the
command `cmd` and `j` earlier bytes is the byte number `j` of the answer. -/
theorem toggleread_simulated (d : RtcDS1302) (hd : d.wired) (st0 : Store) (tr : Trace)
    (cmd j f : Nat)
    (hce : (observe d tr).ce = true) (hout : (observe d tr).datOut = false)
    (hsh : (observe d tr).shifted = bitsOfByte cmd)
    (hf : (observe d tr).falls = f) (hfj : f = 7 + 8 * j) :
    (d._toggleread (simulated d st0) tr).1
      = (Store.answer (Store.after st0 (observe d tr).sessions) (cmd % 256) j) % 256 := by
  have e0 := Store.level_eq (Store.after st0 (observe d tr).sessions) cmd
    (f + 1) j 0 (by omega) (by omega)
  have e1 := Store.level_eq (Store.after st0 (observe d tr).sessions) cmd
    (f + 1 + 1) j 1 (by omega) (by omega)
  have e2 := Store.level_eq (Store.after st0 (observe d tr).sessions) cmd
    (f + 1 + 1 + 1) j 2 (by omega) (by omega)
  have e3 := Store.level_eq (Store.after st0 (observe d tr).sessions) cmd
    (f + 1 + 1 + 1 + 1) j 3 (by omega) (by omega)
  have e4 := Store.level_eq (Store.after st0 (observe d tr).sessions) cmd
    (f + 1 + 1 + 1 + 1 + 1) j 4 (by omega) (by omega)
  have e5 := Store.level_eq (Store.after st0 (observe d tr).sessions) cmd
    (f + 1 + 1 + 1 + 1 + 1 + 1) j 5 (by omega) (by omega)
  have e6 := Store.level_eq (Store.after st0 (observe d tr).sessions) cmd
    (f + 1 + 1 + 1 + 1 + 1 + 1 + 1) j 6 (by omega) (by omega)
  have e7 := Store.level_eq (Store.after st0 (observe d tr).sessions) cmd
    (f + 1 + 1 + 1 + 1 + 1 + 1 + 1 + 1) j 7 (by omega) (by omega)
  cases hs : (observe d tr).sclk <;>
  simp only [RtcDS1302._toggleread, range_eight, List.foldl, RtcDS1302._togglereadBit,
    observe_digitalWrite, observe_delayMicroseconds, observe_digitalRead, digitalRead_fst,
    step_writeClk d hd, HIGH_bne, LOW_bne,
    step_readDat, Wire.writeClk, Wire.readDat, hce, hout, hs, assemble_bits,
    simulated, Store.out, hsh, hf, if_true, if_false, e0, e1, e2, e3, e4, e5, e6, e7,
    byteOfBits_testBit, Bool.false_eq_true]

/-! ### Sessions -/

/-- Opening a session from the idle state. -/
theorem observe_start (d : RtcDS1302) (hd : d.wired) (tr : Trace)
    (hidle : (observe d tr).ce = false) :
    observe d (d._start tr)
      = { observe d tr with
          ce := true
          sclk := false
          datOut := true
          shifted := []
          sampled := []
          falls := 0
          ceRises := (observe d tr).ceRises + 1
          clkFalls := (observe d tr).clkFalls + (if (observe d tr).sclk then 1 else 0) } := by
  cases hs : (observe d tr).sclk <;>
  simp [RtcDS1302._start, step_writeRst, step_writeClk d hd, step_modeRst d hd,
    step_modeClk d hd, step_modeDat, Wire.writeCE, Wire.writeClk, hidle, hs]

/-- Closing the running session files it. -/
theorem observe_stop (d : RtcDS1302) (tr : Trace) (hce : (observe d tr).ce = true) :
    observe d (d._stop tr)
      = { observe d tr with
          ce := false
          shifted := []
          sampled := []
          falls := 0
          sessions := (observe d tr).sessions
            ++ [{ shifted := (observe d tr).shifted, sampled := (observe d tr).sampled }] } := by
  simp [RtcDS1302._stop, step_writeRst, Wire.writeCE, hce]

/-- A single-register write from the idle state is one session in which the
address byte and the data byte are shifted out. -/
theorem observe_write (d : RtcDS1302) (hd : d.wired) (address data : Nat) (tr : Trace)
    (hidle : (observe d tr).ce = false) :
    observe d (d._write address data tr)
      = { observe d tr with
          ce := false
          sclk := false
          dat := bitRead data 7 != 0
          datOut := true
          shifted := []
          sampled := []
          falls := 0
          sessions := (observe d tr).sessions
            ++ [{ shifted := bitsOfBytes [bitClear address DS1302_READBIT % 256, data],
                  sampled := [] }]
          ceRises := (observe d tr).ceRises + 1
          clkRises := (observe d tr).clkRises + 16
          clkFalls := (observe d tr).clkFalls + (if (observe d tr).sclk then 1 else 0) + 16 } := by
  have h1 := observe_start d hd tr hidle
  have h2 := observe_togglewrite_keep d hd (bitClear address DS1302_READBIT % 256) (d._start tr)
    (by rw [h1]) (by rw [h1]) (by rw [h1])
  have h3 := observe_togglewrite_keep d hd data _ (by rw [h2, h1]) (by rw [h2, h1]) (by rw [h2, h1])
  have h4 := observe_stop d _ (by rw [h3, h2, h1])
  simp only [RtcDS1302._write]
  rw [h4, h3, h2, h1]
  simp [bitsOfBytes, Nat.add_assoc]


theorem togglewrite_keep_step (d : RtcDS1302) (hd : d.wired) (data : Nat) (tr : Trace)
    (x : Bool) (sh sa : List Bool) (f : Nat) (ss : List Session) (a b c e g : Nat)
    (h : observe d tr =
      { ce := true, sclk := false, dat := x, datOut := true, shifted := sh,
        sampled := sa, falls := f, sessions := ss, ceRises := a, clkRises := b, clkFalls := c,
        idleRises := e, blindWrites := g }) :
    observe d (d._togglewrite data 0 tr)
      = { ce := true, sclk := false, dat := bitRead data 7 != 0, datOut := true,
          shifted := sh ++ bitsOfByte data, sampled := sa, falls := f + 8, sessions := ss,
          ceRises := a, clkRises := b + 8, clkFalls := c + 8, idleRises := e,
          blindWrites := g } := by
  rw [observe_togglewrite_keep d hd data tr (by rw [h]) (by rw [h]) (by rw [h]), h]

/-- A burst write from the idle state is one session in which the command byte
and the eight bytes of the block are shifted out. -/
theorem observe_burstwrite (d : RtcDS1302) (hd : d.wired) (p : List Nat) (tr : Trace)
    (hidle : (observe d tr).ce = false) :
    observe d (d._burstwrite p tr)
      = { observe d tr with
          ce := false
          sclk := false
          dat := bitRead (p.getD 7 0) 7 != 0
          datOut := true
          shifted := []
          sampled := []
          falls := 0
          sessions := (observe d tr).sessions
            ++ [{ shifted := bitsOfBytes [DS1302_CLOCK_BURST_WRITE, p.getD 0 0, p.getD 1 0,
                    p.getD 2 0, p.getD 3 0, p.getD 4 0, p.getD 5 0, p.getD 6 0, p.getD 7 0],
                  sampled := [] }]
          ceRises := (observe d tr).ceRises + 1
          clkRises := (observe d tr).clkRises + 72
          clkFalls := (observe d tr).clkFalls + (if (observe d tr).sclk then 1 else 0) + 72 } := by
  have h0 := observe_start d hd tr hidle
  have h1 := togglewrite_keep_step d hd DS1302_CLOCK_BURST_WRITE _ _ _ _ _ _ _ _ _ _ _ h0
  have h2 := togglewrite_keep_step d hd (p.getD 0 0) _ _ _ _ _ _ _ _ _ _ _ h1
  have h3 := togglewrite_keep_step d hd (p.getD 1 0) _ _ _ _ _ _ _ _ _ _ _ h2
  have h4 := togglewrite_keep_step d hd (p.getD 2 0) _ _ _ _ _ _ _ _ _ _ _ h3
  have h5 := togglewrite_keep_step d hd (p.getD 3 0) _ _ _ _ _ _ _ _ _ _ _ h4
  have h6 := togglewrite_keep_step d hd (p.getD 4 0) _ _ _ _ _ _ _ _ _ _ _ h5
  have h7 := togglewrite_keep_step d hd (p.getD 5 0) _ _ _ _ _ _ _ _ _ _ _ h6
  have h8 := togglewrite_keep_step d hd (p.getD 6 0) _ _ _ _ _ _ _ _ _ _ _ h7
  have h9 := togglewrite_keep_step d hd (p.getD 7 0) _ _ _ _ _ _ _ _ _ _ _ h8
  have h10 := observe_stop d _ (by rw [h9])
  simp only [RtcDS1302._burstwrite, range_eight, List.foldl]
  rw [h10, h9]
  simp [bitsOfBytes, Nat.add_assoc]

theorem togglewrite_release_step (d : RtcDS1302) (hd : d.wired) (data release : Nat)
    (tr : Trace) (hrel : release ≠ 0)
    (x : Bool) (sh sa : List Bool) (f : Nat) (ss : List Session) (a b c e g : Nat)
    (h : observe d tr =
      { ce := true, sclk := false, dat := x, datOut := true, shifted := sh,
        sampled := sa, falls := f, sessions := ss, ceRises := a, clkRises := b, clkFalls := c,
        idleRises := e, blindWrites := g }) :
    observe d (d._togglewrite data release tr)
      = { ce := true, sclk := true, dat := bitRead data 7 != 0, datOut := false,
          shifted := sh ++ bitsOfByte data, sampled := sa, falls := f + 7, sessions := ss,
          ceRises := a, clkRises := b + 8, clkFalls := c + 7, idleRises := e,
          blindWrites := g } := by
  rw [observe_togglewrite_release d hd data release tr hrel (by rw [h]) (by rw [h]) (by rw [h]), h]

theorem toggleread_step (d : RtcDS1302) (hd : d.wired) (env : Env) (tr : Trace)
    (s x : Bool) (sh sa : List Bool) (f : Nat) (ss : List Session) (a b c e g : Nat)
    (h : observe d tr =
      { ce := true, sclk := s, dat := x, datOut := false, shifted := sh,
        sampled := sa, falls := f, sessions := ss, ceRises := a, clkRises := b, clkFalls := c,
        idleRises := e, blindWrites := g }) :
    observe d (d._toggleread env tr).2
      = { ce := true, sclk := false, dat := x, datOut := false, shifted := sh,
          sampled := sa ++ bitsOfByte (d._toggleread env tr).1, falls := f + 8, sessions := ss,
          ceRises := a, clkRises := b + (if s then 7 else 8), clkFalls := c + 8, idleRises := e,
          blindWrites := g } := by
  rw [observe_toggleread d hd env tr (by rw [h]) (by rw [h]), h]

/-- A burst read from the idle state is one session in which the command byte
is shifted out and the eight returned bytes are shifted in. -/
theorem observe_burstread (d : RtcDS1302) (hd : d.wired) (env : Env) (tr : Trace)
    (hidle : (observe d tr).ce = false) :
    observe d (d._burstread env tr).2
      = { observe d tr with
          ce := false
          sclk := false
          dat := true
          datOut := false
          shifted := []
          sampled := []
          falls := 0
          sessions := (observe d tr).sessions
            ++ [{ shifted := bitsOfBytes [DS1302_CLOCK_BURST_READ],
                  sampled := bitsOfBytes (d._burstread env tr).1 }]
          ceRises := (observe d tr).ceRises + 1
          clkRises := (observe d tr).clkRises + 71
          clkFalls := (observe d tr).clkFalls + (if (observe d tr).sclk then 1 else 0) + 71 } := by
  have h0 := observe_start d hd tr hidle
  have h1 := togglewrite_release_step d hd DS1302_CLOCK_BURST_READ 1 _ (by decide)
    _ _ _ _ _ _ _ _ _ _ h0
  have h2 := toggleread_step d hd env _ _ _ _ _ _ _ _ _ _ _ _ h1
  have h3 := toggleread_step d hd env _ _ _ _ _ _ _ _ _ _ _ _ h2
  have h4 := toggleread_step d hd env _ _ _ _ _ _ _ _ _ _ _ _ h3
  have h5 := toggleread_step d hd env _ _ _ _ _ _ _ _ _ _ _ _ h4
  have h6 := toggleread_step d hd env _ _ _ _ _ _ _ _ _ _ _ _ h5
  have h7 := toggleread_step d hd env _ _ _ _ _ _ _ _ _ _ _ _ h6
  have h8 := toggleread_step d hd env _ _ _ _ _ _ _ _ _ _ _ _ h7
  have h9 := toggleread_step d hd env _ _ _ _ _ _ _ _ _ _ _ _ h8
  have h10 := observe_stop d _ (by rw [h9])
  simp only [RtcDS1302._burstread, range_eight, List.foldl]
  rw [h10, h9]
  simp [bitsOfBytes, Nat.add_assoc, DS1302_CLOCK_BURST_READ, bitRead]

/-- The length of the block a burst read returns. -/
theorem burstread_length (d : RtcDS1302) (env : Env) (tr : Trace) :
    (d._burstread env tr).1.length = 8 := by
  simp [RtcDS1302._burstread, range_eight]

/-- On the simulated store a burst read returns the registers `0x80`,
`0x82`, ..., `0x8E`. -/
theorem burstread_simulated (d : RtcDS1302) (hd : d.wired) (st0 : Store) (tr : Trace)
    (hidle : (observe d tr).ce = false) :
    (d._burstread (simulated d st0) tr).1
      = [registers d st0 tr DS1302_SECONDS % 256, registers d st0 tr DS1302_MINUTES % 256,
         registers d st0 tr DS1302_HOURS % 256, registers d st0 tr DS1302_DATE % 256,
         registers d st0 tr DS1302_MONTH % 256, registers d st0 tr DS1302_DAY % 256,
         registers d st0 tr DS1302_YEAR % 256, registers d st0 tr DS1302_ENABLE % 256] := by
  have h0 := observe_start d hd tr hidle
  have h1 := togglewrite_release_step d hd DS1302_CLOCK_BURST_READ 1 _ (by decide)
    _ _ _ _ _ _ _ _ _ _ h0
  have h2 := toggleread_step d hd (simulated d st0) _ _ _ _ _ _ _ _ _ _ _ _ h1
  have h3 := toggleread_step d hd (simulated d st0) _ _ _ _ _ _ _ _ _ _ _ _ h2
  have h4 := toggleread_step d hd (simulated d st0) _ _ _ _ _ _ _ _ _ _ _ _ h3
  have h5 := toggleread_step d hd (simulated d st0) _ _ _ _ _ _ _ _ _ _ _ _ h4
  have h6 := toggleread_step d hd (simulated d st0) _ _ _ _ _ _ _ _ _ _ _ _ h5
  have h7 := toggleread_step d hd (simulated d st0) _ _ _ _ _ _ _ _ _ _ _ _ h6
  have h8 := toggleread_step d hd (simulated d st0) _ _ _ _ _ _ _ _ _ _ _ _ h7
  have v1 := toggleread_simulated d hd st0 _ DS1302_CLOCK_BURST_READ 0 7
    (by rw [h1]) (by rw [h1]) (by rw [h1]; simp) (by rw [h1]) (by omega)
  have v2 := toggleread_simulated d hd st0 _ DS1302_CLOCK_BURST_READ 1 15
    (by rw [h2]) (by rw [h2]) (by rw [h2]; simp) (by rw [h2]) (by omega)
  have v3 := toggleread_simulated d hd st0 _ DS1302_CLOCK_BURST_READ 2 23
    (by rw [h3]) (by rw [h3]) (by rw [h3]; simp) (by rw [h3]) (by omega)
  have v4 := toggleread_simulated d hd st0 _ DS1302_CLOCK_BURST_READ 3 31
    (by rw [h4]) (by rw [h4]) (by rw [h4]; simp) (by rw [h4]) (by omega)
  have v5 := toggleread_simulated d hd st0 _ DS1302_CLOCK_BURST_READ 4 39
    (by rw [h5]) (by rw [h5]) (by rw [h5]; simp) (by rw [h5]) (by omega)
  have v6 := toggleread_simulated d hd st0 _ DS1302_CLOCK_BURST_READ 5 47
    (by rw [h6]) (by rw [h6]) (by rw [h6]; simp) (by rw [h6]) (by omega)
  have v7 := toggleread_simulated d hd st0 _ DS1302_CLOCK_BURST_READ 6 55
    (by rw [h7]) (by rw [h7]) (by rw [h7]; simp) (by rw [h7]) (by omega)
  have v8 := toggleread_simulated d hd st0 _ DS1302_CLOCK_BURST_READ 7 63
    (by rw [h8]) (by rw [h8]) (by rw [h8]; simp) (by rw [h8]) (by omega)
  rw [h1] at v1; rw [h2] at v2; rw [h3] at v3; rw [h4] at v4
  rw [h5] at v5; rw [h6] at v6; rw [h7] at v7; rw [h8] at v8
  simp only [RtcDS1302._burstread, range_eight, List.foldl, List.nil_append, List.cons_append]
  rw [v1, v2, v3, v4, v5, v6, v7, v8]
  simp [registers, Store.answer, DS1302_CLOCK_BURST_READ, DS1302_SECONDS, DS1302_MINUTES,
    DS1302_HOURS, DS1302_DATE, DS1302_MONTH, DS1302_DAY, DS1302_YEAR, DS1302_ENABLE]

theorem byteOfBits_lt : ∀ b0 b1 b2 b3 b4 b5 b6 b7 : Bool,
    byteOfBits [b0, b1, b2, b3, b4, b5, b6, b7] < 256 := by
  decide

/-- The byte `_toggleread` returns is the byte assembled from the eight levels
read, so it is below 256. -/
theorem toggleread_lt (d : RtcDS1302) (env : Env) (tr : Trace) :
    (d._toggleread env tr).1 < 256 := by
  simp only [RtcDS1302._toggleread, range_eight, List.foldl, RtcDS1302._togglereadBit,
    digitalRead_fst, assemble_bits]
  exact byteOfBits_lt _ _ _ _ _ _ _ _

/-- A single-register read from the idle state is one session in which the
address byte is shifted out and the returned byte is shifted in. -/
theorem observe_read (d : RtcDS1302) (hd : d.wired) (env : Env) (address : Nat) (tr : Trace)
    (hidle : (observe d tr).ce = false) :
    observe d (d._read env address tr).2
      = { observe d tr with
          ce := false
          sclk := false
          dat := bitRead (bitSet address DS1302_READBIT % 256) 7 != 0
          datOut := false
          shifted := []
          sampled := []
          falls := 0
          sessions := (observe d tr).sessions
            ++ [{ shifted := bitsOfBytes [bitSet address DS1302_READBIT % 256],
                  sampled := bitsOfBytes [(d._read env address tr).1] }]
          ceRises := (observe d tr).ceRises + 1
          clkRises := (observe d tr).clkRises + 15
          clkFalls := (observe d tr).clkFalls + (if (observe d tr).sclk then 1 else 0) + 15 } := by
  have h0 := observe_start d hd tr hidle
  have h1 := togglewrite_release_step d hd (bitSet address DS1302_READBIT % 256) 1 _ (by decide)
    _ _ _ _ _ _ _ _ _ _ h0
  have h2 := toggleread_step d hd env _ _ _ _ _ _ _ _ _ _ _ _ h1
  have h3 := observe_stop d _ (by rw [h2])
  simp only [RtcDS1302._read]
  rw [h3, h2]
  simp [bitsOfBytes, Nat.add_assoc]

/-- On the simulated store a single-register read returns the addressed
register. -/
theorem read_simulated (d : RtcDS1302) (hd : d.wired) (st0 : Store) (address : Nat) (tr : Trace)
    (hidle : (observe d tr).ce = false) (ha : address % 2 = 0) (ha1 : address < 256)
    (ha2 : address ≠ DS1302_CLOCK_BURST_WRITE) :
    (d._read (simulated d st0) address tr).1 = registers d st0 tr address % 256 := by
  have hb : bitSet address DS1302_READBIT % 256 = address + 1 := by
    rw [bitSet_readbit ⟨address, ha1⟩]
    exact lor_even ⟨address, ha1⟩ ha
  have h0 := observe_start d hd tr hidle
  have h1 := togglewrite_release_step d hd (bitSet address DS1302_READBIT % 256) 1 _ (by decide)
    _ _ _ _ _ _ _ _ _ _ h0
  have v1 := toggleread_simulated d hd st0 _ (bitSet address DS1302_READBIT % 256) 0 7
    (by rw [h1]) (by rw [h1]) (by rw [h1]; simp) (by rw [h1]) (by omega)
  rw [h1] at v1
  simp only [RtcDS1302._read]
  rw [v1, hb]
  have hne : address + 1 ≠ DS1302_CLOCK_BURST_READ := by
    intro h
    apply ha2
    simp only [DS1302_CLOCK_BURST_READ, DS1302_CLOCK_BURST_WRITE] at *
    omega
  have hm : (address + 1) % 256 = address + 1 := by omega
  have hodd : (address + 1) % 2 = 1 := by omega
  simp [Store.answer, hm, hne, hodd, registers]

/-! ### The registers of the simulated store -/

theorem bytesOfBits_bitsOfBytes (vs : List Nat) :
    bytesOfBits (bitsOfBytes vs) = vs.map (fun v => v % 256) := by
  induction vs with
  | nil => rfl
  | cons v vs ih =>
    show bytesOfBits (bitsOfByte v ++ bitsOfBytes vs) = _
    rw [bitsOfByte_eq]
    show byteOfBits [v.testBit 0, v.testBit 1, v.testBit 2, v.testBit 3, v.testBit 4,
      v.testBit 5, v.testBit 6, v.testBit 7] :: bytesOfBits (bitsOfBytes vs) = _
    rw [byteOfBits_testBit, ih]
    rfl

theorem registers_eq (d : RtcDS1302) (st0 : Store) (tr : Trace) :
    registers d st0 tr = Store.after st0 (observe d tr).sessions := rfl

theorem Store.after_append (st : Store) (ss : List Session) (s : Session) :
    Store.after st (ss ++ [s]) = Store.commit (Store.after st ss) s := by
  simp [Store.after, List.foldl_append]

/-- A single-register write stores the data byte in the addressed register of
the simulated store. -/
theorem registers_write (d : RtcDS1302) (hd : d.wired) (st0 : Store) (address data : Nat)
    (tr : Trace) (hidle : (observe d tr).ce = false)
    (ha : address % 2 = 0) (ha1 : address < 256) (ha2 : address ≠ DS1302_CLOCK_BURST_WRITE) :
    registers d st0 (d._write address data tr)
      = Function.update (registers d st0 tr) address (data % 256) := by
  have hb : bitClear address DS1302_READBIT % 256 = address := by
    rw [bitClear_readbit ⟨address, ha1⟩]
    exact land_even ⟨address, ha1⟩ ha
  rw [registers_eq, observe_write d hd address data tr hidle]
  simp only [Store.after_append, Store.commit, Session.bytesOut, bytesOfBits_bitsOfBytes, List.map,
    hb, Nat.mod_eq_of_lt ha1]
  simp [registers_eq, ha, ha2]

/-- A burst write stores the eight bytes of the block in the simulated
store. -/
theorem registers_burstwrite (d : RtcDS1302) (hd : d.wired) (st0 : Store) (p : List Nat)
    (tr : Trace) (hidle : (observe d tr).ce = false) :
    registers d st0 (d._burstwrite p tr)
      = (registers d st0 tr).burst [p.getD 0 0 % 256, p.getD 1 0 % 256, p.getD 2 0 % 256,
          p.getD 3 0 % 256, p.getD 4 0 % 256, p.getD 5 0 % 256, p.getD 6 0 % 256,
          p.getD 7 0 % 256] := by
  rw [registers_eq, observe_burstwrite d hd p tr hidle]
  simp only [Store.after_append, Store.commit, Session.bytesOut, bytesOfBits_bitsOfBytes, List.map]
  simp [registers_eq, DS1302_CLOCK_BURST_WRITE]

/-- A burst read leaves the simulated store as it was. -/
theorem registers_burstread (d : RtcDS1302) (hd : d.wired) (st0 : Store) (env : Env)
    (tr : Trace) (hidle : (observe d tr).ce = false) :
    registers d st0 (d._burstread env tr).2 = registers d st0 tr := by
  rw [registers_eq, observe_burstread d hd env tr hidle]
  simp only [Store.after_append, Store.commit, Session.bytesOut, bytesOfBits_bitsOfBytes, List.map]
  rfl

theorem idle_write (d : RtcDS1302) (hd : d.wired) (address data : Nat) (tr : Trace)
    (hidle : (observe d tr).ce = false) : (observe d (d._write address data tr)).ce = false := by
  rw [observe_write d hd address data tr hidle]

theorem idle_burstwrite (d : RtcDS1302) (hd : d.wired) (p : List Nat) (tr : Trace)
    (hidle : (observe d tr).ce = false) : (observe d (d._burstwrite p tr)).ce = false := by
  rw [observe_burstwrite d hd p tr hidle]

theorem idle_burstread (d : RtcDS1302) (hd : d.wired) (env : Env) (tr : Trace)
    (hidle : (observe d tr).ce = false) : (observe d (d._burstread env tr).2).ce = false := by
  rw [observe_burstread d hd env tr hidle]

theorem idle_nil (d : RtcDS1302) : (observe d []).ce = false := rfl

/-! ### Bit-fields and narrowing -/

theorem bitfield_natCast (w n : Nat) : bitfield w (n : Int) = n % 2 ^ w := by
  unfold bitfield
  have : ((n : Int) % 2 ^ w) = ((n % 2 ^ w : Nat) : Int) := by push_cast; rfl
  rw [this, Int.toNat_ofNat]

theorem dec2bcd_l_natCast (n : Nat) : dec2bcd_l (n : Int) = ((n % 10 : Nat) : Int) := by
  unfold dec2bcd_l
  rw [Int.tmod_eq_emod (by omega) (by decide)]
  push_cast; rfl

theorem dec2bcd_h_natCast (n : Nat) : dec2bcd_h (n : Int) = ((n / 10 : Nat) : Int) := by
  unfold dec2bcd_h
  rw [Int.tdiv_eq_ediv (by omega) (by decide)]
  push_cast; rfl

theorem toU8_bcd2dec (h l : Nat) : toU8 (bcd2dec h l) = (h * 10 + l) % 256 := by
  unfold toU8 bcd2dec
  omega

theorem toU16_bcd2dec (h l : Nat) : toU16 (bcd2dec h l + 2000) = (h * 10 + l + 2000) % 65536 := by
  unfold toU16 bcd2dec
  omega

theorem bitfield_lt (w : Nat) (x : Int) : bitfield w x < 2 ^ w := by
  unfold bitfield
  have hp : (0 : Int) < 2 ^ w := by positivity
  have h1 : 0 ≤ x % 2 ^ w := Int.emod_nonneg _ (ne_of_gt hp)
  have h2 : x % 2 ^ w < 2 ^ w := Int.emod_lt_of_pos _ hp
  rw [Int.toNat_lt h1]
  push_cast
  exact h2

theorem wf_ofBytes (p : List Nat) : (ds1302_struct.ofBytes p).wf := by
  simp only [ds1302_struct.wf, ds1302_struct.ofBytes]
  omega

/-- Reading the bytes of a well-formed block back as bit-fields gives the
block. -/
theorem ofBytes_toBytes (r : ds1302_struct) (h : r.wf) :
    ds1302_struct.ofBytes [r.toBytes.getD 0 0 % 256, r.toBytes.getD 1 0 % 256,
      r.toBytes.getD 2 0 % 256, r.toBytes.getD 3 0 % 256, r.toBytes.getD 4 0 % 256,
      r.toBytes.getD 5 0 % 256, r.toBytes.getD 6 0 % 256, r.toBytes.getD 7 0 % 256] = r := by
  obtain ⟨h1, h2, h3, h4, h5, h6, h7, h8, h9, h10, h11, h12, h13, h14, h15, h16, h17, h18, h19,
    h20, h21, h22⟩ := h
  cases r
  simp only [ds1302_struct.toBytes, ds1302_struct.ofBytes, List.getD_cons_zero,
    List.getD_cons_succ, ds1302_struct.mk.injEq] at *
  refine ⟨?_, ?_, ?_, ?_, ?_, ?_, ?_, ?_, ?_, ?_, ?_, ?_, ?_, ?_, ?_, ?_, ?_, ?_, ?_, ?_, ?_, ?_⟩
    <;> omega

theorem wf_set_rtc (r : ds1302_struct) (h : r.wf)
    (hour minute second year month day dow : Nat) :
    (RtcDS1302.set_rtc r hour minute second year month day dow).wf := by
  obtain ⟨h1, h2, h3, h4, h5, h6, h7, h8, h9, h10, h11, h12, h13, h14, h15, h16, h17, h18, h19,
    h20, h21, h22⟩ := h
  simp only [ds1302_struct.wf, RtcDS1302.set_rtc, RtcDS1302.setDate_rtc, RtcDS1302.setTime_rtc]
  refine ⟨?_, ?_, ?_, ?_, ?_, ?_, ?_, ?_, ?_, ?_, ?_, ?_, ?_, ?_, ?_, ?_, ?_, ?_, ?_, ?_, ?_, ?_⟩
    <;> first | assumption | exact bitfield_lt _ _ | exact Nat.zero_lt_two

theorem wf_setDate_rtc (r : ds1302_struct) (h : r.wf) (year month day dow : Nat) :
    (RtcDS1302.setDate_rtc r year month day dow).wf := by
  obtain ⟨h1, h2, h3, h4, h5, h6, h7, h8, h9, h10, h11, h12, h13, h14, h15, h16, h17, h18, h19,
    h20, h21, h22⟩ := h
  simp only [ds1302_struct.wf, RtcDS1302.set_rtc, RtcDS1302.setDate_rtc, RtcDS1302.setTime_rtc]
  refine ⟨?_, ?_, ?_, ?_, ?_, ?_, ?_, ?_, ?_, ?_, ?_, ?_, ?_, ?_, ?_, ?_, ?_, ?_, ?_, ?_, ?_, ?_⟩
    <;> first | assumption | exact bitfield_lt _ _ | exact Nat.zero_lt_two

theorem wf_setTime_rtc (r : ds1302_struct) (h : r.wf) (hour minute second : Nat) :
    (RtcDS1302.setTime_rtc r hour minute second).wf := by
  obtain ⟨h1, h2, h3, h4, h5, h6, h7, h8, h9, h10, h11, h12, h13, h14, h15, h16, h17, h18, h19,
    h20, h21, h22⟩ := h
  simp only [ds1302_struct.wf, RtcDS1302.set_rtc, RtcDS1302.setDate_rtc, RtcDS1302.setTime_rtc]
  refine ⟨?_, ?_, ?_, ?_, ?_, ?_, ?_, ?_, ?_, ?_, ?_, ?_, ?_, ?_, ?_, ?_, ?_, ?_, ?_, ?_, ?_, ?_⟩
    <;> first | assumption | exact bitfield_lt _ _ | exact Nat.zero_lt_two

theorem Store.burst_apply (st : Store) (p : List Nat) :
    st.burst p DS1302_SECONDS = p.getD 0 0 ∧ st.burst p DS1302_MINUTES = p.getD 1 0
    ∧ st.burst p DS1302_HOURS = p.getD 2 0 ∧ st.burst p DS1302_DATE = p.getD 3 0
    ∧ st.burst p DS1302_MONTH = p.getD 4 0 ∧ st.burst p DS1302_DAY = p.getD 5 0
    ∧ st.burst p DS1302_YEAR = p.getD 6 0 ∧ st.burst p DS1302_ENABLE = p.getD 7 0 := by
  simp [Store.burst, DS1302_SECONDS, DS1302_MINUTES, DS1302_HOURS, DS1302_DATE, DS1302_MONTH,
    DS1302_DAY, DS1302_YEAR, DS1302_ENABLE]

/-- On the simulated store a burst read that follows a burst write returns
the bytes written. -/
theorem burstread_burstwrite (d : RtcDS1302) (hd : d.wired) (st0 : Store) (p : List Nat)
    (tr : Trace) (hidle : (observe d tr).ce = false) :
    (d._burstread (simulated d st0) (d._burstwrite p tr)).1
      = [p.getD 0 0 % 256, p.getD 1 0 % 256, p.getD 2 0 % 256, p.getD 3 0 % 256,
         p.getD 4 0 % 256, p.getD 5 0 % 256, p.getD 6 0 % 256, p.getD 7 0 % 256] := by
  rw [burstread_simulated d hd st0 _ (idle_burstwrite d hd p tr hidle),
    registers_burstwrite d hd st0 p tr hidle]
  obtain ⟨b0, b1, b2, b3, b4, b5, b6, b7⟩ := Store.burst_apply (registers d st0 tr)
    [p.getD 0 0 % 256, p.getD 1 0 % 256, p.getD 2 0 % 256, p.getD 3 0 % 256,
     p.getD 4 0 % 256, p.getD 5 0 % 256, p.getD 6 0 % 256, p.getD 7 0 % 256]
  rw [b0, b1, b2, b3, b4, b5, b6, b7]
  simp

/-- The registers after clearing write-protect and burst-writing the block
`p`. -/
theorem registers_clear_burstwrite (d : RtcDS1302) (hd : d.wired) (st0 : Store) (p : List Nat)
    (tr : Trace) (hidle : (observe d tr).ce = false) :
    registers d st0 (d._burstwrite p (d._write DS1302_ENABLE 0x00 tr))
      = Store.burst (Function.update (registers d st0 tr) DS1302_ENABLE 0)
          [p.getD 0 0 % 256, p.getD 1 0 % 256, p.getD 2 0 % 256, p.getD 3 0 % 256,
           p.getD 4 0 % 256, p.getD 5 0 % 256, p.getD 6 0 % 256, p.getD 7 0 % 256] := by
  rw [registers_burstwrite d hd st0 p _ (idle_write d hd _ _ tr hidle),
    registers_write d hd st0 _ _ tr hidle (by decide) (by decide) (by decide)]

/-- The registers after clearing write-protect and writing `data` to the
register `address`. -/
theorem registers_clear_write (d : RtcDS1302) (hd : d.wired) (st0 : Store) (address data : Nat)
    (tr : Trace) (hidle : (observe d tr).ce = false)
    (ha : address % 2 = 0) (ha1 : address < 256) (ha2 : address ≠ DS1302_CLOCK_BURST_WRITE) :
    registers d st0 (d._write address data (d._write DS1302_ENABLE 0x00 tr))
      = Function.update (Function.update (registers d st0 tr) DS1302_ENABLE 0) address
          (data % 256) := by
  rw [registers_write d hd st0 _ _ _ (idle_write d hd _ _ tr hidle) ha ha1 ha2,
    registers_write d hd st0 _ _ tr hidle (by decide) (by decide) (by decide)]

/-- The byte of the seconds register has bit 7 clear when `CH` is zero. -/
theorem seconds_byte_bit7 (r : ds1302_struct) (h : r.wf) (h0 : r.CH = 0) :
    (r.toBytes.getD 0 0 % 256).testBit 7 = false := by
  obtain ⟨h1, h2, -⟩ := h
  simp only [ds1302_struct.toBytes, List.getD_cons_zero, h0, Nat.testBit_to_div_mod,
    decide_eq_false_iff_not]
  omega

/-- The byte of the hour register has bit 7 clear when the 12/24 field is
zero. -/
theorem hours_byte_bit7 (r : ds1302_struct) (h : r.wf) (h0 : r.h24_hour_12_24 = 0) :
    (r.toBytes.getD 2 0 % 256).testBit 7 = false := by
  obtain ⟨-, -, -, -, -, -, h7, h8, h9, -⟩ := h
  simp only [ds1302_struct.toBytes, List.getD_cons_zero, List.getD_cons_succ, h0,
    Nat.testBit_to_div_mod, decide_eq_false_iff_not]
  omega

/-- The byte the block holds for the hour register is the byte it was read
from, when the hour fields are those of `ofBytes`. -/
theorem hours_byte_kept (p : List Nat) (r : ds1302_struct)
    (e1 : r.h24_Hour = (ds1302_struct.ofBytes p).h24_Hour)
    (e2 : r.h24_Hour10 = (ds1302_struct.ofBytes p).h24_Hour10)
    (e3 : r.h24_reserved2 = (ds1302_struct.ofBytes p).h24_reserved2)
    (e4 : r.h24_hour_12_24 = (ds1302_struct.ofBytes p).h24_hour_12_24) :
    r.toBytes.getD 2 0 % 256 = p.getD 2 0 % 256 := by
  simp only [ds1302_struct.toBytes, List.getD_cons_zero, List.getD_cons_succ, e1, e2, e3, e4,
    ds1302_struct.ofBytes]
  omega

/-- After `set` the 12/24 bit of the hour register and the clock-halt bit of
the seconds register are zero. -/
theorem registers_set (d : RtcDS1302) (hd : d.wired) (st0 : Store) (stack : List Nat)
    (tr : Trace) (hidle : (observe d tr).ce = false)
    (hour minute second year month day dow : Nat) :
    (registers d st0 (d.set stack hour minute second year month day dow tr)
        DS1302_HOURS).testBit 7 = false
    ∧ (registers d st0 (d.set stack hour minute second year month day dow tr)
        DS1302_SECONDS).testBit 7 = false := by
  have w := wf_set_rtc _ (wf_ofBytes stack) hour minute second year month day dow
  simp only [RtcDS1302.set]
  rw [registers_clear_burstwrite d hd st0 _ tr hidle]
  rw [(Store.burst_apply _ _).1, (Store.burst_apply _ _).2.2.1]
  exact ⟨hours_byte_bit7 _ w rfl, seconds_byte_bit7 _ w rfl⟩

/-- After `setTime` the 12/24 bit of the hour register and the clock-halt bit
of the seconds register are zero. -/
theorem registers_setTime (d : RtcDS1302) (hd : d.wired) (st0 : Store)
    (tr : Trace) (hidle : (observe d tr).ce = false) (hour minute second : Nat) :
    (registers d st0 (d.setTime (simulated d st0) hour minute second tr)
        DS1302_HOURS).testBit 7 = false
    ∧ (registers d st0 (d.setTime (simulated d st0) hour minute second tr)
        DS1302_SECONDS).testBit 7 = false := by
  have w := wf_setTime_rtc _ (wf_ofBytes (d._burstread (simulated d st0) tr).1)
    hour minute second
  simp only [RtcDS1302.setTime]
  rw [registers_clear_burstwrite d hd st0 _ _ (idle_burstread d hd _ tr hidle)]
  rw [(Store.burst_apply _ _).1, (Store.burst_apply _ _).2.2.1]
  exact ⟨hours_byte_bit7 _ w rfl, seconds_byte_bit7 _ w rfl⟩

/-- After `setDate` the clock-halt bit of the seconds register is zero and the
hour register holds the byte it held before. -/
theorem registers_setDate (d : RtcDS1302) (hd : d.wired) (st0 : Store)
    (tr : Trace) (hidle : (observe d tr).ce = false) (year month day dow : Nat) :
    (registers d st0 (d.setDate (simulated d st0) year month day dow tr)
        DS1302_SECONDS).testBit 7 = false
    ∧ registers d st0 (d.setDate (simulated d st0) year month day dow tr) DS1302_HOURS
        = registers d st0 tr DS1302_HOURS % 256 := by
  have w := wf_setDate_rtc _ (wf_ofBytes (d._burstread (simulated d st0) tr).1)
    year month day dow
  simp only [RtcDS1302.setDate]
  rw [registers_clear_burstwrite d hd st0 _ _ (idle_burstread d hd _ tr hidle)]
  rw [(Store.burst_apply _ _).1, (Store.burst_apply _ _).2.2.1]
  refine ⟨seconds_byte_bit7 _ w rfl, ?_⟩
  simp only [List.getD_cons_zero, List.getD_cons_succ]
  rw [hours_byte_kept (d._burstread (simulated d st0) tr).1
      (RtcDS1302.setDate_rtc (ds1302_struct.ofBytes (d._burstread (simulated d st0) tr).1)
        year month day dow) rfl rfl rfl rfl,
    burstread_simulated d hd st0 tr hidle]
  simp

/-- A single-field setter stores its byte in its own register and zero in the
enable register; every other register keeps its content. -/
theorem registers_clear_write_apply (d : RtcDS1302) (hd : d.wired) (st0 : Store)
    (address data : Nat) (tr : Trace) (hidle : (observe d tr).ce = false)
    (ha : address % 2 = 0) (ha1 : address < 256) (ha2 : address ≠ DS1302_CLOCK_BURST_WRITE)
    (a : Nat) :
    registers d st0 (d._write address data (d._write DS1302_ENABLE 0x00 tr)) a
      = if a = address then data % 256 else if a = DS1302_ENABLE then 0
        else registers d st0 tr a := by
  rw [registers_clear_write d hd st0 address data tr hidle ha ha1 ha2]
  simp only [Function.update_apply]

/-! ### The sessions an operation produces -/

theorem produced_of_append (d : RtcDS1302) (tr tr2 : Trace) (new : List Session)
    (h : (observe d tr2).sessions = (observe d tr).sessions ++ new) :
    produced d tr tr2 = new.map Session.bytesOut := by
  simp [produced, h]

theorem sessions_write (d : RtcDS1302) (hd : d.wired) (address data : Nat) (tr : Trace)
    (hidle : (observe d tr).ce = false) :
    (observe d (d._write address data tr)).sessions
      = (observe d tr).sessions
          ++ [{ shifted := bitsOfBytes [bitClear address DS1302_READBIT % 256, data],
                sampled := [] }] := by
  rw [observe_write d hd address data tr hidle]

theorem sessions_read (d : RtcDS1302) (hd : d.wired) (env : Env) (address : Nat) (tr : Trace)
    (hidle : (observe d tr).ce = false) :
    (observe d (d._read env address tr).2).sessions
      = (observe d tr).sessions
          ++ [{ shifted := bitsOfBytes [bitSet address DS1302_READBIT % 256],
                sampled := bitsOfBytes [(d._read env address tr).1] }] := by
  rw [observe_read d hd env address tr hidle]

theorem sessions_burstwrite (d : RtcDS1302) (hd : d.wired) (p : List Nat) (tr : Trace)
    (hidle : (observe d tr).ce = false) :
    (observe d (d._burstwrite p tr)).sessions
      = (observe d tr).sessions
          ++ [{ shifted := bitsOfBytes [DS1302_CLOCK_BURST_WRITE, p.getD 0 0, p.getD 1 0,
                  p.getD 2 0, p.getD 3 0, p.getD 4 0, p.getD 5 0, p.getD 6 0, p.getD 7 0],
                sampled := [] }] := by
  rw [observe_burstwrite d hd p tr hidle]

theorem sessions_burstread (d : RtcDS1302) (hd : d.wired) (env : Env) (tr : Trace)
    (hidle : (observe d tr).ce = false) :
    (observe d (d._burstread env tr).2).sessions
      = (observe d tr).sessions
          ++ [{ shifted := bitsOfBytes [DS1302_CLOCK_BURST_READ],
                sampled := bitsOfBytes (d._burstread env tr).1 }] := by
  rw [observe_burstread d hd env tr hidle]

theorem enable_address : bitClear DS1302_ENABLE DS1302_READBIT % 256 = DS1302_ENABLE := by
  decide

/-- Clearing write-protect and writing one register makes two sessions. -/
theorem produced_clear_write (d : RtcDS1302) (hd : d.wired) (address data : Nat) (tr : Trace)
    (hidle : (observe d tr).ce = false) (ha : address % 2 = 0) (ha1 : address < 256) :
    produced d tr (d._write address data (d._write DS1302_ENABLE 0x00 tr))
      = [[DS1302_ENABLE, 0x00], [address, data % 256]] := by
  have hb : bitClear address DS1302_READBIT % 256 = address := by
    rw [bitClear_readbit ⟨address, ha1⟩]
    exact land_even ⟨address, ha1⟩ ha
  have h1 := sessions_write d hd DS1302_ENABLE 0x00 tr hidle
  have h2 := sessions_write d hd address data _ (idle_write d hd DS1302_ENABLE 0x00 tr hidle)
  rw [h1, List.append_assoc] at h2
  rw [produced_of_append d tr _ _ h2]
  simp only [List.map, Session.bytesOut, bytesOfBits_bitsOfBytes, enable_address, hb,
    List.cons_append, List.nil_append, Nat.mod_eq_of_lt ha1]
  rfl

/-- Clearing write-protect and burst-writing a block makes two sessions. -/
theorem produced_clear_burstwrite (d : RtcDS1302) (hd : d.wired) (p : List Nat) (tr : Trace)
    (hidle : (observe d tr).ce = false) :
    produced d tr (d._burstwrite p (d._write DS1302_ENABLE 0x00 tr))
      = [[DS1302_ENABLE, 0x00],
         [DS1302_CLOCK_BURST_WRITE, p.getD 0 0 % 256, p.getD 1 0 % 256, p.getD 2 0 % 256,
          p.getD 3 0 % 256, p.getD 4 0 % 256, p.getD 5 0 % 256, p.getD 6 0 % 256,
          p.getD 7 0 % 256]] := by
  have h1 := sessions_write d hd DS1302_ENABLE 0x00 tr hidle
  have h2 := sessions_burstwrite d hd p _ (idle_write d hd DS1302_ENABLE 0x00 tr hidle)
  rw [h1, List.append_assoc] at h2
  rw [produced_of_append d tr _ _ h2]
  simp only [List.map, Session.bytesOut, bytesOfBits_bitsOfBytes, enable_address,
    List.cons_append, List.nil_append]
  rfl

/-- A burst read, clearing write-protect and burst-writing a block make three
sessions. -/
theorem produced_read_clear_burstwrite (d : RtcDS1302) (hd : d.wired) (env : Env)
    (p : List Nat) (tr : Trace) (hidle : (observe d tr).ce = false) :
    produced d tr (d._burstwrite p (d._write DS1302_ENABLE 0x00 (d._burstread env tr).2))
      = [[DS1302_CLOCK_BURST_READ], [DS1302_ENABLE, 0x00],
         [DS1302_CLOCK_BURST_WRITE, p.getD 0 0 % 256, p.getD 1 0 % 256, p.getD 2 0 % 256,
          p.getD 3 0 % 256, p.getD 4 0 % 256, p.getD 5 0 % 256, p.getD 6 0 % 256,
          p.getD 7 0 % 256]] := by
  have i0 := idle_burstread d hd env tr hidle
  have h0 := sessions_burstread d hd env tr hidle
  have h1 := sessions_write d hd DS1302_ENABLE 0x00 _ i0
  have h2 := sessions_burstwrite d hd p _ (idle_write d hd DS1302_ENABLE 0x00 _ i0)
  rw [h1, h0, List.append_assoc, List.append_assoc] at h2
  rw [produced_of_append d tr _ _ h2]
  simp only [List.map, Session.bytesOut, bytesOfBits_bitsOfBytes, enable_address,
    List.cons_append, List.nil_append]
  rfl

theorem cleared_single (a x : Nat)
    (ha : a ∈ [DS1302_SECONDS, DS1302_MINUTES, DS1302_HOURS, DS1302_DATE, DS1302_MONTH,
      DS1302_DAY, DS1302_YEAR]) :
    clearedBeforeData [[DS1302_ENABLE, 0x00], [a, x]] :=
  ⟨[], [[a, x]], rfl, by simp, [a, x], by simp, a, [x], rfl, by simp, Or.inr ha⟩

theorem cleared_burst (bs : List Nat) (hbs : bs ≠ []) :
    clearedBeforeData [[DS1302_ENABLE, 0x00], DS1302_CLOCK_BURST_WRITE :: bs] :=
  ⟨[], [DS1302_CLOCK_BURST_WRITE :: bs], rfl, by simp, _, by simp, _, bs, rfl, hbs, Or.inl rfl⟩

theorem cleared_read_burst (bs : List Nat) (hbs : bs ≠ []) :
    clearedBeforeData
      [[DS1302_CLOCK_BURST_READ], [DS1302_ENABLE, 0x00], DS1302_CLOCK_BURST_WRITE :: bs] := by
  refine ⟨[[DS1302_CLOCK_BURST_READ]], [DS1302_CLOCK_BURST_WRITE :: bs], rfl, ?_,
    _, by simp, _, bs, rfl, hbs, Or.inl rfl⟩
  intro s hs
  simp only [List.mem_singleton] at hs
  rintro ⟨cmd, rest, h1, h2, -⟩
  rw [hs] at h1
  simp only [List.cons.injEq] at h1
  exact h2 h1.2.symm

/-! ### The shift loops, event by event -/

/-- The events of the shift-out loop, release flag clear. -/
theorem togglewrite_events_keep (d : RtcDS1302) (data : Nat) (tr : Trace) :
    d._togglewrite data 0 tr = tr ++ d.shiftOutEvents false (bitsOfByte data) := by
  simp [RtcDS1302._togglewrite, range_eight, RtcDS1302._togglewriteBit, bitsOfByte,
    RtcDS1302.shiftOutEvents, RtcDS1302.bitOutEvents, RtcDS1302.clockLowEvents,
    digitalWrite, delayMicroseconds, pinMode]

/-- The events of the shift-out loop, release flag set. -/
theorem togglewrite_events_release (d : RtcDS1302) (data release : Nat) (tr : Trace)
    (hrel : release ≠ 0) :
    d._togglewrite data release tr = tr ++ d.shiftOutEvents true (bitsOfByte data) := by
  simp [RtcDS1302._togglewrite, range_eight, RtcDS1302._togglewriteBit, bitsOfByte,
    RtcDS1302.shiftOutEvents, RtcDS1302.bitOutEvents, RtcDS1302.clockLowEvents,
    digitalWrite, delayMicroseconds, pinMode, hrel]

theorem datModes_shiftOut (d : RtcDS1302) (data : Nat) (release : Bool) :
    d.datModes (d.shiftOutEvents release (bitsOfByte data)) = if release then [false] else [] := by
  cases release <;>
  simp [bitsOfByte, range_eight, RtcDS1302.shiftOutEvents, RtcDS1302.bitOutEvents,
    RtcDS1302.clockLowEvents, RtcDS1302.datModes, List.filterMap]

theorem getLast_shiftOut (d : RtcDS1302) (data : Nat) :
    (d.shiftOutEvents true (bitsOfByte data)).getLast? = some (PinEvent.pinMode d._pinDat false)
    ∧ (d.shiftOutEvents false (bitsOfByte data)).getLast? = some (PinEvent.delayMicroseconds 1)
    := by
  simp [bitsOfByte, range_eight, RtcDS1302.shiftOutEvents, RtcDS1302.bitOutEvents,
    RtcDS1302.clockLowEvents]

/-- The shift-in loop pulses the clock and reads, eight times, and returns the
byte assembled from the levels read. -/
theorem toggleread_events (d : RtcDS1302) (env : Env) (tr : Trace) :
    d._toggleread env tr
      = (byteOfBits (d.levelsRead env 8 tr), tr ++ d.shiftInEvents (d.levelsRead env 8 tr)) := by
  simp [RtcDS1302._toggleread, range_eight, RtcDS1302._togglereadBit, assemble_bits,
    RtcDS1302.levelsRead, RtcDS1302.shiftInEvents, RtcDS1302.clockPulse, digitalWrite,
    delayMicroseconds, digitalRead]

theorem levelsRead_replay (d : RtcDS1302) (b0 b1 b2 b3 b4 b5 b6 b7 : Bool) :
    d.levelsRead (replay [b0, b1, b2, b3, b4, b5, b6, b7]) 8 []
      = [b0, b1, b2, b3, b4, b5, b6, b7] := by
  simp [RtcDS1302.levelsRead, replay, readCount, RtcDS1302.clockPulse]

theorem byteOfBits_sum : ∀ b0 b1 b2 b3 b4 b5 b6 b7 : Bool,
    byteOfBits [b0, b1, b2, b3, b4, b5, b6, b7]
      = b0.toNat + 2 * b1.toNat + 4 * b2.toNat + 8 * b3.toNat + 16 * b4.toNat + 32 * b5.toNat
        + 64 * b6.toNat + 128 * b7.toNat := by
  decide

theorem datLevels_togglewrite (d : RtcDS1302) (hd : d.wired) (data release : Nat) :
    d.datLevels (d._togglewrite data release []) = bitsOfByte data := by
  obtain ⟨h1, h2, h3⟩ := hd
  by_cases hrel : release = 0
  · subst hrel
    rw [togglewrite_events_keep]
    simp [bitsOfByte, range_eight, RtcDS1302.shiftOutEvents, RtcDS1302.bitOutEvents,
      RtcDS1302.clockLowEvents, RtcDS1302.datLevels, List.filterMap, Ne.symm h3]
  · rw [togglewrite_events_release d data release [] hrel]
    simp [bitsOfByte, range_eight, RtcDS1302.shiftOutEvents, RtcDS1302.bitOutEvents,
      RtcDS1302.clockLowEvents, RtcDS1302.datLevels, List.filterMap, Ne.symm h3]

/-! ### Decoding the block -/

/-- Every byte of the block a burst read returns is below 256. -/
theorem burstread_lt (d : RtcDS1302) (env : Env) (tr : Trace) (i : Nat) :
    (d._burstread env tr).1.getD i 0 < 256 := by
  simp only [RtcDS1302._burstread, range_eight, List.foldl, List.nil_append, List.cons_append]
  match i with
  | 0 | 1 | 2 | 3 | 4 | 5 | 6 | 7 =>
    simp only [List.getD_cons_zero, List.getD_cons_succ]
    exact toggleread_lt _ _ _
  | n + 8 => simp

theorem shift_mask (b : Nat) :
    b &&& 15 = b % 16 ∧ b &&& 7 = b % 8 ∧ b &&& 3 = b % 4 ∧ b &&& 1 = b % 2
    ∧ b >>> 4 = b / 16 := by
  have h15 := Nat.and_pow_two_sub_one_eq_mod b 4
  have h7 := Nat.and_pow_two_sub_one_eq_mod b 3
  have h3 := Nat.and_pow_two_sub_one_eq_mod b 2
  have h1 := Nat.and_pow_two_sub_one_eq_mod b 1
  have hs := Nat.shiftRight_eq_div_pow b 4
  simp only [Nat.reducePow, Nat.reduceSub] at h7 h3 h1 h15 hs
  exact ⟨h15, h7, h3, h1, hs⟩

/-- The fields `get` returns, as functions of the block read. -/
theorem get_fields (d : RtcDS1302) (env : Env) (tr : Trace) :
    (d.get env tr).1
      = { hour := (d._burstread env tr).1.getD 2 0 / 16 % 4 * 10
                    + (d._burstread env tr).1.getD 2 0 % 16
          minute := (d._burstread env tr).1.getD 1 0 / 16 % 8 * 10
                    + (d._burstread env tr).1.getD 1 0 % 16
          second := (d._burstread env tr).1.getD 0 0 / 16 % 8 * 10
                    + (d._burstread env tr).1.getD 0 0 % 16
          year := 2000 + (d._burstread env tr).1.getD 6 0 / 16 % 16 * 10
                    + (d._burstread env tr).1.getD 6 0 % 16
          month := (d._burstread env tr).1.getD 4 0 / 16 % 2 * 10
                    + (d._burstread env tr).1.getD 4 0 % 16
          day := (d._burstread env tr).1.getD 3 0 / 16 % 4 * 10
                    + (d._burstread env tr).1.getD 3 0 % 16
          dow := (d._burstread env tr).1.getD 5 0 % 8 } := by
  simp only [RtcDS1302.get, ds1302_struct.ofBytes, toU8_bcd2dec, toU16_bcd2dec,
    DateTime.mk.injEq]
  refine ⟨?_, ?_, ?_, ?_, ?_, ?_, trivial⟩ <;> omega

/-! ### Public operations and write-protect -/

/-- A single-register write from the idle state makes one session. -/
theorem produced_write (d : RtcDS1302) (hd : d.wired) (address data : Nat) (tr : Trace)
    (hidle : (observe d tr).ce = false) (ha : address % 2 = 0) (ha1 : address < 256) :
    produced d tr (d._write address data tr) = [[address, data % 256]] := by
  have hb : bitClear address DS1302_READBIT % 256 = address := by
    rw [bitClear_readbit ⟨address, ha1⟩]
    exact land_even ⟨address, ha1⟩ ha
  rw [produced_of_append d tr _ _ (sessions_write d hd address data tr hidle)]
  simp only [List.map, Session.bytesOut, bytesOfBits_bitsOfBytes, hb, Nat.mod_eq_of_lt ha1]

/-- A single-register read from the idle state makes one session, in which
only the address byte with the read bit set is shifted out. -/
theorem produced_read (d : RtcDS1302) (hd : d.wired) (env : Env) (address : Nat) (tr : Trace)
    (hidle : (observe d tr).ce = false) (ha : address % 2 = 0) (ha1 : address < 256) :
    produced d tr (d._read env address tr).2 = [[address + 1]] := by
  have hb : bitSet address DS1302_READBIT % 256 = address + 1 := by
    rw [bitSet_readbit ⟨address, ha1⟩]
    exact lor_even ⟨address, ha1⟩ ha
  have hm : (address + 1) % 256 = address + 1 := by omega
  rw [produced_of_append d tr _ _ (sessions_read d hd env address tr hidle)]
  simp only [List.map, Session.bytesOut, bytesOfBits_bitsOfBytes, hb, hm]

/-- A burst read from the idle state makes one session, in which only the
burst read command is shifted out. -/
theorem produced_burstread (d : RtcDS1302) (hd : d.wired) (env : Env) (tr : Trace)
    (hidle : (observe d tr).ce = false) :
    produced d tr (d._burstread env tr).2 = [[DS1302_CLOCK_BURST_READ]] := by
  rw [produced_of_append d tr _ _ (sessions_burstread d hd env tr hidle)]
  simp only [List.map, Session.bytesOut, bytesOfBits_bitsOfBytes]
  rfl

/-- The byte of the enable register has bit 7 clear when `WP` is zero. -/
theorem enable_byte_bit7 (r : ds1302_struct) (h : r.wf) (h0 : r.WP = 0) :
    (r.toBytes.getD 7 0 % 256).testBit 7 = false := by
  obtain ⟨-, -, -, -, -, -, -, -, -, -, -, -, -, -, -, -, -, -, -, -, h21, -⟩ := h
  simp only [ds1302_struct.toBytes, List.getD_cons_zero, List.getD_cons_succ, h0,
    Nat.testBit_to_div_mod, decide_eq_false_iff_not]
  omega

theorem keepsUnprotected_other (s : List Nat) (h1 : s.head? ≠ some DS1302_ENABLE)
    (h2 : s.head? ≠ some DS1302_CLOCK_BURST_WRITE) : keepsUnprotected s := by
  constructor
  · intro v hv
    rw [hv] at h1
    exact absurd rfl h1
  · intro b0 b1 b2 b3 b4 b5 b6 b7 hb
    rw [hb] at h2
    exact absurd rfl h2

theorem keepsUnprotected_clear : keepsUnprotected [DS1302_ENABLE, 0x00] := by
  constructor
  · intro v hv
    simp only [List.cons.injEq, and_true, true_and] at hv
    exact hv.symm
  · intro b0 b1 b2 b3 b4 b5 b6 b7 hb
    simp at hb

theorem keepsUnprotected_burst (c0 c1 c2 c3 c4 c5 c6 c7 : Nat) (h : c7.testBit 7 = false) :
    keepsUnprotected [DS1302_CLOCK_BURST_WRITE, c0, c1, c2, c3, c4, c5, c6, c7] := by
  constructor
  · intro v hv
    simp at hv
  · intro b0 b1 b2 b3 b4 b5 b6 b7 hb
    simp only [List.cons.injEq, and_true, true_and] at hb
    rw [← hb.2.2.2.2.2.2.2]
    exact h

theorem clearedBeforeWrites_clear (rest : List (List Nat)) :
    clearedBeforeWrites ([DS1302_ENABLE, 0x00] :: rest) := by
  intro pre s post h hw
  cases pre with
  | nil =>
    simp only [List.nil_append, List.cons.injEq] at h
    obtain ⟨cmd, r, hs, -, -, hne⟩ := hw
    rw [← h.1] at hs
    simp only [List.cons.injEq] at hs
    exact absurd hs.1.symm hne
  | cons x pre =>
    simp only [List.cons_append, List.cons.injEq] at h
    rw [← h.1]
    exact List.mem_cons_self _ _

theorem clearedBeforeWrites_single (c : Nat) : clearedBeforeWrites [[c]] := by
  intro pre s post h hw
  cases pre with
  | nil =>
    simp only [List.nil_append, List.cons.injEq] at h
    obtain ⟨cmd, r, hs, hr, -⟩ := hw
    rw [← h.1] at hs
    simp only [List.cons.injEq] at hs
    exact absurd hs.2.symm hr
  | cons x pre =>
    simp only [List.cons_append, List.cons.injEq] at h
    have := congrArg List.length h.2
    simp only [List.length_nil, List.length_append, List.length_cons] at this
    omega

theorem clearedBeforeWrites_read_clear (c : Nat) (rest : List (List Nat)) :
    clearedBeforeWrites ([c] :: [DS1302_ENABLE, 0x00] :: rest) := by
  intro pre s post h hw
  cases pre with
  | nil =>
    simp only [List.nil_append, List.cons.injEq] at h
    obtain ⟨cmd, r, hs, hr, -⟩ := hw
    rw [← h.1] at hs
    simp only [List.cons.injEq] at hs
    exact absurd hs.2.symm hr
  | cons x pre =>
    simp only [List.cons_append, List.cons.injEq] at h
    exact List.mem_cons_of_mem _ (clearedBeforeWrites_clear rest pre s post h.2 hw)

/-- Every public operation other than `begin` clears write-protect before its
write-class sessions. -/
theorem others_clear_before_writes (d : RtcDS1302) (hd : d.wired) (env : Env)
    (bin2bcd : Int → Nat) (bcd2bin : Nat → Nat) (tr : Trace)
    (hidle : (observe d tr).ce = false) (op : Op) (hop : op ≠ Op.begin) :
    clearedBeforeWrites (produced d tr (Op.run d env bin2bcd bcd2bin op tr)) := by
  have hr : ∀ (a : Nat), a % 2 = 0 → a < 256 →
      clearedBeforeWrites (produced d tr (d._read env a tr).2) := by
    intro a h1 h2
    rw [produced_read d hd env a tr hidle h1 h2]
    exact clearedBeforeWrites_single _
  have hb : clearedBeforeWrites (produced d tr (d._burstread env tr).2) := by
    rw [produced_burstread d hd env tr hidle]
    exact clearedBeforeWrites_single _
  have hw : ∀ (a v : Nat), a % 2 = 0 → a < 256 →
      clearedBeforeWrites (produced d tr (d._write a v (d._write DS1302_ENABLE 0x00 tr))) := by
    intro a v h1 h2
    rw [produced_clear_write d hd a v tr hidle h1 h2]
    exact clearedBeforeWrites_clear _
  cases op with
  | begin => exact absurd rfl hop
  | get => exact hb
  | getDate => exact hb
  | getTime => exact hb
  | getHour => exact hr DS1302_HOURS (by decide) (by decide)
  | getMinute => exact hr DS1302_MINUTES (by decide) (by decide)
  | getSecond => exact hr DS1302_SECONDS (by decide) (by decide)
  | getYear => exact hr DS1302_YEAR (by decide) (by decide)
  | getMonth => exact hr DS1302_MONTH (by decide) (by decide)
  | getDay => exact hr DS1302_DATE (by decide) (by decide)
  | getDow => exact hr DS1302_DAY (by decide) (by decide)
  | set stack hour minute second year month day dow =>
    simp only [Op.run, RtcDS1302.set]
    rw [produced_clear_burstwrite d hd _ tr hidle]
    exact clearedBeforeWrites_clear _
  | setDate year month day dow =>
    simp only [Op.run, RtcDS1302.setDate]
    rw [produced_read_clear_burstwrite d hd env _ tr hidle]
    exact clearedBeforeWrites_read_clear _ _
  | setTime hour minute second =>
    simp only [Op.run, RtcDS1302.setTime]
    rw [produced_read_clear_burstwrite d hd env _ tr hidle]
    exact clearedBeforeWrites_read_clear _ _
  | setHour hour => exact hw DS1302_HOURS _ (by decide) (by decide)
  | setMinute minute => exact hw DS1302_MINUTES _ (by decide) (by decide)
  | setSecond second => exact hw DS1302_SECONDS _ (by decide) (by decide)
  | setYear year => exact hw DS1302_YEAR _ (by decide) (by decide)
  | setMonth month => exact hw DS1302_MONTH _ (by decide) (by decide)
  | setDay day => exact hw DS1302_DATE _ (by decide) (by decide)
  | setDow dow => exact hw DS1302_DAY _ (by decide) (by decide)

/-! ### The stopwatch follows the transport functions -/

@[simp] theorem settle_digitalWrite (d : RtcDS1302) (pin v : Nat) (tr : Trace) :
    settle d (digitalWrite pin v tr)
      = Settle.step d (settle d tr) (PinEvent.digitalWrite pin (v != 0)) := by
  simp [settle, digitalWrite, List.foldl_append]

@[simp] theorem settle_pinMode (d : RtcDS1302) (pin v : Nat) (tr : Trace) :
    settle d (pinMode pin v tr) = settle d tr := by
  simp [settle, pinMode, List.foldl_append, Settle.step]

@[simp] theorem settle_delayMicroseconds (d : RtcDS1302) (us : Nat) (tr : Trace) :
    settle d (delayMicroseconds us tr)
      = { settle d tr with since := (settle d tr).since + us } := by
  simp [settle, delayMicroseconds, List.foldl_append, Settle.step]

@[simp] theorem settle_digitalRead (d : RtcDS1302) (env : Env) (pin : Nat) (tr : Trace) :
    settle d (digitalRead env pin tr).2 = settle d tr := by
  simp [settle, digitalRead, List.foldl_append, Settle.step]

theorem settle_step_rst (d : RtcDS1302) (s : Settle) (lv : Bool) :
    Settle.step d s (PinEvent.digitalWrite d._pinRst lv) = s.writeCE lv := by
  simp [Settle.step]

theorem settle_step_clk (d : RtcDS1302) (hd : d.wired) (s : Settle) (lv : Bool) :
    Settle.step d s (PinEvent.digitalWrite d._pinClk lv) = { s.firstWrite with sclk := lv } := by
  obtain ⟨_, h2, _⟩ := hd
  simp [Settle.step, Ne.symm h2]

theorem settle_step_dat (d : RtcDS1302) (hd : d.wired) (s : Settle) (lv : Bool) :
    Settle.step d s (PinEvent.digitalWrite d._pinDat lv) = s.firstWrite := by
  obtain ⟨h1, _, h3⟩ := hd
  simp [Settle.step, Ne.symm h1, h3]

/-- The stopwatch after `_start`, called with chip-select low. -/
theorem settle_start (d : RtcDS1302) (hd : d.wired) (tr : Trace) (c fr cl : Bool)
    (n e g : Nat)
    (h : settle d tr =
      { ce := false, sclk := c, since := n, fresh := fr, closed := cl, early := e,
        shortGaps := g }) :
    settle d (d._start tr)
      = { ce := true, sclk := false, since := 4, fresh := true, closed := cl, early := e,
          shortGaps := if cl ∧ n < 4 then g + 1 else g } := by
  simp [RtcDS1302._start, settle_step_rst, settle_step_clk d hd, Settle.writeCE,
    Settle.firstWrite, h]

/-- The stopwatch after `_stop`, called inside a session. -/
theorem settle_stop (d : RtcDS1302) (tr : Trace) (c fr cl : Bool) (n e g : Nat)
    (h : settle d tr =
      { ce := true, sclk := c, since := n, fresh := fr, closed := cl, early := e,
        shortGaps := g }) :
    settle d (d._stop tr)
      = { ce := false, sclk := c, since := 4, fresh := false, closed := true, early := e,
          shortGaps := g } := by
  simp [RtcDS1302._stop, settle_step_rst, Settle.writeCE, h]

/-- The stopwatch after the first shift-out of a session, begun with the
clock low and the settle time over. -/
theorem settle_togglewrite_first (d : RtcDS1302) (hd : d.wired) (data release : Nat)
    (tr : Trace) (cl : Bool) (n e g : Nat) (hn : 4 ≤ n)
    (h : settle d tr =
      { ce := true, sclk := false, since := n, fresh := true, closed := cl, early := e,
        shortGaps := g }) :
    settle d (d._togglewrite data release tr)
      = { ce := true, sclk := decide (release ≠ 0),
          since := n + (if release ≠ 0 then 23 else 24), fresh := false, closed := cl,
          early := e, shortGaps := g } := by
  have hn' : ¬ n < 4 := by omega
  by_cases hrel : release = 0
  · simp [RtcDS1302._togglewrite, range_eight, RtcDS1302._togglewriteBit,
      settle_step_clk d hd, settle_step_dat d hd, Settle.firstWrite, h, hrel, hn',
      Nat.add_assoc]
  · simp [RtcDS1302._togglewrite, range_eight, RtcDS1302._togglewriteBit,
      settle_step_clk d hd, settle_step_dat d hd, Settle.firstWrite, h, hrel, hn',
      Nat.add_assoc]

/-- The stopwatch after a later shift-out of a session. -/
theorem settle_togglewrite_next (d : RtcDS1302) (hd : d.wired) (data : Nat)
    (tr : Trace) (c cl : Bool) (n e g : Nat)
    (h : settle d tr =
      { ce := true, sclk := c, since := n, fresh := false, closed := cl, early := e,
        shortGaps := g }) :
    settle d (d._togglewrite data 0 tr)
      = { ce := true, sclk := false, since := n + 24, fresh := false, closed := cl,
          early := e, shortGaps := g } := by
  simp [RtcDS1302._togglewrite, range_eight, RtcDS1302._togglewriteBit,
    settle_step_clk d hd, settle_step_dat d hd, Settle.firstWrite, h, Nat.add_assoc]

/-- The stopwatch after a shift-in. -/
theorem settle_toggleread (d : RtcDS1302) (hd : d.wired) (env : Env)
    (tr : Trace) (c cl : Bool) (n e g : Nat)
    (h : settle d tr =
      { ce := true, sclk := c, since := n, fresh := false, closed := cl, early := e,
        shortGaps := g }) :
    settle d (d._toggleread env tr).2
      = { ce := true, sclk := false, since := n + 16, fresh := false, closed := cl,
          early := e, shortGaps := g } := by
  simp [RtcDS1302._toggleread, range_eight, RtcDS1302._togglereadBit,
    settle_step_clk d hd, Settle.firstWrite, h, Nat.add_assoc]

theorem calm_nil (d : RtcDS1302) : Calm d [] 0 0 0 :=
  ⟨rfl, rfl, rfl, fun h => absurd h Bool.false_ne_true, rfl, rfl⟩

/-- The stopwatch after a single-register write made between two calls. -/
theorem settle_write (d : RtcDS1302) (hd : d.wired) (address data : Nat) (tr : Trace)
    (hce : (settle d tr).ce = false)
    (hgap : (settle d tr).closed = true → 4 ≤ (settle d tr).since) :
    settle d (d._write address data tr)
      = { ce := false, sclk := false, since := 4, fresh := false, closed := true,
          early := (settle d tr).early, shortGaps := (settle d tr).shortGaps } := by
  cases hst : settle d tr with
  | mk ce sclk since fresh closed early shortGaps =>
    rw [hst] at hce hgap
    simp only at hce hgap
    subst hce
    have hg : ¬ (closed = true ∧ since < 4) := by
      intro h; have := hgap h.1; omega
    have h0 := settle_start d hd tr _ _ _ _ _ _ hst
    rw [if_neg hg] at h0
    have h1 := settle_togglewrite_first d hd (bitClear address DS1302_READBIT % 256) 0 _ _ _ _ _
      (le_refl 4) h0
    have h2 := settle_togglewrite_next d hd data _ _ _ _ _ _ h1
    have h3 := settle_stop d _ _ _ _ _ _ _ h2
    simp only [RtcDS1302._write]
    rw [h3]

/-- The stopwatch after a single-register read made between two calls. -/
theorem settle_read (d : RtcDS1302) (hd : d.wired) (env : Env) (address : Nat) (tr : Trace)
    (hce : (settle d tr).ce = false)
    (hgap : (settle d tr).closed = true → 4 ≤ (settle d tr).since) :
    settle d (d._read env address tr).2
      = { ce := false, sclk := false, since := 4, fresh := false, closed := true,
          early := (settle d tr).early, shortGaps := (settle d tr).shortGaps } := by
  cases hst : settle d tr with
  | mk ce sclk since fresh closed early shortGaps =>
    rw [hst] at hce hgap
    simp only at hce hgap
    subst hce
    have hg : ¬ (closed = true ∧ since < 4) := by
      intro h; have := hgap h.1; omega
    have h0 := settle_start d hd tr _ _ _ _ _ _ hst
    rw [if_neg hg] at h0
    have h1 := settle_togglewrite_first d hd (bitSet address DS1302_READBIT % 256) 1 _ _ _ _ _
      (le_refl 4) h0
    have h2 := settle_toggleread d hd env _ _ _ _ _ _ h1
    have h3 := settle_stop d _ _ _ _ _ _ _ h2
    simp only [RtcDS1302._read]
    rw [h3]

/-- The stopwatch after a burst write made between two calls. -/
theorem settle_burstwrite (d : RtcDS1302) (hd : d.wired) (p : List Nat) (tr : Trace)
    (hce : (settle d tr).ce = false)
    (hgap : (settle d tr).closed = true → 4 ≤ (settle d tr).since) :
    settle d (d._burstwrite p tr)
      = { ce := false, sclk := false, since := 4, fresh := false, closed := true,
          early := (settle d tr).early, shortGaps := (settle d tr).shortGaps } := by
  cases hst : settle d tr with
  | mk ce sclk since fresh closed early shortGaps =>
    rw [hst] at hce hgap
    simp only at hce hgap
    subst hce
    have hg : ¬ (closed = true ∧ since < 4) := by
      intro h; have := hgap h.1; omega
    have h0 := settle_start d hd tr _ _ _ _ _ _ hst
    rw [if_neg hg] at h0
    have h1 := settle_togglewrite_first d hd DS1302_CLOCK_BURST_WRITE 0 _ _ _ _ _
      (le_refl 4) h0
    have h2 := settle_togglewrite_next d hd (p.getD 0 0) _ _ _ _ _ _ h1
    have h3 := settle_togglewrite_next d hd (p.getD 1 0) _ _ _ _ _ _ h2
    have h4 := settle_togglewrite_next d hd (p.getD 2 0) _ _ _ _ _ _ h3
    have h5 := settle_togglewrite_next d hd (p.getD 3 0) _ _ _ _ _ _ h4
    have h6 := settle_togglewrite_next d hd (p.getD 4 0) _ _ _ _ _ _ h5
    have h7 := settle_togglewrite_next d hd (p.getD 5 0) _ _ _ _ _ _ h6
    have h8 := settle_togglewrite_next d hd (p.getD 6 0) _ _ _ _ _ _ h7
    have h9 := settle_togglewrite_next d hd (p.getD 7 0) _ _ _ _ _ _ h8
    have h10 := settle_stop d _ _ _ _ _ _ _ h9
    simp only [RtcDS1302._burstwrite, range_eight, List.foldl]
    rw [h10]

/-- The stopwatch after a burst read made between two calls. -/
theorem settle_burstread (d : RtcDS1302) (hd : d.wired) (env : Env) (tr : Trace)
    (hce : (settle d tr).ce = false)
    (hgap : (settle d tr).closed = true → 4 ≤ (settle d tr).since) :
    settle d (d._burstread env tr).2
      = { ce := false, sclk := false, since := 4, fresh := false, closed := true,
          early := (settle d tr).early, shortGaps := (settle d tr).shortGaps } := by
  cases hst : settle d tr with
  | mk ce sclk since fresh closed early shortGaps =>
    rw [hst] at hce hgap
    simp only at hce hgap
    subst hce
    have hg : ¬ (closed = true ∧ since < 4) := by
      intro h; have := hgap h.1; omega
    have h0 := settle_start d hd tr _ _ _ _ _ _ hst
    rw [if_neg hg] at h0
    have h1 := settle_togglewrite_first d hd DS1302_CLOCK_BURST_READ 1 _ _ _ _ _
      (le_refl 4) h0
    have h2 := settle_toggleread d hd env _ _ _ _ _ _ h1
    have h3 := settle_toggleread d hd env _ _ _ _ _ _ h2
    have h4 := settle_toggleread d hd env _ _ _ _ _ _ h3
    have h5 := settle_toggleread d hd env _ _ _ _ _ _ h4
    have h6 := settle_toggleread d hd env _ _ _ _ _ _ h5
    have h7 := settle_toggleread d hd env _ _ _ _ _ _ h6
    have h8 := settle_toggleread d hd env _ _ _ _ _ _ h7
    have h9 := settle_toggleread d hd env _ _ _ _ _ _ h8
    have h10 := settle_stop d _ _ _ _ _ _ _ h9
    simp only [RtcDS1302._burstread, range_eight, List.foldl]
    rw [h10]

theorem calm_write (d : RtcDS1302) (hd : d.wired) (address data : Nat) (tr : Trace)
    (b e g : Nat) (h : Calm d tr b e g) : Calm d (d._write address data tr) b e g := by
  obtain ⟨h1, h2, h3, h4, h5, h6⟩ := h
  have ho := observe_write d hd address data tr h1
  have hs := settle_write d hd address data tr h3 h4
  exact ⟨by rw [ho], by rw [ho]; exact h2, by rw [hs], fun _ => by rw [hs], by rw [hs]; exact h5,
    by rw [hs]; exact h6⟩

theorem calm_read (d : RtcDS1302) (hd : d.wired) (env : Env) (address : Nat) (tr : Trace)
    (b e g : Nat) (h : Calm d tr b e g) : Calm d (d._read env address tr).2 b e g := by
  obtain ⟨h1, h2, h3, h4, h5, h6⟩ := h
  have ho := observe_read d hd env address tr h1
  have hs := settle_read d hd env address tr h3 h4
  exact ⟨by rw [ho], by rw [ho]; exact h2, by rw [hs], fun _ => by rw [hs], by rw [hs]; exact h5,
    by rw [hs]; exact h6⟩

theorem calm_burstwrite (d : RtcDS1302) (hd : d.wired) (p : List Nat) (tr : Trace)
    (b e g : Nat) (h : Calm d tr b e g) : Calm d (d._burstwrite p tr) b e g := by
  obtain ⟨h1, h2, h3, h4, h5, h6⟩ := h
  have ho := observe_burstwrite d hd p tr h1
  have hs := settle_burstwrite d hd p tr h3 h4
  exact ⟨by rw [ho], by rw [ho]; exact h2, by rw [hs], fun _ => by rw [hs], by rw [hs]; exact h5,
    by rw [hs]; exact h6⟩

theorem calm_burstread (d : RtcDS1302) (hd : d.wired) (env : Env) (tr : Trace)
    (b e g : Nat) (h : Calm d tr b e g) : Calm d (d._burstread env tr).2 b e g := by
  obtain ⟨h1, h2, h3, h4, h5, h6⟩ := h
  have ho := observe_burstread d hd env tr h1
  have hs := settle_burstread d hd env tr h3 h4
  exact ⟨by rw [ho], by rw [ho]; exact h2, by rw [hs], fun _ => by rw [hs], by rw [hs]; exact h5,
    by rw [hs]; exact h6⟩

/-- Every public operation leaves the pins calm and the three counters as
they were. -/
theorem calm_run (d : RtcDS1302) (hd : d.wired) (env : Env) (bin2bcd : Int → Nat)
    (bcd2bin : Nat → Nat) (op : Op) (tr : Trace) (b e g : Nat) (h : Calm d tr b e g) :
    Calm d (Op.run d env bin2bcd bcd2bin op tr) b e g := by
  cases op with
  | begin => exact calm_write d hd DS1302_TRICKLE 0x00 tr b e g h
  | get => exact calm_burstread d hd env tr b e g h
  | getDate => exact calm_burstread d hd env tr b e g h
  | getTime => exact calm_burstread d hd env tr b e g h
  | getHour => exact calm_read d hd env DS1302_HOURS tr b e g h
  | getMinute => exact calm_read d hd env DS1302_MINUTES tr b e g h
  | getSecond => exact calm_read d hd env DS1302_SECONDS tr b e g h
  | getYear => exact calm_read d hd env DS1302_YEAR tr b e g h
  | getMonth => exact calm_read d hd env DS1302_MONTH tr b e g h
  | getDay => exact calm_read d hd env DS1302_DATE tr b e g h
  | getDow => exact calm_read d hd env DS1302_DAY tr b e g h
  | set stack hour minute second year month day dow =>
    exact calm_burstwrite d hd _ _ b e g (calm_write d hd _ _ tr b e g h)
  | setDate year month day dow =>
    exact calm_burstwrite d hd _ _ b e g
      (calm_write d hd _ _ _ b e g (calm_burstread d hd env tr b e g h))
  | setTime hour minute second =>
    exact calm_burstwrite d hd _ _ b e g
      (calm_write d hd _ _ _ b e g (calm_burstread d hd env tr b e g h))
  | setHour hour => exact calm_write d hd _ _ _ b e g (calm_write d hd _ _ tr b e g h)
  | setMinute minute => exact calm_write d hd _ _ _ b e g (calm_write d hd _ _ tr b e g h)
  | setSecond second => exact calm_write d hd _ _ _ b e g (calm_write d hd _ _ tr b e g h)
  | setYear year => exact calm_write d hd _ _ _ b e g (calm_write d hd _ _ tr b e g h)
  | setMonth month => exact calm_write d hd _ _ _ b e g (calm_write d hd _ _ tr b e g h)
  | setDay day => exact calm_write d hd _ _ _ b e g (calm_write d hd _ _ tr b e g h)
  | setDow dow => exact calm_write d hd _ _ _ b e g (calm_write d hd _ _ tr b e g h)

/-- Every finite sequence of public operations leaves the pins calm and the
three counters as they were. -/
theorem calm_runAll (d : RtcDS1302) (hd : d.wired) (env : Env) (bin2bcd : Int → Nat)
    (bcd2bin : Nat → Nat) (ops : List Op) :
    ∀ (tr : Trace) (b e g : Nat), Calm d tr b e g →
      Calm d (runAll d env bin2bcd bcd2bin ops tr) b e g := by
  induction ops with
  | nil => intro tr b e g h; exact h
  | cons op ops ih =>
    intro tr b e g h
    exact ih _ b e g (calm_run d hd env bin2bcd bcd2bin op tr b e g h)

/-! ### Events of a session and the turnaround -/

theorem start_events (d : RtcDS1302) (tr : Trace) : d._start tr = tr ++ d.startEvents := by
  simp [RtcDS1302._start, RtcDS1302.startEvents, digitalWrite, pinMode, delayMicroseconds,
    LOW, HIGH, OUTPUT]

theorem stop_events (d : RtcDS1302) (tr : Trace) : d._stop tr = tr ++ d.stopEvents := by
  simp [RtcDS1302._stop, RtcDS1302.stopEvents, digitalWrite, delayMicroseconds, LOW]

/-- The events of a single-register write. -/
theorem write_events (d : RtcDS1302) (address data : Nat) (tr : Trace) :
    d._write address data tr
      = tr ++ (d.startEvents
          ++ d.shiftOutEvents false (bitsOfByte (bitClear address DS1302_READBIT % 256))
          ++ d.shiftOutEvents false (bitsOfByte data) ++ d.stopEvents) := by
  simp only [RtcDS1302._write, stop_events, togglewrite_events_keep, start_events,
    List.append_assoc]

theorem datModes_append (d : RtcDS1302) (t1 t2 : Trace) :
    d.datModes (t1 ++ t2) = d.datModes t1 ++ d.datModes t2 := by
  simp [RtcDS1302.datModes, List.filterMap_append]

theorem datModes_start (d : RtcDS1302) (hd : d.wired) : d.datModes d.startEvents = [true] := by
  obtain ⟨h1, h2, h3⟩ := hd
  simp [RtcDS1302.datModes, RtcDS1302.startEvents, List.filterMap, h1, Ne.symm h3]

theorem datModes_stop (d : RtcDS1302) : d.datModes d.stopEvents = [] := by
  simp [RtcDS1302.datModes, RtcDS1302.stopEvents, List.filterMap]

/-- The monitor after the first pass of the shift-in loop that follows a
released shift-out: the clock was high, so the pass adds a falling edge and no
rising edge before it samples. -/
theorem togglereadBit_after_release (d : RtcDS1302) (hd : d.wired) (env : Env) (tr : Trace)
    (data i : Nat) (x : Bool) (sh sa : List Bool) (f : Nat) (ss : List Session)
    (a b c e g : Nat)
    (h : observe d tr =
      { ce := true, sclk := true, dat := x, datOut := false, shifted := sh,
        sampled := sa, falls := f, sessions := ss, ceRises := a, clkRises := b, clkFalls := c,
        idleRises := e, blindWrites := g }) :
    observe d (d._togglereadBit env (data, tr) i).2
      = { ce := true, sclk := false, dat := x, datOut := false, shifted := sh,
          sampled := sa ++ [env d._pinDat (delayMicroseconds 1 (digitalWrite d._pinClk LOW
            (delayMicroseconds 1 (digitalWrite d._pinClk HIGH tr))))],
          falls := f + 1,
          sessions := ss, ceRises := a, clkRises := b, clkFalls := c + 1, idleRises := e,
          blindWrites := g } := by
  simp [RtcDS1302._togglereadBit, step_writeClk d hd, step_readDat, Wire.writeClk,
    Wire.readDat, h]

/-- The stopwatch counts a first write that comes right after chip-select went
high, and a session that begins right after the one before ended. -/
theorem settle_counts_violations :
    (settle ⟨4, 5, 6⟩ [PinEvent.digitalWrite 4 true, PinEvent.digitalWrite 6 true]).early = 1
    ∧ (settle ⟨4, 5, 6⟩ [PinEvent.digitalWrite 4 true, PinEvent.digitalWrite 4 false,
        PinEvent.digitalWrite 4 true]).shortGaps = 1 := by
  decide

/-! ### The two-wire driver and its simulated chip -/

/-- The mask `~0b11000000` keeps the low six bits of a byte. -/
theorem land_not_hour_mask (n : Nat) (h : n < 256) :
    Int.land (n : Int) (Int.not 0b11000000) = ((n % 64 : Nat) : Int) := by
  have h0 : Nat.ldiff n 192 = n % 64 := by
    apply Nat.eq_of_testBit_eq
    intro i
    rw [Nat.testBit_ldiff, show 64 = 2 ^ 6 from rfl, Nat.testBit_mod_two_pow]
    by_cases hi : i < 8
    · interval_cases i <;> simp <;> intro _ <;> decide
    · have h1 : n.testBit i = false := by
        apply Nat.testBit_lt_two_pow
        calc n < 2 ^ 8 := h
          _ ≤ 2 ^ i := Nat.pow_le_pow_right (by decide) (by omega)
      have h2 : ¬ i < 6 := by omega
      simp [h1, h2]
  show ((Nat.ldiff n 192 : Nat) : Int) = _
  rw [h0]

/-- Decoding an encoded value below 100 gives it back. -/
theorem bcd2bin_bin2bcd (v : Nat) (h : v < 100) :
    bcd2bin ((bin2bcd (v : Int) % 256 : Nat) : Int) % 256 = v := by
  interval_cases v <;> decide

/-- Decoding an encoded hour after the mask gives it back. -/
theorem bcd2bin_hour (v : Nat) (h : v < 24) :
    bcd2bin (Int.land ((bin2bcd (v : Int) % 256 : Nat) : Int) (Int.not 0b11000000)) % 256
      = v := by
  rw [land_not_hour_mask _ (Nat.mod_lt _ (by decide))]
  interval_cases v <;> decide

/-- Decoding an encoded year of this century gives it back. -/
theorem bcd2bin_year (y : Nat) (h1 : 2000 ≤ y) (h2 : y ≤ 2099) :
    toU16 ((bcd2bin ((bin2bcd ((y : Int) - 2000) % 256 : Nat) : Int) : Int) + 2000) = y := by
  obtain ⟨k, rfl⟩ : ∃ k, y = 2000 + k := ⟨y - 2000, by omega⟩
  have hk : k < 100 := by omega
  have e : ((2000 + k : Nat) : Int) - 2000 = (k : Int) := by push_cast; ring
  rw [e]
  interval_cases k <;> decide

/-- The trace of `set`: one transaction of eight written bytes. -/
theorem ds1307_set_events (f : Int → Nat) (env : BusEnv)
    (hour minute second year month day dow : Nat) (tr : BusTrace) :
    ∃ st, RtcDS1307.set f env hour minute second year month day dow tr
      = tr ++ [BusEvent.beginTransmission 0x68, BusEvent.write 0x00,
          BusEvent.write (f second % 256), BusEvent.write (f minute % 256),
          BusEvent.write (f hour % 256), BusEvent.write (dow % 256),
          BusEvent.write (f day % 256), BusEvent.write (f month % 256),
          BusEvent.write (f ((year : Int) - 2000) % 256), BusEvent.endTransmission st] := by
  refine ⟨env.status (tr ++ [BusEvent.beginTransmission 0x68, BusEvent.write 0x00,
          BusEvent.write (f second % 256), BusEvent.write (f minute % 256),
          BusEvent.write (f hour % 256), BusEvent.write (dow % 256),
          BusEvent.write (f day % 256), BusEvent.write (f month % 256),
          BusEvent.write (f ((year : Int) - 2000) % 256)]) % 256, ?_⟩
  simp only [RtcDS1307.set, TwoWire.beginTransmission, TwoWire.write,
    TwoWire.endTransmission, DS1307_ADDRESS, DS1307_SEC_REG, List.append_assoc,
    List.cons_append, List.nil_append, Nat.zero_mod]

/-- The simulated chip after a transaction that writes seven bytes from
register 0 on. -/
theorem Chip.after_set (c : Chip) (tr : BusTrace) (b0 b1 b2 b3 b4 b5 b6 st : Nat) :
    (c.after (tr ++ [BusEvent.beginTransmission 0x68, BusEvent.write 0x00,
      BusEvent.write b0, BusEvent.write b1, BusEvent.write b2, BusEvent.write b3,
      BusEvent.write b4, BusEvent.write b5, BusEvent.write b6,
      BusEvent.endTransmission st])).regs
      = Chip.store (c.after tr).regs 0 [b0, b1, b2, b3, b4, b5, b6] := by
  simp [Chip.after, List.foldl_append, Chip.step, DS1307_ADDRESS]

theorem range_seven : List.range 7 = [0, 1, 2, 3, 4, 5, 6] := by decide

/-- On the simulated bus `get` decodes the registers 0 to 6. -/
theorem ds1307_get_simulated (g : Int → Nat) (c : Chip) (tr : BusTrace) :
    (RtcDS1307.get g (simulatedBus c) tr).1
      = { hour := g (Int.land ((c.after tr).regs 2 : Int) (Int.not 0b11000000)) % 256,
          minute := g ((c.after tr).regs 1 : Int) % 256,
          second := g ((c.after tr).regs 0 : Int) % 256,
          year := toU16 ((g ((c.after tr).regs 6 : Int) : Int) + 2000),
          month := g ((c.after tr).regs 5 : Int) % 256,
          day := g ((c.after tr).regs 4 : Int) % 256,
          dow := toU8 ((c.after tr).regs 3 : Int) } := by
  simp [RtcDS1307.get, TwoWire.beginTransmission, TwoWire.write, TwoWire.endTransmission,
    TwoWire.requestFrom, TwoWire.read, simulatedBus, Chip.after, List.foldl_append, Chip.step,
    DS1307_ADDRESS, DS1307_SEC_REG, range_seven, Chip.store]

/-- The trace of `get` and the values it stores: one transaction that writes
the register index 0, one request of 7 bytes, and seven reads decoded in
register order. -/
theorem ds1307_get_events (g : Int → Nat) (env : BusEnv) (tr : BusTrace) :
    ∃ (st : Nat) (r0 r1 r2 r3 r4 r5 r6 : Int),
      (RtcDS1307.get g env tr).2
        = tr ++ [BusEvent.beginTransmission 0x68, BusEvent.write 0x00,
            BusEvent.endTransmission st, BusEvent.requestFrom 0x68 7,
            BusEvent.read r0, BusEvent.read r1, BusEvent.read r2, BusEvent.read r3,
            BusEvent.read r4, BusEvent.read r5, BusEvent.read r6]
      ∧ (RtcDS1307.get g env tr).1
        = { hour := g (Int.land r2 (Int.not 0b11000000)) % 256,
            minute := g r1 % 256,
            second := g r0 % 256,
            year := toU16 ((g r6 : Int) + 2000),
            month := g r5 % 256,
            day := g r4 % 256,
            dow := toU8 r3 } := by
  refine ⟨?st, ?r0, ?r1, ?r2, ?r3, ?r4, ?r5, ?r6, ?h1, ?h2⟩
  case h1 =>
    simp only [RtcDS1307.get, TwoWire.beginTransmission, TwoWire.write,
      TwoWire.endTransmission, TwoWire.requestFrom, TwoWire.read, DS1307_ADDRESS,
      DS1307_SEC_REG, List.append_assoc, List.cons_append, List.nil_append, Nat.zero_mod]
    exact rfl
  case h2 =>
    simp only [RtcDS1307.get, TwoWire.beginTransmission, TwoWire.write,
      TwoWire.endTransmission, TwoWire.requestFrom, TwoWire.read, DS1307_ADDRESS,
      DS1307_SEC_REG, List.append_assoc, List.cons_append, List.nil_append, Nat.zero_mod]

/-- The registers 0 to 6 after seven bytes were stored from register 0 on. -/
theorem Chip.store_seven (regs : Nat → Nat) (b0 b1 b2 b3 b4 b5 b6 : Nat) :
    Chip.store regs 0 [b0, b1, b2, b3, b4, b5, b6] 0 = b0
    ∧ Chip.store regs 0 [b0, b1, b2, b3, b4, b5, b6] 1 = b1
    ∧ Chip.store regs 0 [b0, b1, b2, b3, b4, b5, b6] 2 = b2
    ∧ Chip.store regs 0 [b0, b1, b2, b3, b4, b5, b6] 3 = b3
    ∧ Chip.store regs 0 [b0, b1, b2, b3, b4, b5, b6] 4 = b4
    ∧ Chip.store regs 0 [b0, b1, b2, b3, b4, b5, b6] 5 = b5
    ∧ Chip.store regs 0 [b0, b1, b2, b3, b4, b5, b6] 6 = b6 := by
  simp [Chip.store, Function.update]

/-! ### The claims -/

/-- C1: for every integer `v` with `0 ≤ v ≤ 99`, splitting `v` into its high
and low decimal digit with `dec2bcd_h` and `dec2bcd_l` and joining them again
with `bcd2dec` gives `v` back. -/
theorem bcd_round_trip (v : Int) (h0 : 0 ≤ v) (_h99 : v ≤ 99) :
    bcd2dec (dec2bcd_h v) (dec2bcd_l v) = v := by
  unfold bcd2dec dec2bcd_h dec2bcd_l
  rw [Int.tdiv_eq_ediv h0 (by decide), Int.tmod_eq_emod h0 (by decide)]
  omega

/-- Witness for C1: 59 encodes to high digit 5 and low digit 9 and decodes
back to 59. -/
theorem bcd_round_trip_witness :
    dec2bcd_h 59 = 5 ∧ dec2bcd_l 59 = 9 ∧ bcd2dec (dec2bcd_h 59) (dec2bcd_l 59) = 59 :=
  ⟨by decide, by decide, bcd_round_trip 59 (by decide) (by decide)⟩

/-- C2: on the simulated register store, for every timestamp in range,
`set` followed by `get` returns exactly the timestamp written. -/
theorem set_get_round_trip (d : RtcDS1302) (hd : d.wired) (st0 : Store) (stack : List Nat)
    (tr : Trace) (hidle : (observe d tr).ce = false)
    (hour minute second year month day dow : Nat)
    (hh : hour ≤ 23) (hm : minute ≤ 59) (hs : second ≤ 59)
    (hy1 : 2000 ≤ year) (hy2 : year ≤ 2099) (hmo1 : 1 ≤ month) (hmo2 : month ≤ 12)
    (hd1 : 1 ≤ day) (hd2 : day ≤ 31) (hw1 : 1 ≤ dow) (hw2 : dow ≤ 7) :
    (d.get (simulated d st0) (d.set stack hour minute second year month day dow tr)).1
      = { hour := hour, minute := minute, second := second, year := year, month := month,
          day := day, dow := dow } := by
  have hy : ((year : Int) - 2000) = ((year - 2000 : Nat) : Int) := by omega
  have i1 := idle_write d hd DS1302_ENABLE 0x00 tr hidle
  simp only [RtcDS1302.get, RtcDS1302.set]
  rw [burstread_burstwrite d hd st0 _ _ i1, ofBytes_toBytes _ (wf_set_rtc _ (wf_ofBytes stack) ..)]
  simp only [RtcDS1302.set_rtc]
  have e1 : hour / 10 % 4 = hour / 10 := by omega
  have e2 : minute / 10 % 8 = minute / 10 := by omega
  have e3 : second / 10 % 8 = second / 10 := by omega
  have e4 : (year - 2000) / 10 % 16 = (year - 2000) / 10 := by omega
  have e5 : month / 10 % 2 = month / 10 := by omega
  have e6 : day / 10 % 4 = day / 10 := by omega
  have e7 : ∀ n : Nat, n % 10 % 16 = n % 10 := by intro n; omega
  simp only [hy, dec2bcd_l_natCast, dec2bcd_h_natCast, bitfield_natCast,
    toU8_bcd2dec, toU16_bcd2dec, DateTime.mk.injEq, Nat.reducePow, e1, e2, e3, e4, e5, e6, e7]
  refine ⟨?_, ?_, ?_, ?_, ?_, ?_, ?_⟩ <;> omega

/-- Witness for C2: writing 14:30:00 on 2024-03-15, day of week 5, and reading
it back. -/
theorem set_get_round_trip_witness :
    ((⟨4, 5, 6⟩ : RtcDS1302).get (simulated ⟨4, 5, 6⟩ (fun _ => 0))
        ((⟨4, 5, 6⟩ : RtcDS1302).set [] 14 30 0 2024 3 15 5 [])).1
      = { hour := 14, minute := 30, second := 0, year := 2024, month := 3, day := 15,
          dow := 5 } :=
  set_get_round_trip ⟨4, 5, 6⟩ (by decide) (fun _ => 0) [] [] rfl 14 30 0 2024 3 15 5
    (by decide) (by decide) (by decide) (by decide) (by decide) (by decide) (by decide)
    (by decide) (by decide) (by decide) (by decide)

/-- C3: on the simulated register store, for every prior register content and
all argument values, `setDate` leaves the hour, minute and second returned by
`getTime` unchanged, and `setTime` leaves the year, month, day and day of week
returned by `getDate` unchanged. -/
theorem partial_setters_preserve (d : RtcDS1302) (hd : d.wired) (st0 : Store) (tr : Trace)
    (hidle : (observe d tr).ce = false)
    (year month day dow hour minute second : Nat) :
    (d.getTime (simulated d st0) (d.setDate (simulated d st0) year month day dow tr)).1
        = (d.getTime (simulated d st0) tr).1
    ∧ (d.getDate (simulated d st0) (d.setTime (simulated d st0) hour minute second tr)).1
        = (d.getDate (simulated d st0) tr).1 := by
  have i1 := idle_burstread d hd (simulated d st0) tr hidle
  have i2 := idle_write d hd DS1302_ENABLE 0x00 _ i1
  have w0 := wf_ofBytes (d._burstread (simulated d st0) tr).1
  constructor
  · simp only [RtcDS1302.getTime, RtcDS1302.setDate]
    rw [burstread_burstwrite d hd st0 _ _ i2, ofBytes_toBytes _ (wf_setDate_rtc _ w0 ..)]
    rfl
  · simp only [RtcDS1302.getDate, RtcDS1302.setTime]
    rw [burstread_burstwrite d hd st0 _ _ i2, ofBytes_toBytes _ (wf_setTime_rtc _ w0 ..)]
    rfl

/-- Witness for C3: `setDate(2025, 1, 1, 3)` followed by `getTime`, and
`setTime(14, 30, 0)` followed by `getDate`, on a store whose registers all
hold `0x59`. -/
theorem partial_setters_preserve_witness :
    ((⟨4, 5, 6⟩ : RtcDS1302).getTime (simulated ⟨4, 5, 6⟩ (fun _ => 0x59))
        ((⟨4, 5, 6⟩ : RtcDS1302).setDate (simulated ⟨4, 5, 6⟩ (fun _ => 0x59)) 2025 1 1 3 [])).1
        = ((⟨4, 5, 6⟩ : RtcDS1302).getTime (simulated ⟨4, 5, 6⟩ (fun _ => 0x59)) []).1
    ∧ ((⟨4, 5, 6⟩ : RtcDS1302).getDate (simulated ⟨4, 5, 6⟩ (fun _ => 0x59))
        ((⟨4, 5, 6⟩ : RtcDS1302).setTime (simulated ⟨4, 5, 6⟩ (fun _ => 0x59)) 14 30 0 [])).1
        = ((⟨4, 5, 6⟩ : RtcDS1302).getDate (simulated ⟨4, 5, 6⟩ (fun _ => 0x59)) []).1 :=
  partial_setters_preserve ⟨4, 5, 6⟩ (by decide) (fun _ => 0x59) [] rfl 2025 1 1 3 14 30 0

/-- C4 (amended): on the simulated register store, for every prior register
content and all argument values, `set` and `setTime` leave the 12/24 bit (bit 7)
of the hour register and the clock-halt bit (bit 7) of the seconds register at
zero; `setDate` leaves the clock-halt bit at zero and the hour register as it
was; `setHour` stores `bin2bcd(hour)` in the hour register and `setSecond`
stores `bin2bcd(second)` in the seconds register, and apart from that the
single-field setters leave the hour and the seconds register as they were. -/
theorem setters_mode_bits (d : RtcDS1302) (hd : d.wired) (st0 : Store) (tr : Trace)
    (hidle : (observe d tr).ce = false) (bin2bcd : Int → Nat) (stack : List Nat)
    (hour minute second year month day dow : Nat) :
    ((registers d st0 (d.set stack hour minute second year month day dow tr)
          DS1302_HOURS).testBit 7 = false
      ∧ (registers d st0 (d.set stack hour minute second year month day dow tr)
          DS1302_SECONDS).testBit 7 = false)
    ∧ ((registers d st0 (d.setTime (simulated d st0) hour minute second tr)
          DS1302_HOURS).testBit 7 = false
      ∧ (registers d st0 (d.setTime (simulated d st0) hour minute second tr)
          DS1302_SECONDS).testBit 7 = false)
    ∧ ((registers d st0 (d.setDate (simulated d st0) year month day dow tr)
          DS1302_SECONDS).testBit 7 = false
      ∧ registers d st0 (d.setDate (simulated d st0) year month day dow tr) DS1302_HOURS
          = registers d st0 tr DS1302_HOURS % 256)
    ∧ (registers d st0 (d.setHour bin2bcd hour tr) DS1302_HOURS = bin2bcd hour % 256
      ∧ registers d st0 (d.setHour bin2bcd hour tr) DS1302_SECONDS
          = registers d st0 tr DS1302_SECONDS)
    ∧ (registers d st0 (d.setSecond bin2bcd second tr) DS1302_SECONDS = bin2bcd second % 256
      ∧ registers d st0 (d.setSecond bin2bcd second tr) DS1302_HOURS
          = registers d st0 tr DS1302_HOURS)
    ∧ (registers d st0 (d.setMinute bin2bcd minute tr) DS1302_HOURS
          = registers d st0 tr DS1302_HOURS
      ∧ registers d st0 (d.setMinute bin2bcd minute tr) DS1302_SECONDS
          = registers d st0 tr DS1302_SECONDS)
    ∧ (registers d st0 (d.setYear bin2bcd year tr) DS1302_HOURS
          = registers d st0 tr DS1302_HOURS
      ∧ registers d st0 (d.setYear bin2bcd year tr) DS1302_SECONDS
          = registers d st0 tr DS1302_SECONDS)
    ∧ (registers d st0 (d.setMonth bin2bcd month tr) DS1302_HOURS
          = registers d st0 tr DS1302_HOURS
      ∧ registers d st0 (d.setMonth bin2bcd month tr) DS1302_SECONDS
          = registers d st0 tr DS1302_SECONDS)
    ∧ (registers d st0 (d.setDay bin2bcd day tr) DS1302_HOURS
          = registers d st0 tr DS1302_HOURS
      ∧ registers d st0 (d.setDay bin2bcd day tr) DS1302_SECONDS
          = registers d st0 tr DS1302_SECONDS)
    ∧ (registers d st0 (d.setDow dow tr) DS1302_HOURS = registers d st0 tr DS1302_HOURS
      ∧ registers d st0 (d.setDow dow tr) DS1302_SECONDS
          = registers d st0 tr DS1302_SECONDS) := by
  refine ⟨registers_set d hd st0 stack tr hidle _ _ _ _ _ _ _,
    registers_setTime d hd st0 tr hidle _ _ _, registers_setDate d hd st0 tr hidle _ _ _ _,
    ?_, ?_, ?_, ?_, ?_, ?_, ?_⟩
  all_goals
    simp only [RtcDS1302.setHour, RtcDS1302.setSecond, RtcDS1302.setMinute, RtcDS1302.setYear,
      RtcDS1302.setMonth, RtcDS1302.setDay, RtcDS1302.setDow]
    constructor <;>
    (rw [registers_clear_write_apply d hd st0 _ _ tr hidle (by decide) (by decide) (by decide)]
     simp [DS1302_HOURS, DS1302_SECONDS, DS1302_MINUTES, DS1302_YEAR, DS1302_MONTH, DS1302_DATE,
       DS1302_DAY, DS1302_ENABLE])

/-- Witness for C4 (amended): a store whose seconds register has clock-halt
set and whose hour register is in 12-hour mode. -/
theorem setters_mode_bits_witness :
    (registers ⟨4, 5, 6⟩ (fun a => if a = DS1302_HOURS then 0x92 else 0x80)
        ((⟨4, 5, 6⟩ : RtcDS1302).setTime
          (simulated ⟨4, 5, 6⟩ (fun a => if a = DS1302_HOURS then 0x92 else 0x80)) 14 30 0 [])
        DS1302_HOURS).testBit 7 = false
    ∧ (registers ⟨4, 5, 6⟩ (fun a => if a = DS1302_HOURS then 0x92 else 0x80)
        ((⟨4, 5, 6⟩ : RtcDS1302).setTime
          (simulated ⟨4, 5, 6⟩ (fun a => if a = DS1302_HOURS then 0x92 else 0x80)) 14 30 0 [])
        DS1302_SECONDS).testBit 7 = false :=
  (setters_mode_bits ⟨4, 5, 6⟩ (by decide) (fun a => if a = DS1302_HOURS then 0x92 else 0x80) []
    rfl (fun v => toU8 (v / 10 * 16 + v % 10)) [] 14 30 0 2024 3 15 5).2.1

/-- C4 (counterexample): on a store whose hour register holds `0x92` (12-hour
mode) and whose seconds register holds `0x80` (clock halted), the 12/24 bit is
still set after `setDate(2025, 1, 1, 3)`, and the clock-halt bit is still set
after `setMinute(30)`. -/
theorem setters_mode_bits_counterexample :
    (registers ⟨4, 5, 6⟩ (fun a => if a = DS1302_HOURS then 0x92 else 0x80)
        ((⟨4, 5, 6⟩ : RtcDS1302).setDate
          (simulated ⟨4, 5, 6⟩ (fun a => if a = DS1302_HOURS then 0x92 else 0x80)) 2025 1 1 3 [])
        DS1302_HOURS).testBit 7 = true
    ∧ (registers ⟨4, 5, 6⟩ (fun a => if a = DS1302_HOURS then 0x92 else 0x80)
        ((⟨4, 5, 6⟩ : RtcDS1302).setMinute (fun v => toU8 (v / 10 * 16 + v % 10)) 30 [])
        DS1302_SECONDS).testBit 7 = true := by
  constructor
  · rw [(registers_setDate ⟨4, 5, 6⟩ (by decide) _ [] rfl 2025 1 1 3).2]
    decide
  · simp only [RtcDS1302.setMinute]
    rw [registers_clear_write_apply ⟨4, 5, 6⟩ (by decide) _ _ _ [] rfl (by decide) (by decide)
      (by decide)]
    decide

/-- C5: for every register address `A` below 256, the only byte shifted out
in the session of `_read(A)` is `A | 0x01`, and the bytes shifted out in the
session of `_write(A, data)` are `A & 0xFE` followed by `data`. -/
theorem address_read_write_bit (d : RtcDS1302) (hd : d.wired) (env : Env) (A data : Nat)
    (tr : Trace) (hidle : (observe d tr).ce = false) (hA : A < 256) (hdata : data < 256) :
    produced d tr (d._read env A tr).2 = [[A ||| 0x01]]
    ∧ produced d tr (d._write A data tr) = [[A &&& 0xFE, data]] := by
  have hs : bitSet A DS1302_READBIT % 256 = A ||| 0x01 := bitSet_readbit ⟨A, hA⟩
  have hc : bitClear A DS1302_READBIT % 256 = A &&& 0xFE := bitClear_readbit ⟨A, hA⟩
  have hs2 : (A ||| 0x01) % 256 = A ||| 0x01 := by rw [← hs, Nat.mod_mod]
  have hc2 : (A &&& 0xFE) % 256 = A &&& 0xFE := by rw [← hc, Nat.mod_mod]
  constructor
  · rw [produced_of_append d tr _ _ (sessions_read d hd env A tr hidle)]
    simp only [List.map, Session.bytesOut, bytesOfBits_bitsOfBytes, hs, hs2]
  · rw [produced_of_append d tr _ _ (sessions_write d hd A data tr hidle)]
    simp only [List.map, Session.bytesOut, bytesOfBits_bitsOfBytes, hc, hc2,
      Nat.mod_eq_of_lt hdata]

/-- Witness for C5: the hour register, address `0x84`, read and written with
`0x23`; the address bytes on the wire are `0x85` and `0x84`. -/
theorem address_read_write_bit_witness :
    produced ⟨4, 5, 6⟩ [] ((⟨4, 5, 6⟩ : RtcDS1302)._read (fun _ _ => false) 0x84 []).2 = [[0x85]]
    ∧ produced ⟨4, 5, 6⟩ [] ((⟨4, 5, 6⟩ : RtcDS1302)._write 0x84 0x23 []) = [[0x84, 0x23]] :=
  address_read_write_bit ⟨4, 5, 6⟩ (by decide) (fun _ _ => false) 0x84 0x23 [] rfl
    (by decide) (by decide)

/-- C6: each of the ten setters produces a session that writes `0x00` to the
enable register `0x8E`; no session before it writes clock data, and the
session that writes the clock data (the burst write, or the single write to the
register of the field) comes after it. -/
theorem write_protect_cleared_first (d : RtcDS1302) (hd : d.wired) (env : Env) (tr : Trace)
    (hidle : (observe d tr).ce = false) (bin2bcd : Int → Nat) (stack : List Nat)
    (hour minute second year month day dow : Nat) :
    clearedBeforeData (produced d tr (d.set stack hour minute second year month day dow tr))
    ∧ clearedBeforeData (produced d tr (d.setDate env year month day dow tr))
    ∧ clearedBeforeData (produced d tr (d.setTime env hour minute second tr))
    ∧ clearedBeforeData (produced d tr (d.setHour bin2bcd hour tr))
    ∧ clearedBeforeData (produced d tr (d.setMinute bin2bcd minute tr))
    ∧ clearedBeforeData (produced d tr (d.setSecond bin2bcd second tr))
    ∧ clearedBeforeData (produced d tr (d.setYear bin2bcd year tr))
    ∧ clearedBeforeData (produced d tr (d.setMonth bin2bcd month tr))
    ∧ clearedBeforeData (produced d tr (d.setDay bin2bcd day tr))
    ∧ clearedBeforeData (produced d tr (d.setDow dow tr)) := by
  refine ⟨?_, ?_, ?_, ?_, ?_, ?_, ?_, ?_, ?_, ?_⟩
  · simp only [RtcDS1302.set]
    rw [produced_clear_burstwrite d hd _ tr hidle]
    exact cleared_burst _ (by simp)
  · simp only [RtcDS1302.setDate]
    rw [produced_read_clear_burstwrite d hd env _ tr hidle]
    exact cleared_read_burst _ (by simp)
  · simp only [RtcDS1302.setTime]
    rw [produced_read_clear_burstwrite d hd env _ tr hidle]
    exact cleared_read_burst _ (by simp)
  all_goals
    simp only [RtcDS1302.setHour, RtcDS1302.setMinute, RtcDS1302.setSecond, RtcDS1302.setYear,
      RtcDS1302.setMonth, RtcDS1302.setDay, RtcDS1302.setDow]
    rw [produced_clear_write d hd _ _ tr hidle (by decide) (by decide)]
    exact cleared_single _ _ (by simp)

/-- Witness for C6: `setHour(14)` with `bin2bcd(14) = 0x14` produces the
sessions `8E 00` and `84 14`, in this order. -/
theorem write_protect_cleared_first_witness :
    clearedBeforeData (produced ⟨4, 5, 6⟩ []
      ((⟨4, 5, 6⟩ : RtcDS1302).setHour (fun v => toU8 (v / 10 * 16 + v % 10)) 14 [])) :=
  (write_protect_cleared_first ⟨4, 5, 6⟩ (by decide) (fun _ _ => false) [] rfl
    (fun v => toU8 (v / 10 * 16 + v % 10)) [] 14 30 0 2024 3 15 5).2.2.2.1

/-- C7: a burst read and a burst write, started with chip-select low, are one
session each: chip-select rises once and is low at the end, the one session
that ends holds the command byte (`0xBF` or `0xBE`) and the eight data bytes
(shifted in, or shifted out), and the clock has no rising edge while
chip-select is low. -/
theorem burst_single_session (d : RtcDS1302) (hd : d.wired) (env : Env) (p : List Nat)
    (tr : Trace) (hidle : (observe d tr).ce = false) :
    ((observe d (d._burstread env tr).2).ceRises = (observe d tr).ceRises + 1
      ∧ (observe d (d._burstread env tr).2).ce = false
      ∧ (observe d (d._burstread env tr).2).sessions
          = (observe d tr).sessions
            ++ [{ shifted := bitsOfBytes [DS1302_CLOCK_BURST_READ],
                  sampled := bitsOfBytes (d._burstread env tr).1 }]
      ∧ (d._burstread env tr).1.length = 8
      ∧ (observe d (d._burstread env tr).2).idleRises = (observe d tr).idleRises)
    ∧ ((observe d (d._burstwrite p tr)).ceRises = (observe d tr).ceRises + 1
      ∧ (observe d (d._burstwrite p tr)).ce = false
      ∧ (observe d (d._burstwrite p tr)).sessions
          = (observe d tr).sessions
            ++ [{ shifted := bitsOfBytes [DS1302_CLOCK_BURST_WRITE, p.getD 0 0, p.getD 1 0,
                    p.getD 2 0, p.getD 3 0, p.getD 4 0, p.getD 5 0, p.getD 6 0, p.getD 7 0],
                  sampled := [] }]
      ∧ (observe d (d._burstwrite p tr)).idleRises = (observe d tr).idleRises) := by
  refine ⟨⟨?_, ?_, ?_, burstread_length d env tr, ?_⟩, ⟨?_, ?_, ?_, ?_⟩⟩
  · rw [observe_burstread d hd env tr hidle]
  · rw [observe_burstread d hd env tr hidle]
  · rw [observe_burstread d hd env tr hidle]
  · rw [observe_burstread d hd env tr hidle]
  · rw [observe_burstwrite d hd p tr hidle]
  · rw [observe_burstwrite d hd p tr hidle]
  · rw [observe_burstwrite d hd p tr hidle]
  · rw [observe_burstwrite d hd p tr hidle]

/-- Witness for C7: a burst read from a silent chip and a burst write of the
bytes 1 to 8, on the pins 4, 5 and 6. -/
theorem burst_single_session_witness :
    produced ⟨4, 5, 6⟩ [] ((⟨4, 5, 6⟩ : RtcDS1302)._burstread (fun _ _ => false) []).2
        = [[0xBF]]
    ∧ produced ⟨4, 5, 6⟩ [] ((⟨4, 5, 6⟩ : RtcDS1302)._burstwrite [1, 2, 3, 4, 5, 6, 7, 8] [])
        = [[0xBE, 1, 2, 3, 4, 5, 6, 7, 8]] := by
  have h := burst_single_session ⟨4, 5, 6⟩ (by decide) (fun _ _ => false)
    [1, 2, 3, 4, 5, 6, 7, 8] [] rfl
  exact ⟨by rw [produced_of_append _ _ _ _ h.1.2.2.1]; decide,
    by rw [produced_of_append _ _ _ _ h.2.2.2.1]; decide⟩

/-- C8: `_togglewrite(data, release)` produces, for the bits 0 to 7 of `data` in
this order, a write of the bit to the data line and then a rising clock edge;
the clock is lowered after each of the first seven bits; after bit 7 the clock
is lowered when `release` is zero, and otherwise it is left high and the data
pin switched to input, which is the only mode change.  Called inside a
session with the clock low, that makes eight rising clock edges that clock
out the bits of `data`, least significant first. -/
theorem togglewrite_lsb_first (d : RtcDS1302) (hd : d.wired) (data release : Nat) (tr : Trace)
    (hce : (observe d tr).ce = true) (hclk : (observe d tr).sclk = false)
    (hout : (observe d tr).datOut = true) :
    d._togglewrite data release tr
        = tr ++ d.shiftOutEvents (decide (release ≠ 0))
            [data.testBit 0, data.testBit 1, data.testBit 2, data.testBit 3, data.testBit 4,
             data.testBit 5, data.testBit 6, data.testBit 7]
    ∧ (observe d (d._togglewrite data release tr)).clkRises = (observe d tr).clkRises + 8
    ∧ (observe d (d._togglewrite data release tr)).shifted
        = (observe d tr).shifted
          ++ [data.testBit 0, data.testBit 1, data.testBit 2, data.testBit 3, data.testBit 4,
              data.testBit 5, data.testBit 6, data.testBit 7]
    ∧ (observe d (d._togglewrite data release tr)).sclk = decide (release ≠ 0)
    ∧ (observe d (d._togglewrite data release tr)).datOut = decide (release = 0)
    ∧ d.datModes (d.shiftOutEvents (decide (release ≠ 0))
          [data.testBit 0, data.testBit 1, data.testBit 2, data.testBit 3, data.testBit 4,
           data.testBit 5, data.testBit 6, data.testBit 7])
        = (if release ≠ 0 then [false] else [])
    ∧ (d.shiftOutEvents (decide (release ≠ 0))
          [data.testBit 0, data.testBit 1, data.testBit 2, data.testBit 3, data.testBit 4,
           data.testBit 5, data.testBit 6, data.testBit 7]).getLast?
        = some (if release ≠ 0 then PinEvent.pinMode d._pinDat false
                else PinEvent.delayMicroseconds 1) := by
  rw [← bitsOfByte_eq]
  by_cases hrel : release = 0
  · subst hrel
    refine ⟨togglewrite_events_keep d data tr, ?_, ?_, ?_, ?_, ?_, ?_⟩
    · rw [observe_togglewrite_keep d hd data tr hce hclk hout]
    · rw [observe_togglewrite_keep d hd data tr hce hclk hout]
    · rw [observe_togglewrite_keep d hd data tr hce hclk hout]; simp [hclk]
    · rw [observe_togglewrite_keep d hd data tr hce hclk hout]; simp [hout]
    · simpa using datModes_shiftOut d data false
    · simpa using (getLast_shiftOut d data).2
  · have hd1 : decide (release ≠ 0) = true := by simpa using hrel
    have hd2 : decide (release = 0) = false := by simpa using hrel
    rw [hd1, hd2]
    refine ⟨togglewrite_events_release d data release tr hrel, ?_, ?_, ?_, ?_, ?_, ?_⟩
    · rw [observe_togglewrite_release d hd data release tr hrel hce hclk hout]
    · rw [observe_togglewrite_release d hd data release tr hrel hce hclk hout]
    · rw [observe_togglewrite_release d hd data release tr hrel hce hclk hout]
    · rw [observe_togglewrite_release d hd data release tr hrel hce hclk hout]
    · simpa [hrel] using datModes_shiftOut d data true
    · simpa [hrel] using (getLast_shiftOut d data).1

/-- Witness for C8: the byte `0xA5` shifted out with release, right after
`_start` on the pins 4, 5 and 6. -/
theorem togglewrite_lsb_first_witness :
    (observe ⟨4, 5, 6⟩ ((⟨4, 5, 6⟩ : RtcDS1302)._togglewrite 0xA5 1
        ((⟨4, 5, 6⟩ : RtcDS1302)._start []))).shifted
      = [true, false, true, false, false, true, false, true]
    ∧ (observe ⟨4, 5, 6⟩ ((⟨4, 5, 6⟩ : RtcDS1302)._togglewrite 0xA5 1
        ((⟨4, 5, 6⟩ : RtcDS1302)._start []))).sclk = true :=
  ⟨(togglewrite_lsb_first ⟨4, 5, 6⟩ (by decide) 0xA5 1 ((⟨4, 5, 6⟩ : RtcDS1302)._start [])
      rfl rfl rfl).2.2.1,
   (togglewrite_lsb_first ⟨4, 5, 6⟩ (by decide) 0xA5 1 ((⟨4, 5, 6⟩ : RtcDS1302)._start [])
      rfl rfl rfl).2.2.2.1⟩

/-- C9: `_toggleread` pulses the clock (a high write, then a low write) before
each of its eight reads of the data pin and returns the byte assembled from the
levels read, least significant bit first: when the reads return `b0`, ..., `b7`
the result is the sum of `b_i * 2^i`.  Consequently, fed with the eight levels
that `_togglewrite(data, release)` writes to the data line, it returns
`data`. -/
theorem toggleread_lsb_first (d : RtcDS1302) (hd : d.wired) (env : Env) (tr : Trace)
    (data release : Nat) (hdata : data < 256) :
    d._toggleread env tr
        = (byteOfBits (d.levelsRead env 8 tr), tr ++ d.shiftInEvents (d.levelsRead env 8 tr))
    ∧ (d.levelsRead env 8 tr).length = 8
    ∧ (∀ b0 b1 b2 b3 b4 b5 b6 b7 : Bool,
        d._toggleread (replay [b0, b1, b2, b3, b4, b5, b6, b7]) []
          = (b0.toNat + 2 * b1.toNat + 4 * b2.toNat + 8 * b3.toNat + 16 * b4.toNat
              + 32 * b5.toNat + 64 * b6.toNat + 128 * b7.toNat,
             d.shiftInEvents [b0, b1, b2, b3, b4, b5, b6, b7]))
    ∧ (d._toggleread (replay (d.datLevels (d._togglewrite data release []))) []).1 = data := by
  refine ⟨toggleread_events d env tr, by simp [RtcDS1302.levelsRead], ?_, ?_⟩
  · intro b0 b1 b2 b3 b4 b5 b6 b7
    rw [toggleread_events, levelsRead_replay, byteOfBits_sum, List.nil_append]
  · rw [datLevels_togglewrite d hd, bitsOfByte_eq, toggleread_events, levelsRead_replay,
      byteOfBits_testBit, Nat.mod_eq_of_lt hdata]

/-- Witness for C9: the byte `0x59` shifted out on the pins 4, 5 and 6 and fed
back to the shift-in loop. -/
theorem toggleread_lsb_first_witness :
    ((⟨4, 5, 6⟩ : RtcDS1302)._toggleread
      (replay ((⟨4, 5, 6⟩ : RtcDS1302).datLevels ((⟨4, 5, 6⟩ : RtcDS1302)._togglewrite 0x59 1 [])))
      []).1 = 0x59 :=
  (toggleread_lsb_first ⟨4, 5, 6⟩ (by decide) (fun _ _ => false) [] 0x59 1 (by decide)).2.2.2

/-- C10: `get` decodes the block `b0`, ..., `b7` returned by the burst read in
the 24-hour layout: second from the low seven bits of `b0`, minute from the low
seven bits of `b1`, hour from the low six bits of `b2`, day from the low six
bits of `b3`, month from the low five bits of `b4`, day of week from the low
three bits of `b5` and year as 2000 plus the two digits of `b6`.  The hour is
a function of `b2` without its bits 6 and 7, and the second a function of `b0`
without its clock-halt bit. -/
theorem get_decodes_24h (d : RtcDS1302) (env : Env) (tr : Trace) :
    (d.get env tr).1
      = { second := (((d._burstread env tr).1.getD 0 0 >>> 4) &&& 7) * 10
                      + ((d._burstread env tr).1.getD 0 0 &&& 15)
          minute := (((d._burstread env tr).1.getD 1 0 >>> 4) &&& 7) * 10
                      + ((d._burstread env tr).1.getD 1 0 &&& 15)
          hour := (((d._burstread env tr).1.getD 2 0 >>> 4) &&& 3) * 10
                      + ((d._burstread env tr).1.getD 2 0 &&& 15)
          day := (((d._burstread env tr).1.getD 3 0 >>> 4) &&& 3) * 10
                      + ((d._burstread env tr).1.getD 3 0 &&& 15)
          month := (((d._burstread env tr).1.getD 4 0 >>> 4) &&& 1) * 10
                      + ((d._burstread env tr).1.getD 4 0 &&& 15)
          dow := (d._burstread env tr).1.getD 5 0 &&& 7
          year := 2000 + ((d._burstread env tr).1.getD 6 0 >>> 4) * 10
                      + ((d._burstread env tr).1.getD 6 0 &&& 15) }
    ∧ (d.get env tr).2 = (d._burstread env tr).2
    ∧ (d.get env tr).1.hour
        = ((d._burstread env tr).1.getD 2 0 % 64) / 16 * 10
          + ((d._burstread env tr).1.getD 2 0 % 64) % 16
    ∧ (d.get env tr).1.second
        = ((d._burstread env tr).1.getD 0 0 % 128) / 16 * 10
          + ((d._burstread env tr).1.getD 0 0 % 128) % 16 := by
  have h6 := burstread_lt d env tr 6
  refine ⟨?_, rfl, ?_, ?_⟩
  · rw [get_fields]
    simp only [fun b => (shift_mask b).1, fun b => (shift_mask b).2.1,
      fun b => (shift_mask b).2.2.1, fun b => (shift_mask b).2.2.2.1,
      fun b => (shift_mask b).2.2.2.2, DateTime.mk.injEq, true_and, and_true]
    omega
  · rw [get_fields]
    simp only
    omega
  · rw [get_fields]
    simp only
    omega

/-- C11 (the code at the failing input): two calls `set(14, 30, 0, 2024, 3, 15,
5)` whose uninitialised local holds zero bytes in one and `0xFF` bytes in the
other burst-write different blocks; the difference is in the bits of the
reserved fields, which `set` never assigns. -/
theorem set_block_from_stack :
    produced ⟨4, 5, 6⟩ [] ((⟨4, 5, 6⟩ : RtcDS1302).set [0, 0, 0, 0, 0, 0, 0, 0]
        14 30 0 2024 3 15 5 [])
      = [[0x8E, 0x00], [0xBE, 0x00, 0x30, 0x14, 0x15, 0x03, 0x05, 0x24, 0x00]]
    ∧ produced ⟨4, 5, 6⟩ [] ((⟨4, 5, 6⟩ : RtcDS1302).set
        [0xFF, 0xFF, 0xFF, 0xFF, 0xFF, 0xFF, 0xFF, 0xFF] 14 30 0 2024 3 15 5 [])
      = [[0x8E, 0x00], [0xBE, 0x00, 0xB0, 0x54, 0xD5, 0xE3, 0xFD, 0x24, 0x7F]] := by
  constructor
  · simp only [RtcDS1302.set]
    rw [produced_clear_burstwrite ⟨4, 5, 6⟩ (by decide) _ [] rfl]
    decide
  · simp only [RtcDS1302.set]
    rw [produced_clear_burstwrite ⟨4, 5, 6⟩ (by decide) _ [] rfl]
    decide

/-- C12: in every public operation, for all argument values and whatever the
chip answers, every single-register write to the enable register `0x8E`
writes `0x00`, and the eighth data byte of every burst write has bit 7, the
write-protect bit, clear. -/
theorem write_protect_never_set (d : RtcDS1302) (hd : d.wired) (env : Env)
    (bin2bcd : Int → Nat) (bcd2bin : Nat → Nat) (tr : Trace)
    (hidle : (observe d tr).ce = false) (op : Op) :
    ∀ s ∈ produced d tr (Op.run d env bin2bcd bcd2bin op tr), keepsUnprotected s := by
  have hr : ∀ (a : Nat), a % 2 = 0 → a < 256 → a + 1 ≠ DS1302_ENABLE →
      a + 1 ≠ DS1302_CLOCK_BURST_WRITE →
      ∀ s ∈ produced d tr (d._read env a tr).2, keepsUnprotected s := by
    intro a h1 h2 h3 h4 s hs
    rw [produced_read d hd env a tr hidle h1 h2, List.mem_singleton] at hs
    subst hs
    exact keepsUnprotected_other _ (by simpa using h3) (by simpa using h4)
  have hb : ∀ s ∈ produced d tr (d._burstread env tr).2, keepsUnprotected s := by
    intro s hs
    rw [produced_burstread d hd env tr hidle, List.mem_singleton] at hs
    subst hs
    exact keepsUnprotected_other _ (by decide) (by decide)
  have hw : ∀ (a v : Nat), a % 2 = 0 → a < 256 → a ≠ DS1302_ENABLE →
      a ≠ DS1302_CLOCK_BURST_WRITE →
      ∀ s ∈ produced d tr (d._write a v (d._write DS1302_ENABLE 0x00 tr)),
        keepsUnprotected s := by
    intro a v h1 h2 h3 h4 s hs
    rw [produced_clear_write d hd a v tr hidle h1 h2] at hs
    simp only [List.mem_cons, List.mem_singleton, List.not_mem_nil, or_false] at hs
    rcases hs with hs | hs
    · subst hs; exact keepsUnprotected_clear
    · subst hs
      exact keepsUnprotected_other _ (by simpa using h3) (by simpa using h4)
  cases op with
  | begin =>
    intro s hs
    simp only [Op.run, RtcDS1302.begin] at hs
    rw [produced_write d hd DS1302_TRICKLE 0x00 tr hidle (by decide) (by decide),
      List.mem_singleton] at hs
    subst hs
    exact keepsUnprotected_other _ (by decide) (by decide)
  | get => exact hb
  | getDate => exact hb
  | getTime => exact hb
  | getHour => exact hr DS1302_HOURS (by decide) (by decide) (by decide) (by decide)
  | getMinute => exact hr DS1302_MINUTES (by decide) (by decide) (by decide) (by decide)
  | getSecond => exact hr DS1302_SECONDS (by decide) (by decide) (by decide) (by decide)
  | getYear => exact hr DS1302_YEAR (by decide) (by decide) (by decide) (by decide)
  | getMonth => exact hr DS1302_MONTH (by decide) (by decide) (by decide) (by decide)
  | getDay => exact hr DS1302_DATE (by decide) (by decide) (by decide) (by decide)
  | getDow => exact hr DS1302_DAY (by decide) (by decide) (by decide) (by decide)
  | set stack hour minute second year month day dow =>
    intro s hs
    simp only [Op.run, RtcDS1302.set] at hs
    rw [produced_clear_burstwrite d hd _ tr hidle] at hs
    simp only [List.mem_cons, List.mem_singleton, List.not_mem_nil, or_false] at hs
    rcases hs with hs | hs
    · subst hs; exact keepsUnprotected_clear
    · subst hs
      exact keepsUnprotected_burst _ _ _ _ _ _ _ _
        (enable_byte_bit7 _ (wf_set_rtc _ (wf_ofBytes stack) ..) rfl)
  | setDate year month day dow =>
    intro s hs
    simp only [Op.run, RtcDS1302.setDate] at hs
    rw [produced_read_clear_burstwrite d hd env _ tr hidle] at hs
    simp only [List.mem_cons, List.mem_singleton, List.not_mem_nil, or_false] at hs
    rcases hs with hs | hs | hs
    · subst hs; exact keepsUnprotected_other _ (by decide) (by decide)
    · subst hs; exact keepsUnprotected_clear
    · subst hs
      exact keepsUnprotected_burst _ _ _ _ _ _ _ _
        (enable_byte_bit7 _ (wf_setDate_rtc _ (wf_ofBytes _) ..) rfl)
  | setTime hour minute second =>
    intro s hs
    simp only [Op.run, RtcDS1302.setTime] at hs
    rw [produced_read_clear_burstwrite d hd env _ tr hidle] at hs
    simp only [List.mem_cons, List.mem_singleton, List.not_mem_nil, or_false] at hs
    rcases hs with hs | hs | hs
    · subst hs; exact keepsUnprotected_other _ (by decide) (by decide)
    · subst hs; exact keepsUnprotected_clear
    · subst hs
      exact keepsUnprotected_burst _ _ _ _ _ _ _ _
        (enable_byte_bit7 _ (wf_setTime_rtc _ (wf_ofBytes _) ..) rfl)
  | setHour hour =>
    exact hw DS1302_HOURS _ (by decide) (by decide) (by decide) (by decide)
  | setMinute minute =>
    exact hw DS1302_MINUTES _ (by decide) (by decide) (by decide) (by decide)
  | setSecond second =>
    exact hw DS1302_SECONDS _ (by decide) (by decide) (by decide) (by decide)
  | setYear year =>
    exact hw DS1302_YEAR _ (by decide) (by decide) (by decide) (by decide)
  | setMonth month =>
    exact hw DS1302_MONTH _ (by decide) (by decide) (by decide) (by decide)
  | setDay day =>
    exact hw DS1302_DATE _ (by decide) (by decide) (by decide) (by decide)
  | setDow dow =>
    exact hw DS1302_DAY _ (by decide) (by decide) (by decide) (by decide)

/-- Witness for C12: `setHour(14)` on the pins 4, 5 and 6 after power-on writes
`0x00` to the enable register. -/
theorem write_protect_never_set_witness :
    [DS1302_ENABLE, 0x00] ∈ produced ⟨4, 5, 6⟩ [] (Op.run ⟨4, 5, 6⟩ (fun _ _ => true)
        (fun v => toU8 (v / 10 * 16 + v % 10)) (fun b => b / 16 * 10 + b % 16)
        (Op.setHour 14) [])
    ∧ keepsUnprotected [DS1302_ENABLE, 0x00] :=
  have h : [DS1302_ENABLE, 0x00] ∈ produced ⟨4, 5, 6⟩ [] (Op.run ⟨4, 5, 6⟩ (fun _ _ => true)
      (fun v => toU8 (v / 10 * 16 + v % 10)) (fun b => b / 16 * 10 + b % 16)
      (Op.setHour 14) []) := by
    simp only [Op.run, RtcDS1302.setHour]
    rw [produced_clear_write ⟨4, 5, 6⟩ (by decide) DS1302_HOURS _ [] rfl (by decide)
      (by decide)]
    exact List.mem_cons_self _ _
  ⟨h, write_protect_never_set ⟨4, 5, 6⟩ (by decide) (fun _ _ => true)
    (fun v => toU8 (v / 10 * 16 + v % 10)) (fun b => b / 16 * 10 + b % 16) [] rfl
    (Op.setHour 14) _ h⟩

/-- C13: `RtcDS1307::begin` performs one transaction to the address `0x68`
that writes the register index `0x07` and then the byte `0x00`, and it returns
true if and only if the status returned by `endTransmission` is 0. -/
theorem ds1307_begin_reports_status (env : BusEnv) (tr : BusTrace) :
    (RtcDS1307.begin env tr).2
        = tr ++ [BusEvent.beginTransmission 0x68, BusEvent.write 0x07, BusEvent.write 0x00,
            BusEvent.endTransmission
              (TwoWire.endTransmission env (tr ++ [BusEvent.beginTransmission 0x68,
                BusEvent.write 0x07, BusEvent.write 0x00])).1]
    ∧ ((RtcDS1307.begin env tr).1 = true
        ↔ (TwoWire.endTransmission env (tr ++ [BusEvent.beginTransmission 0x68,
            BusEvent.write 0x07, BusEvent.write 0x00])).1 = 0) := by
  constructor
  · simp [RtcDS1307.begin, TwoWire.beginTransmission, TwoWire.write, TwoWire.endTransmission,
      DS1307_ADDRESS, DS1307_CONTROL_REG]
  · simp [RtcDS1307.begin, TwoWire.beginTransmission, TwoWire.write, TwoWire.endTransmission,
      DS1307_ADDRESS, DS1307_CONTROL_REG]

/-- C14: `RtcDS1307::set` writes, in one transaction that starts at register
`0x00`, the seven bytes `bin2bcd(second)`, `bin2bcd(minute)`, `bin2bcd(hour)`,
`dow`, `bin2bcd(day)`, `bin2bcd(month)`, `bin2bcd(year - 2000)`;
`RtcDS1307::get` sets the register index `0x00`, requests 7 bytes and decodes
them in the same order, the hour after clearing bits 6 and 7, the day of week
raw, the year plus 2000.  With the helpers `bin2bcd(v) = (v/10)*16 + v%10` and
`bcd2bin(b) = (b>>4)*10 + (b&15)`, `get` after `set` on a simulated register
store returns the written fields when they are in range. -/
theorem ds1307_set_get_round_trip (f g : Int → Nat) (env : BusEnv) (c : Chip) (tr : BusTrace)
    (hour minute second year month day dow : Nat) :
    (∃ st, RtcDS1307.set f env hour minute second year month day dow tr
      = tr ++ [BusEvent.beginTransmission 0x68, BusEvent.write 0x00,
          BusEvent.write (f second % 256), BusEvent.write (f minute % 256),
          BusEvent.write (f hour % 256), BusEvent.write (dow % 256),
          BusEvent.write (f day % 256), BusEvent.write (f month % 256),
          BusEvent.write (f ((year : Int) - 2000) % 256), BusEvent.endTransmission st])
    ∧ (∃ (st : Nat) (r0 r1 r2 r3 r4 r5 r6 : Int),
      (RtcDS1307.get g env tr).2
        = tr ++ [BusEvent.beginTransmission 0x68, BusEvent.write 0x00,
            BusEvent.endTransmission st, BusEvent.requestFrom 0x68 7,
            BusEvent.read r0, BusEvent.read r1, BusEvent.read r2, BusEvent.read r3,
            BusEvent.read r4, BusEvent.read r5, BusEvent.read r6]
      ∧ (RtcDS1307.get g env tr).1
        = { hour := g (Int.land r2 (Int.not 0b11000000)) % 256,
            minute := g r1 % 256,
            second := g r0 % 256,
            year := toU16 ((g r6 : Int) + 2000),
            month := g r5 % 256,
            day := g r4 % 256,
            dow := toU8 r3 })
    ∧ (hour ≤ 23 → minute ≤ 59 → second ≤ 59 → 2000 ≤ year → year ≤ 2099 →
        1 ≤ month → month ≤ 12 → 1 ≤ day → day ≤ 31 → 1 ≤ dow → dow ≤ 7 →
        (RtcDS1307.get bcd2bin (simulatedBus c)
            (RtcDS1307.set bin2bcd (simulatedBus c) hour minute second year month day dow
              tr)).1
          = { hour := hour, minute := minute, second := second, year := year, month := month,
              day := day, dow := dow }) := by
  refine ⟨ds1307_set_events f env hour minute second year month day dow tr,
    ds1307_get_events g env tr, ?_⟩
  intro h1 h2 h3 h4 h5 h6 h7 h8 h9 h10 h11
  obtain ⟨st, hs⟩ := ds1307_set_events bin2bcd (simulatedBus c) hour minute second year month
    day dow tr
  obtain ⟨e0, e1, e2, e3, e4, e5, e6⟩ := Chip.store_seven (c.after tr).regs
    (bin2bcd second % 256) (bin2bcd minute % 256) (bin2bcd hour % 256) (dow % 256)
    (bin2bcd day % 256) (bin2bcd month % 256) (bin2bcd ((year : Int) - 2000) % 256)
  have hd : toU8 ((dow % 256 : Nat) : Int) = dow := by
    interval_cases dow <;> decide
  rw [ds1307_get_simulated, hs, Chip.after_set, e0, e1, e2, e3, e4, e5, e6,
    bcd2bin_hour hour (by omega), bcd2bin_bin2bcd minute (by omega),
    bcd2bin_bin2bcd second (by omega), bcd2bin_bin2bcd month (by omega),
    bcd2bin_bin2bcd day (by omega), bcd2bin_year year h4 h5, hd]

/-- Witness for C14: 14:30:00 on Friday 15 March 2024, written to a chip whose
registers held zero. -/
theorem ds1307_set_get_round_trip_witness :
    (RtcDS1307.get bcd2bin (simulatedBus ⟨fun _ => 0, 0, none, []⟩)
        (RtcDS1307.set bin2bcd (simulatedBus ⟨fun _ => 0, 0, none, []⟩) 14 30 0 2024 3 15 5
          [])).1
      = { hour := 14, minute := 30, second := 0, year := 2024, month := 3, day := 15,
          dow := 5 } :=
  (ds1307_set_get_round_trip bin2bcd bcd2bin (simulatedBus ⟨fun _ => 0, 0, none, []⟩)
    ⟨fun _ => 0, 0, none, []⟩ [] 14 30 0 2024 3 15 5).2.2
    (by decide) (by decide) (by decide) (by decide) (by decide) (by decide) (by decide)
    (by decide) (by decide) (by decide) (by decide)

/-- C15 (the code at the failing input): `begin` produces the single session
that writes `0x00` to the trickle register `0x90`; no session that clears
write-protect comes before it. -/
theorem begin_without_clear :
    produced ⟨4, 5, 6⟩ [] ((⟨4, 5, 6⟩ : RtcDS1302).begin []).2 = [[0x90, 0x00]]
    ∧ ¬ clearedBeforeWrites (produced ⟨4, 5, 6⟩ [] ((⟨4, 5, 6⟩ : RtcDS1302).begin []).2) := by
  have h : produced ⟨4, 5, 6⟩ [] ((⟨4, 5, 6⟩ : RtcDS1302).begin []).2 = [[0x90, 0x00]] := by
    simp only [RtcDS1302.begin]
    rw [produced_write ⟨4, 5, 6⟩ (by decide) DS1302_TRICKLE 0x00 [] rfl (by decide) (by decide)]
    decide
  refine ⟨h, ?_⟩
  rw [h]
  intro hc
  have := hc [] [0x90, 0x00] [] rfl ⟨0x90, [0x00], rfl, by simp, by decide, by decide⟩
  simp at this

/-- C16: `begin` returns true whatever the pins and the trace before it;
started with chip-select low it produces exactly one session, in which the
bytes `0x90` and `0x00` are shifted out, and the only mode change of the data
pin in its trace is the switch to output made by `_start`, so the data line is
not released. -/
theorem begin_disables_trickle (d : RtcDS1302) (hd : d.wired) (tr : Trace)
    (hidle : (observe d tr).ce = false) :
    (∀ (d2 : RtcDS1302) (tr2 : Trace), (d2.begin tr2).1 = true)
    ∧ produced d tr (d.begin tr).2 = [[DS1302_TRICKLE, 0x00]]
    ∧ (observe d (d.begin tr).2).ceRises = (observe d tr).ceRises + 1
    ∧ (d.begin tr).2
        = tr ++ (d.startEvents ++ d.shiftOutEvents false (bitsOfByte DS1302_TRICKLE)
            ++ d.shiftOutEvents false (bitsOfByte 0x00) ++ d.stopEvents)
    ∧ d.datModes (d.startEvents ++ d.shiftOutEvents false (bitsOfByte DS1302_TRICKLE)
            ++ d.shiftOutEvents false (bitsOfByte 0x00) ++ d.stopEvents) = [true] := by
  refine ⟨fun _ _ => rfl, ?_, ?_, ?_, ?_⟩
  · simp only [RtcDS1302.begin]
    rw [produced_write d hd DS1302_TRICKLE 0x00 tr hidle (by decide) (by decide)]
  · simp only [RtcDS1302.begin]
    rw [observe_write d hd DS1302_TRICKLE 0x00 tr hidle]
  · simp only [RtcDS1302.begin]
    rw [write_events]
    rfl
  · rw [datModes_append, datModes_append, datModes_append, datModes_start d hd, datModes_stop,
      datModes_shiftOut, datModes_shiftOut]
    rfl

/-- Witness for C16: `begin` on the pins 4, 5 and 6 after power-on. -/
theorem begin_disables_trickle_witness :
    produced ⟨4, 5, 6⟩ [] ((⟨4, 5, 6⟩ : RtcDS1302).begin []).2 = [[0x90, 0x00]] :=
  (begin_disables_trickle ⟨4, 5, 6⟩ (by decide) [] rfl).2.1

/-- C17: `_start` drives chip-select low, sets it to output, drives the clock
low, sets the clock and the data pin to output, then drives chip-select high
and waits 4 microseconds; `_stop` drives chip-select low and waits 4
microseconds.  Hence, in every finite sequence of public operations, the first
data or clock write of every session is made with chip-select high, the clock
low and at least 4 microseconds after chip-select went high, and every session
begins at least 4 microseconds after the session before it ended. -/
theorem session_framing (d : RtcDS1302) (hd : d.wired) (env : Env)
    (bin2bcd : Int → Nat) (bcd2bin : Nat → Nat) (ops : List Op) (tr : Trace) :
    d._start tr = tr ++
        [PinEvent.digitalWrite d._pinRst false, PinEvent.pinMode d._pinRst true,
         PinEvent.digitalWrite d._pinClk false, PinEvent.pinMode d._pinClk true,
         PinEvent.pinMode d._pinDat true,
         PinEvent.digitalWrite d._pinRst true, PinEvent.delayMicroseconds 4]
    ∧ d._stop tr = tr ++
        [PinEvent.digitalWrite d._pinRst false, PinEvent.delayMicroseconds 4]
    ∧ (settle d (d._start (runAll d env bin2bcd bcd2bin ops []))).ce = true
    ∧ (settle d (d._start (runAll d env bin2bcd bcd2bin ops []))).sclk = false
    ∧ (settle d (d._start (runAll d env bin2bcd bcd2bin ops []))).since = 4
    ∧ (settle d (runAll d env bin2bcd bcd2bin ops [])).early = 0
    ∧ (settle d (runAll d env bin2bcd bcd2bin ops [])).shortGaps = 0 := by
  obtain ⟨-, -, h3, h4, h5, h6⟩ := calm_runAll d hd env bin2bcd bcd2bin ops [] 0 0 0 (calm_nil d)
  refine ⟨start_events d tr, stop_events d tr, ?_, ?_, ?_, h5, h6⟩
  all_goals
    cases hst : settle d (runAll d env bin2bcd bcd2bin ops []) with
    | mk ce sclk since fresh closed early shortGaps =>
      rw [hst] at h3
      simp only at h3
      subst h3
      rw [settle_start d hd _ _ _ _ _ _ _ hst]

/-- Witness for C17: `begin`, `setHour` and `get` in turn on the pins 4, 5 and
6, against a chip that answers high to every read. -/
theorem session_framing_witness :
    (settle ⟨4, 5, 6⟩ (runAll ⟨4, 5, 6⟩ (fun _ _ => true)
      (fun v => toU8 (v / 10 * 16 + v % 10)) (fun b => b / 16 * 10 + b % 16)
      [Op.begin, Op.setHour 14, Op.get] [])).early = 0
    ∧ (settle ⟨4, 5, 6⟩ (runAll ⟨4, 5, 6⟩ (fun _ _ => true)
      (fun v => toU8 (v / 10 * 16 + v % 10)) (fun b => b / 16 * 10 + b % 16)
      [Op.begin, Op.setHour 14, Op.get] [])).shortGaps = 0 :=
  (session_framing ⟨4, 5, 6⟩ (by decide) (fun _ _ => true)
    (fun v => toU8 (v / 10 * 16 + v % 10)) (fun b => b / 16 * 10 + b % 16)
    [Op.begin, Op.setHour 14, Op.get] []).2.2.2.2.2

/-- C18: after every finite sequence of public operations, whatever the chip
answers, no level write to the data pin was made while the pin was in input
mode. -/
theorem data_line_driven_as_output (d : RtcDS1302) (hd : d.wired) (env : Env)
    (bin2bcd : Int → Nat) (bcd2bin : Nat → Nat) (ops : List Op) :
    (observe d (runAll d env bin2bcd bcd2bin ops [])).blindWrites = 0 :=
  (calm_runAll d hd env bin2bcd bcd2bin ops [] 0 0 0 (calm_nil d)).2.1

/-- Witness for C18: `begin`, `set`, `getHour`, `setDate` and `get` in turn on
the pins 4, 5 and 6, against a chip that answers high to every read. -/
theorem data_line_driven_as_output_witness :
    (observe ⟨4, 5, 6⟩ (runAll ⟨4, 5, 6⟩ (fun _ _ => true)
      (fun v => toU8 (v / 10 * 16 + v % 10)) (fun b => b / 16 * 10 + b % 16)
      [Op.begin, Op.set [] 14 30 0 2024 3 15 5, Op.getHour, Op.setDate 2025 1 1 3, Op.get]
      [])).blindWrites = 0 :=
  data_line_driven_as_output ⟨4, 5, 6⟩ (by decide) (fun _ _ => true)
    (fun v => toU8 (v / 10 * 16 + v % 10)) (fun b => b / 16 * 10 + b % 16)
    [Op.begin, Op.set [] 14 30 0 2024 3 15 5, Op.getHour, Op.setDate 2025 1 1 3, Op.get]

/-- C19: in a single-register read and in a burst read the clock is high when
the shift-in begins: the command byte took eight rising and seven falling
edges, and the first pass of the shift-in loop adds one falling edge and no
rising edge before the first sample.  The session of a single-register read
has 15 rising and 15 falling clock edges, that of a burst read 71 of each. -/
theorem turnaround_no_extra_pulse (d : RtcDS1302) (hd : d.wired) (env : Env) (A : Nat)
    (tr : Trace) (hidle : (observe d tr).ce = false) :
    (d._read env A tr
        = ((d._toggleread env
              (d._togglewrite (bitSet A DS1302_READBIT % 256) 1 (d._start tr))).1,
           d._stop (d._toggleread env
              (d._togglewrite (bitSet A DS1302_READBIT % 256) 1 (d._start tr))).2)
      ∧ (observe d (d._start tr)).clkRises = (observe d tr).clkRises
      ∧ (observe d (d._togglewrite (bitSet A DS1302_READBIT % 256) 1 (d._start tr))).sclk = true
      ∧ (observe d (d._togglewrite (bitSet A DS1302_READBIT % 256) 1 (d._start tr))).clkRises
          = (observe d tr).clkRises + 8
      ∧ (observe d (d._togglewrite (bitSet A DS1302_READBIT % 256) 1 (d._start tr))).falls = 7
      ∧ (observe d (d._togglewrite (bitSet A DS1302_READBIT % 256) 1 (d._start tr))).sampled
          = []
      ∧ (observe d (d._togglereadBit env
            (0, d._togglewrite (bitSet A DS1302_READBIT % 256) 1 (d._start tr)) 0).2).clkRises
          = (observe d tr).clkRises + 8
      ∧ (observe d (d._togglereadBit env
            (0, d._togglewrite (bitSet A DS1302_READBIT % 256) 1 (d._start tr)) 0).2).falls = 8
      ∧ (observe d (d._togglereadBit env
            (0, d._togglewrite (bitSet A DS1302_READBIT % 256) 1
              (d._start tr)) 0).2).sampled.length = 1
      ∧ (observe d (d._toggleread env
            (d._togglewrite (bitSet A DS1302_READBIT % 256) 1 (d._start tr))).2).clkRises
          = (observe d tr).clkRises + 15
      ∧ (observe d (d._toggleread env
            (d._togglewrite (bitSet A DS1302_READBIT % 256) 1 (d._start tr))).2).falls = 15
      ∧ (observe d (d._read env A tr).2).clkRises = (observe d tr).clkRises + 15
      ∧ (observe d (d._read env A tr).2).clkFalls
          = (observe d tr).clkFalls + (if (observe d tr).sclk then 1 else 0) + 15)
    ∧ ((observe d (d._togglewrite DS1302_CLOCK_BURST_READ 1 (d._start tr))).sclk = true
      ∧ (observe d (d._togglewrite DS1302_CLOCK_BURST_READ 1 (d._start tr))).clkRises
          = (observe d tr).clkRises + 8
      ∧ (observe d (d._togglewrite DS1302_CLOCK_BURST_READ 1 (d._start tr))).falls = 7
      ∧ (observe d (d._togglereadBit env
            (0, d._togglewrite DS1302_CLOCK_BURST_READ 1 (d._start tr)) 0).2).clkRises
          = (observe d tr).clkRises + 8
      ∧ (observe d (d._togglereadBit env
            (0, d._togglewrite DS1302_CLOCK_BURST_READ 1 (d._start tr)) 0).2).falls = 8
      ∧ (observe d (d._burstread env tr).2).clkRises = (observe d tr).clkRises + 71
      ∧ (observe d (d._burstread env tr).2).clkFalls
          = (observe d tr).clkFalls + (if (observe d tr).sclk then 1 else 0) + 71) := by
  have h0 := observe_start d hd tr hidle
  have h1 := togglewrite_release_step d hd (bitSet A DS1302_READBIT % 256) 1 _ (by decide)
    _ _ _ _ _ _ _ _ _ _ h0
  have h2 := togglereadBit_after_release d hd env _ 0 0 _ _ _ _ _ _ _ _ _ _ h1
  have h3 := toggleread_step d hd env _ _ _ _ _ _ _ _ _ _ _ _ h1
  have k1 := togglewrite_release_step d hd DS1302_CLOCK_BURST_READ 1 _ (by decide)
    _ _ _ _ _ _ _ _ _ _ h0
  have k2 := togglereadBit_after_release d hd env _ 0 0 _ _ _ _ _ _ _ _ _ _ k1
  refine ⟨⟨rfl, ?_, ?_, ?_, ?_, ?_, ?_, ?_, ?_, ?_, ?_, ?_, ?_⟩, ⟨?_, ?_, ?_, ?_, ?_, ?_, ?_⟩⟩
  · rw [h0]
  · rw [h1]
  · rw [h1]
  · rw [h1]
  · rw [h1]
  · rw [h2]
  · rw [h2]
  · rw [h2]; simp
  · rw [h3]; simp [Nat.add_assoc]
  · rw [h3]
  · rw [observe_read d hd env A tr hidle]
  · rw [observe_read d hd env A tr hidle]
  · rw [k1]
  · rw [k1]
  · rw [k1]
  · rw [k2]
  · rw [k2]
  · rw [observe_burstread d hd env tr hidle]
  · rw [observe_burstread d hd env tr hidle]

/-- Witness for C19: reading the seconds register on the pins 4, 5 and 6 after
power-on takes 15 rising clock edges. -/
theorem turnaround_no_extra_pulse_witness :
    (observe ⟨4, 5, 6⟩ ((⟨4, 5, 6⟩ : RtcDS1302)._read (fun _ _ => true)
      DS1302_SECONDS []).2).clkRises = (observe ⟨4, 5, 6⟩ []).clkRises + 15 :=
  (turnaround_no_extra_pulse ⟨4, 5, 6⟩ (by decide) (fun _ _ => true) DS1302_SECONDS []
    rfl).1.2.2.2.2.2.2.2.2.2.2.2.1

end WiFiPower
